import Mathlib

/-!
Verification development for the TRBK e-book container of the trustyx4
repository.

The development shallowly embeds, from the repository sources:
  * the container decoder `parse_trbk`, the page-instruction interpreter
    `parse_trbk_page_ops`, the TOC and glyph-table decoders
    (src/core/src/trbk.rs);
  * the encoder `write_trbk`, the word-wrap engine `wrap_runs`, the
    paginator `paginate_lines` and their helpers
    (src/tools/trusty-book/src/lib.rs);
  * the device-side streaming reader `open_trbk` / `trbk_page`
    (src/x4/src/image_source.rs);
  * the text renderer `draw_trbk_text` / `find_glyph`
    (src/core/src/application.rs).

Byte strings are `List Nat` with every element < 256; Rust `String`s are
modelled as their lists of Unicode scalar values (`List Nat`), with the
UTF-8 byte encoding made explicit where the container stores text.
Machine-integer casts and saturating operations are modelled with explicit
`%`/clamping arithmetic.  All fallible operations return
`Except ImageError`.
-/

namespace Trbk

/-- `ImageError` from src/core/src/image_viewer.rs.  The `Message` payload
string is irrelevant to the claims and is dropped. -/
inductive ImageError where
  | Io : ImageError
  | Decode : ImageError
  | Unsupported : ImageError
  | Message : ImageError
deriving DecidableEq, Repr

/-! ## Byte-level primitives (little-endian readers from src/core/src/trbk.rs) -/

/-- Byte of `data` at `offset` (only meaningful below `data.length`). -/
def byteAt (data : List Nat) (offset : Nat) : Nat := data.getD offset 0

/-- `read_u16` from src/core/src/trbk.rs: bounds-checked little-endian u16. -/
def read_u16 (data : List Nat) (offset : Nat) : Except ImageError Nat :=
  if offset + 2 > data.length then .error .Decode
  else .ok (byteAt data offset + 256 * byteAt data (offset + 1))

/-- `read_u32` from src/core/src/trbk.rs: bounds-checked little-endian u32. -/
def read_u32 (data : List Nat) (offset : Nat) : Except ImageError Nat :=
  if offset + 4 > data.length then .error .Decode
  else .ok (byteAt data offset + 256 * byteAt data (offset + 1) +
      65536 * byteAt data (offset + 2) + 16777216 * byteAt data (offset + 3))

/-- Interpret a `Nat` below 2^16 as a two's-complement `i16`. -/
def asI16 (n : Nat) : Int :=
  if n % 65536 < 32768 then (n % 65536 : Int) else (n % 65536 : Int) - 65536

/-- Interpret a `Nat` below 2^32 as a two's-complement `i32`. -/
def asI32 (n : Nat) : Int :=
  if n % 4294967296 < 2147483648 then (n % 4294967296 : Int)
  else (n % 4294967296 : Int) - 4294967296

/-- `read_i16_from`'s underlying read: bounds-checked little-endian i16. -/
def read_i16 (data : List Nat) (offset : Nat) : Except ImageError Int :=
  if offset + 2 > data.length then .error .Decode
  else .ok (asI16 (byteAt data offset + 256 * byteAt data (offset + 1)))

/-- Little-endian two-byte encoding of `n % 2^16` (Rust `u16::to_le_bytes`). -/
def le16 (n : Nat) : List Nat := [n % 256, n / 256 % 256]

/-- Little-endian four-byte encoding of `n % 2^32` (Rust `u32::to_le_bytes`). -/
def le32 (n : Nat) : List Nat :=
  [n % 256, n / 256 % 256, n / 65536 % 256, n / 16777216 % 256]

/-- Little-endian two-byte encoding of an `i16` value (Rust
`i16::to_le_bytes`), via its two's-complement representative. -/
def le16i (v : Int) : List Nat := le16 (v % 65536).toNat

@[simp] theorem length_le16 (n : Nat) : (le16 n).length = 2 := rfl

@[simp] theorem length_le32 (n : Nat) : (le32 n).length = 4 := rfl

@[simp] theorem length_le16i (v : Int) : (le16i v).length = 2 := rfl

/-! ## UTF-8 encoding and decoding

The encoder stores `String::as_bytes()`; the decoder applies
`core::str::from_utf8`.  Strings are modelled as lists of Unicode scalar
values, so the byte encoding and the validating decoding are made explicit
here. -/

/-- A Unicode scalar value: in range and not a surrogate (what a Rust
`char` can hold). -/
def ScalarValue (c : Nat) : Prop :=
  c < 1114112 ∧ (c < 55296 ∨ 57343 < c)

instance (c : Nat) : Decidable (ScalarValue c) := by
  unfold ScalarValue; infer_instance

/-- UTF-8 encoding of one scalar value. -/
def utf8EncodeChar (c : Nat) : List Nat :=
  if c < 128 then [c]
  else if c < 2048 then [192 + c / 64, 128 + c % 64]
  else if c < 65536 then [224 + c / 4096, 128 + c / 64 % 64, 128 + c % 64]
  else [240 + c / 262144, 128 + c / 4096 % 64, 128 + c / 64 % 64, 128 + c % 64]

/-- UTF-8 encoding of a string of scalar values (Rust `String::as_bytes`). -/
def utf8Encode (s : List Nat) : List Nat := (s.map utf8EncodeChar).flatten

/-- Is `b` a UTF-8 continuation byte? -/
def isCont (b : Nat) : Bool := 128 ≤ b && b ≤ 191

/-- Scalar value assembled from a two-byte sequence. -/
def cp2 (b0 b1 : Nat) : Nat := (b0 - 192) * 64 + (b1 - 128)

/-- Scalar value assembled from a three-byte sequence. -/
def cp3 (b0 b1 b2 : Nat) : Nat := (b0 - 224) * 4096 + (b1 - 128) * 64 + (b2 - 128)

/-- Scalar value assembled from a four-byte sequence. -/
def cp4 (b0 b1 b2 b3 : Nat) : Nat :=
  (b0 - 240) * 262144 + (b1 - 128) * 4096 + (b2 - 128) * 64 + (b3 - 128)

/-- One step of UTF-8 decoding: the first scalar value and the remaining
bytes, or `none` on the sequences Rust rejects (bad leading bytes, missing
or malformed continuation bytes, overlong forms, surrogates, values above
U+10FFFF). -/
def utf8DecodeStep : List Nat → Option (Nat × List Nat)
  | [] => none
  | b0 :: rest =>
    if b0 < 128 then some (b0, rest)
    else if 194 ≤ b0 ∧ b0 ≤ 223 then
      match rest with
      | b1 :: r => if isCont b1 then some (cp2 b0 b1, r) else none
      | [] => none
    else if 224 ≤ b0 ∧ b0 ≤ 239 then
      match rest with
      | b1 :: b2 :: r =>
        if (if b0 = 224 then 160 ≤ b1 && b1 ≤ 191
            else if b0 = 237 then 128 ≤ b1 && b1 ≤ 159
            else isCont b1) && isCont b2 then
          some (cp3 b0 b1 b2, r)
        else none
      | _ => none
    else if 240 ≤ b0 ∧ b0 ≤ 244 then
      match rest with
      | b1 :: b2 :: b3 :: r =>
        if (if b0 = 240 then 144 ≤ b1 && b1 ≤ 191
            else if b0 = 244 then 128 ≤ b1 && b1 ≤ 143
            else isCont b1) && isCont b2 && isCont b3 then
          some (cp4 b0 b1 b2 b3, r)
        else none
      | _ => none
    else none

/-- A successful decode step strictly shrinks the byte string. -/
theorem utf8DecodeStep_length {l : List Nat} {c : Nat} {r : List Nat}
    (h : utf8DecodeStep l = some (c, r)) : r.length < l.length := by
  match l with
  | [] => simp [utf8DecodeStep] at h
  | [b0] =>
    simp only [utf8DecodeStep] at h
    split_ifs at h <;> simp_all <;> try omega
  | [b0, b1] =>
    simp only [utf8DecodeStep] at h
    split_ifs at h <;> simp_all <;> try omega
  | [b0, b1, b2] =>
    simp only [utf8DecodeStep] at h
    split_ifs at h <;> simp_all <;> try omega
  | b0 :: b1 :: b2 :: b3 :: rest =>
    simp only [utf8DecodeStep] at h
    split_ifs at h <;> simp_all <;> try omega

/-- The decoding loop, driven by a step-count bound (each step consumes at
least one byte, so a bound of the byte length is always enough; the
zero-bound non-empty case is unreachable from `utf8Decode`). -/
def utf8DecodeLoop : Nat → List Nat → Option (List Nat)
  | _, [] => some []
  | 0, _ :: _ => none
  | fuel + 1, b0 :: rest =>
    match utf8DecodeStep (b0 :: rest) with
    | none => none
    | some (c, r) => (utf8DecodeLoop fuel r).map (c :: ·)

/-- Validating UTF-8 decoder (`core::str::from_utf8` followed by reading
the string's scalar values). -/
def utf8Decode (l : List Nat) : Option (List Nat) := utf8DecodeLoop l.length l

/-- The loop is insensitive to the step-count bound once it covers the
byte length. -/
theorem utf8DecodeLoop_fuel (f1 : Nat) :
    ∀ (f2 : Nat) (l : List Nat), l.length ≤ f1 → l.length ≤ f2 →
      utf8DecodeLoop f1 l = utf8DecodeLoop f2 l := by
  induction f1 with
  | zero =>
    intro f2 l h1 h2
    match l, h1 with
    | [], _ =>
      cases f2 <;> rfl
  | succ f ih =>
    intro f2 l h1 h2
    match l with
    | [] => cases f2 <;> rfl
    | b :: bs =>
      match f2, h2 with
      | g + 1, hg =>
        show (match utf8DecodeStep (b :: bs) with
          | none => none
          | some (c, r) => (utf8DecodeLoop f r).map (c :: ·)) =
          (match utf8DecodeStep (b :: bs) with
          | none => none
          | some (c, r) => (utf8DecodeLoop g r).map (c :: ·))
        cases hstep : utf8DecodeStep (b :: bs) with
        | none => rfl
        | some cr =>
          obtain ⟨c, r⟩ := cr
          have hlen := utf8DecodeStep_length hstep
          simp only [List.length_cons] at hlen h1 hg
          simp only []
          rw [ih g r (by omega) (by omega)]

/-- A decode step inverts the encoding of one scalar value. -/
theorem utf8DecodeStep_encodeChar (c : Nat) (h : ScalarValue c) (t : List Nat) :
    utf8DecodeStep (utf8EncodeChar c ++ t) = some (c, t) := by
  obtain ⟨hlt, hsur⟩ := h
  unfold utf8EncodeChar
  by_cases h1 : c < 128
  · simp [utf8DecodeStep, h1]
  · by_cases h2 : c < 2048
    · have hb0 : 194 ≤ 192 + c / 64 ∧ 192 + c / 64 ≤ 223 := by omega
      have hb0' : ¬ (192 + c / 64 < 128) := by omega
      simp only [if_neg h1, if_pos h2, List.cons_append, List.nil_append]
      unfold utf8DecodeStep
      simp only [if_neg hb0', if_pos hb0]
      have hcont : isCont (128 + c % 64) = true := by
        unfold isCont; simp only [Bool.and_eq_true, decide_eq_true_eq]; omega
      simp only [hcont, if_true]
      have : cp2 (192 + c / 64) (128 + c % 64) = c := by
        unfold cp2; omega
      rw [this]
    · by_cases h3 : c < 65536
      · have hb0 : 224 ≤ 224 + c / 4096 ∧ 224 + c / 4096 ≤ 239 := by omega
        have hb0' : ¬ (224 + c / 4096 < 128) := by omega
        have hb0'' : ¬ (194 ≤ 224 + c / 4096 ∧ 224 + c / 4096 ≤ 223) := by omega
        simp only [if_neg h1, if_neg h2, if_pos h3, List.cons_append, List.nil_append]
        unfold utf8DecodeStep
        simp only [if_neg hb0', if_neg hb0'', if_pos hb0]
        have hguard : (if 224 + c / 4096 = 224 then
              160 ≤ 128 + c / 64 % 64 && 128 + c / 64 % 64 ≤ 191
            else if 224 + c / 4096 = 237 then
              128 ≤ 128 + c / 64 % 64 && 128 + c / 64 % 64 ≤ 159
            else isCont (128 + c / 64 % 64)) = true := by
          by_cases he : 224 + c / 4096 = 224
          · simp only [if_pos he, Bool.and_eq_true, decide_eq_true_eq]; omega
          · by_cases he' : 224 + c / 4096 = 237
            · simp only [if_neg he, if_pos he', Bool.and_eq_true, decide_eq_true_eq]; omega
            · simp only [if_neg he, if_neg he']
              unfold isCont
              simp only [Bool.and_eq_true, decide_eq_true_eq]; omega
        have hcont : isCont (128 + c % 64) = true := by
          unfold isCont; simp only [Bool.and_eq_true, decide_eq_true_eq]; omega
        simp only [hguard, hcont, Bool.and_self, if_true]
        have : cp3 (224 + c / 4096) (128 + c / 64 % 64) (128 + c % 64) = c := by
          unfold cp3; omega
        rw [this]
      · have hb0 : 240 ≤ 240 + c / 262144 ∧ 240 + c / 262144 ≤ 244 := by omega
        have hb0' : ¬ (240 + c / 262144 < 128) := by omega
        have hb0'' : ¬ (194 ≤ 240 + c / 262144 ∧ 240 + c / 262144 ≤ 223) := by omega
        have hb0''' : ¬ (224 ≤ 240 + c / 262144 ∧ 240 + c / 262144 ≤ 239) := by omega
        simp only [if_neg h1, if_neg h2, if_neg h3, List.cons_append, List.nil_append]
        unfold utf8DecodeStep
        simp only [if_neg hb0', if_neg hb0'', if_neg hb0''', if_pos hb0]
        have hguard : (if 240 + c / 262144 = 240 then
              144 ≤ 128 + c / 4096 % 64 && 128 + c / 4096 % 64 ≤ 191
            else if 240 + c / 262144 = 244 then
              128 ≤ 128 + c / 4096 % 64 && 128 + c / 4096 % 64 ≤ 143
            else isCont (128 + c / 4096 % 64)) = true := by
          by_cases he : 240 + c / 262144 = 240
          · simp only [if_pos he, Bool.and_eq_true, decide_eq_true_eq]; omega
          · by_cases he' : 240 + c / 262144 = 244
            · simp only [if_neg he, if_pos he', Bool.and_eq_true, decide_eq_true_eq]; omega
            · simp only [if_neg he, if_neg he']
              unfold isCont
              simp only [Bool.and_eq_true, decide_eq_true_eq]; omega
        have hcont2 : isCont (128 + c / 64 % 64) = true := by
          unfold isCont; simp only [Bool.and_eq_true, decide_eq_true_eq]; omega
        have hcont3 : isCont (128 + c % 64) = true := by
          unfold isCont; simp only [Bool.and_eq_true, decide_eq_true_eq]; omega
        simp only [hguard, hcont2, hcont3, Bool.and_self, if_true]
        have : cp4 (240 + c / 262144) (128 + c / 4096 % 64) (128 + c / 64 % 64)
            (128 + c % 64) = c := by
          unfold cp4; omega
        rw [this]

/-- The one-character encoding is never empty. -/
theorem utf8EncodeChar_ne_nil (c : Nat) : utf8EncodeChar c ≠ [] := by
  unfold utf8EncodeChar
  split_ifs <;> simp

/-- Decoding inverts encoding, one scalar value at a time. -/
theorem utf8Decode_encodeChar_append (c : Nat) (h : ScalarValue c) (t : List Nat) :
    utf8Decode (utf8EncodeChar c ++ t) = (utf8Decode t).map (c :: ·) := by
  have hstep := utf8DecodeStep_encodeChar c h t
  unfold utf8Decode
  cases hE : utf8EncodeChar c with
  | nil => exact absurd hE (utf8EncodeChar_ne_nil c)
  | cons b bs =>
    rw [hE] at hstep
    show utf8DecodeLoop ((bs ++ t).length + 1) (b :: (bs ++ t)) = _
    show (match utf8DecodeStep (b :: (bs ++ t)) with
      | none => none
      | some (c, r) => (utf8DecodeLoop (bs ++ t).length r).map (c :: ·)) = _
    rw [show utf8DecodeStep (b :: (bs ++ t)) = some (c, t) from hstep]
    simp only []
    rw [utf8DecodeLoop_fuel (bs ++ t).length t.length t (by simp) (le_refl _)]

/-- Decoding inverts encoding on whole strings of scalar values. -/
theorem utf8Decode_utf8Encode (s : List Nat) (h : ∀ c ∈ s, ScalarValue c) :
    utf8Decode (utf8Encode s) = some s := by
  induction s with
  | nil => rfl
  | cons c t ih =>
    have hc : ScalarValue c := h c (List.mem_cons_self c t)
    have ht : ∀ x ∈ t, ScalarValue x := fun x hx => h x (List.mem_cons_of_mem c hx)
    unfold utf8Encode
    simp only [List.map_cons, List.flatten_cons]
    rw [utf8Decode_encodeChar_append c hc]
    have := ih ht
    unfold utf8Encode at this
    rw [this]
    rfl

/-! ## Decoder data model (src/core/src/trbk.rs) -/

/-- `TrbkOp`: the single current page opcode. `x`/`y` are `i32` in the
source (read from `u16` fields, hence non-negative); `text` is the string's
scalar values. -/
inductive TrbkOp where
  | TextRun (x y : Int) (style : Nat) (text : List Nat) : TrbkOp
deriving DecidableEq, Repr

/-- The text carried by a page op. -/
def TrbkOp.text : TrbkOp → List Nat
  | .TextRun _ _ _ t => t

/-- `TrbkPage`. -/
structure TrbkPage where
  ops : List TrbkOp
deriving DecidableEq, Repr

/-- `TrbkGlyph`. -/
structure TrbkGlyph where
  codepoint : Nat
  style : Nat
  width : Nat
  height : Nat
  x_advance : Int
  x_offset : Int
  y_offset : Int
  bitmap : List Nat
deriving DecidableEq, Repr

/-- `TrbkTocEntry`. -/
structure TrbkTocEntry where
  title : List Nat
  page_index : Nat
  level : Nat
deriving DecidableEq, Repr

/-- `TrbkMetadata`. -/
structure TrbkMetadata where
  title : List Nat
  author : List Nat
  language : List Nat
  identifier : List Nat
  font_name : List Nat
  char_width : Nat
  line_height : Nat
  ascent : Int
  margin_left : Nat
  margin_right : Nat
  margin_top : Nat
  margin_bottom : Nat
deriving DecidableEq, Repr

/-- `TrbkBook`. -/
structure TrbkBook where
  screen_width : Nat
  screen_height : Nat
  pages : List TrbkPage
  metadata : TrbkMetadata
  glyphs : List TrbkGlyph
  page_count : Nat
  toc : List TrbkTocEntry
deriving DecidableEq, Repr

/-- `TrbkBookInfo` (header-derived data kept by the device). -/
structure TrbkBookInfo where
  screen_width : Nat
  screen_height : Nat
  page_count : Nat
  metadata : TrbkMetadata
  glyphs : List TrbkGlyph
  toc : List TrbkTocEntry
deriving DecidableEq, Repr

/-! ## Decoder (src/core/src/trbk.rs) -/

/-- `read_string` from src/core/src/trbk.rs: length-prefixed UTF-8 string
at `cursor`; returns the scalar values and the advanced cursor. -/
def read_string (data : List Nat) (cursor : Nat) :
    Except ImageError (List Nat × Nat) :=
  match read_u32 data cursor with
  | .error e => .error e
  | .ok len =>
    if cursor + 4 + len > data.length then .error .Decode
    else
      match utf8Decode ((data.drop (cursor + 4)).take len) with
      | none => .error .Decode
      | some s => .ok (s, cursor + 4 + len)

/-- `parse_trbk_page_ops` from src/core/src/trbk.rs: walks the opcode
stream; opcode 0x01 yields a `TextRun`, every other opcode is skipped by
its length field; a declared payload overrunning the buffer, a 0x01
payload shorter than 6 bytes, or invalid UTF-8 text is a Decode error;
a trailing fragment shorter than a 3-byte record header ends the walk. -/
def parse_ops_loop : Nat → List Nat → Except ImageError (List TrbkOp)
  | _, [] => .ok []
  | _, [_] => .ok []
  | _, [_, _] => .ok []
  | 0, _ :: _ :: _ :: _ => .error .Decode
  | fuel + 1, opcode :: l1 :: l2 :: rest =>
    let length := l1 + 256 * l2
    if rest.length < length then .error .Decode
    else
      let payload := rest.take length
      let remain := rest.drop length
      if opcode = 1 then
        if payload.length < 6 then .error .Decode
        else
          match utf8Decode (payload.drop 6) with
          | none => .error .Decode
          | some text =>
            match parse_ops_loop fuel remain with
            | .error e => .error e
            | .ok ops =>
              .ok (.TextRun (byteAt payload 0 + 256 * byteAt payload 1)
                (byteAt payload 2 + 256 * byteAt payload 3)
                (byteAt payload 4) text :: ops)
      else parse_ops_loop fuel remain

/-- The interpreter entry point: each record consumes at least 3 bytes,
so a step-count bound of the byte length always suffices (the zero-bound
case with 3 or more bytes left is unreachable). -/
def parse_trbk_page_ops (data : List Nat) : Except ImageError (List TrbkOp) :=
  parse_ops_loop data.length data

/-- One TOC record at `cursor` followed by `n` more (loop body of
`parse_trbk_toc`). -/
def parse_trbk_toc_loop (data : List Nat) (cursor : Nat) :
    Nat → Except ImageError (List TrbkTocEntry)
  | 0 => .ok []
  | n + 1 =>
    match read_string data cursor with
    | .error e => .error e
    | .ok (title, c1) =>
      if c1 + 4 + 1 + 1 + 2 > data.length then .error .Decode
      else
        match read_u32 data c1 with
        | .error e => .error e
        | .ok page_index =>
          let level := byteAt data (c1 + 4)
          match parse_trbk_toc_loop data (c1 + 8) n with
          | .error e => .error e
          | .ok rest => .ok (⟨title, page_index, level⟩ :: rest)

/-- `parse_trbk_toc` from src/core/src/trbk.rs. -/
def parse_trbk_toc (data : List Nat) (offset count : Nat) :
    Except ImageError (List TrbkTocEntry) :=
  if offset > data.length then .error .Decode
  else parse_trbk_toc_loop data offset count

/-- One glyph record at `cursor` followed by `n` more (loop body of
`parse_glyphs`). -/
def parse_glyphs_loop (data : List Nat) (cursor : Nat) :
    Nat → Except ImageError (List TrbkGlyph)
  | 0 => .ok []
  | n + 1 =>
    if cursor + 4 + 1 + 1 + 1 + 2 + 2 + 2 + 4 > data.length then .error .Decode
    else
      match read_u32 data cursor with
      | .error e => .error e
      | .ok codepoint =>
        let style := byteAt data (cursor + 4)
        let width := byteAt data (cursor + 5)
        let height := byteAt data (cursor + 6)
        let x_advance := asI16 (byteAt data (cursor + 7) + 256 * byteAt data (cursor + 8))
        let x_offset := asI16 (byteAt data (cursor + 9) + 256 * byteAt data (cursor + 10))
        let y_offset := asI16 (byteAt data (cursor + 11) + 256 * byteAt data (cursor + 12))
        match read_u32 data (cursor + 13) with
        | .error e => .error e
        | .ok bitmap_len =>
          if cursor + 17 + bitmap_len > data.length then .error .Decode
          else
            let bitmap := (data.drop (cursor + 17)).take bitmap_len
            match parse_glyphs_loop data (cursor + 17 + bitmap_len) n with
            | .error e => .error e
            | .ok rest =>
              .ok (⟨codepoint, style, width, height, x_advance, x_offset,
                y_offset, bitmap⟩ :: rest)

/-- `parse_glyphs` from src/core/src/trbk.rs. -/
def parse_glyphs (data : List Nat) (offset count : Nat) :
    Except ImageError (List TrbkGlyph) :=
  if offset > data.length then .error .Decode
  else parse_glyphs_loop data offset count

/-- Start of page `i`'s byte range as computed by the decoder:
`page_data_offset + offsets[i]`. -/
def pageStart (pdo : Nat) (offsets : List Nat) (i : Nat) : Nat :=
  pdo + offsets.getD i 0

/-- End of page `i`'s byte range as computed by the decoder: the next LUT
entry, or for the last page the glyph-table offset (v2, when it lies past
the page data start) or the end of the data. -/
def pageEnd (dataLen version pdo gto : Nat) (offsets : List Nat) (i : Nat) : Nat :=
  if i + 1 < offsets.length then pdo + offsets.getD (i + 1) 0
  else if 2 ≤ version ∧ gto > pdo then gto
  else dataLen

/-- The page-extraction loop of `parse_trbk`: for each page index checks
`start ≤ end ≤ data.length` (else Decode) and parses the slice's opcode
stream. -/
def parse_pages (data : List Nat) (version pdo gto : Nat) (offsets : List Nat) :
    Nat → Nat → Except ImageError (List TrbkPage)
  | _, 0 => .ok []
  | i, n + 1 =>
    let s := pageStart pdo offsets i
    let e := pageEnd data.length version pdo gto offsets i
    if s > data.length ∨ e > data.length ∨ s > e then .error .Decode
    else
      match parse_trbk_page_ops ((data.drop s).take (e - s)) with
      | .error er => .error er
      | .ok ops =>
        match parse_pages data version pdo gto offsets (i + 1) n with
        | .error er => .error er
        | .ok rest => .ok (⟨ops⟩ :: rest)

/-- The page-LUT read loop of `parse_trbk`: `count` little-endian u32
offsets starting at `pos`. -/
def read_offsets (data : List Nat) (pos : Nat) :
    Nat → Except ImageError (List Nat)
  | 0 => .ok []
  | n + 1 =>
    match read_u32 data pos with
    | .error e => .error e
    | .ok off =>
      match read_offsets data (pos + 4) n with
      | .error e => .error e
      | .ok rest => .ok (off :: rest)

/-- `i16::saturating_sub`. -/
def satSubI16 (a b : Int) : Int := max (-32768) (min 32767 (a - b))

/-- The magic bytes `"TRBK"`. -/
def magicBytes : List Nat := [0x54, 0x52, 0x42, 0x4B]

/-- `parse_trbk` from src/core/src/trbk.rs. -/
def parse_trbk (data : List Nat) : Except ImageError TrbkBook := do
  if data.length < 0x2C ∨ data.take 4 ≠ magicBytes then
    throw ImageError.Decode
  let version := byteAt data 4
  if version ≠ 1 ∧ version ≠ 2 then
    throw ImageError.Unsupported
  let header_size ← read_u16 data 0x06
  let screen_width ← read_u16 data 0x08
  let screen_height ← read_u16 data 0x0A
  let page_count ← read_u32 data 0x0C
  let toc_count ← read_u32 data 0x10
  let page_lut_offset ← read_u32 data 0x14
  let toc_offset ← read_u32 data 0x18
  let page_data_offset ← read_u32 data 0x1C
  let _images_offset ← read_u32 data 0x20
  let gpair ← if 2 ≤ version then do
      let gc ← read_u32 data 0x28
      let gt ← read_u32 data 0x2C
      pure (gc, gt)
    else pure (0, 0)
  let glyph_count := gpair.1
  let glyph_table_offset := gpair.2
  if data.length < header_size ∨ toc_offset ≠ header_size then
    throw ImageError.Decode
  if toc_count ≠ 0 ∧ data.length < toc_offset then
    throw ImageError.Decode
  if data.length < page_lut_offset then
    throw ImageError.Decode
  let c0 := if 2 ≤ version then 0x30 else 0x2C
  let (title, c1) ← read_string data c0
  let (author, c2) ← read_string data c1
  let (language, c3) ← read_string data c2
  let (identifier, c4) ← read_string data c3
  let (font_name, c5) ← read_string data c4
  let char_width ← read_u16 data c5
  let line_height ← read_u16 data (c5 + 2)
  let c6 := c5 + 4
  let remaining := header_size - c6
  let fields ← if 12 ≤ remaining then do
      let ascent ← read_i16 data c6
      let margin_left ← read_u16 data (c6 + 2)
      let margin_right ← read_u16 data (c6 + 4)
      let margin_top ← read_u16 data (c6 + 6)
      let margin_bottom ← read_u16 data (c6 + 8)
      pure (ascent, margin_left, margin_right, margin_top, margin_bottom, c6 + 10)
    else do
      let margin_left ← read_u16 data c6
      let margin_right ← read_u16 data (c6 + 2)
      let margin_top ← read_u16 data (c6 + 4)
      let margin_bottom ← read_u16 data (c6 + 6)
      let ascent := satSubI16 (asI16 line_height) (Int.tdiv (asI16 line_height) 4)
      pure (ascent, margin_left, margin_right, margin_top, margin_bottom, c6 + 8)
  let (ascent, margin_left, margin_right, margin_top, margin_bottom, c7) := fields
  if c7 > data.length ∨ c7 > header_size then
    throw ImageError.Decode
  let toc ← if toc_count > 0 then parse_trbk_toc data toc_offset toc_count
    else pure []
  let lut_len := page_count * 4
  if page_lut_offset + lut_len > data.length then
    throw ImageError.Decode
  let page_offsets ← read_offsets data page_lut_offset page_count
  let pages ← parse_pages data version page_data_offset glyph_table_offset
    page_offsets 0 page_offsets.length
  let glyphs ← if 2 ≤ version ∧ glyph_count > 0 then
      parse_glyphs data glyph_table_offset glyph_count
    else pure []
  pure
    { screen_width := screen_width
      screen_height := screen_height
      pages := pages
      metadata :=
        { title := title
          author := author
          language := language
          identifier := identifier
          font_name := font_name
          char_width := char_width
          line_height := line_height
          ascent := ascent
          margin_left := margin_left
          margin_right := margin_right
          margin_top := margin_top
          margin_bottom := margin_bottom }
      glyphs := glyphs
      page_count := page_count
      toc := toc }

/-! ## Encoder (src/tools/trusty-book/src/lib.rs)

Encoder-side types live in the `Book` namespace (they come from the
`trusty-book` crate, whose `TrbkMetadata`/`TrbkTocEntry` differ from the
decoder types of the same names). -/

namespace Book

/-- `trusty_epub::TextStyle`. -/
structure TextStyle where
  bold : Bool
  italic : Bool
deriving DecidableEq, Repr

/-- `TextStyle::default()`. -/
def TextStyle.default : TextStyle := ⟨false, false⟩

/-- `trusty_epub::TextRun`: text is the string's scalar values. -/
structure TextRun where
  text : List Nat
  style : TextStyle
deriving DecidableEq, Repr

/-- `StyleId`. -/
inductive StyleId where
  | Regular : StyleId
  | Bold : StyleId
  | Italic : StyleId
  | BoldItalic : StyleId
deriving DecidableEq, Repr

/-- The discriminant values of `StyleId` (`StyleId as u8`). -/
def StyleId.toNat : StyleId → Nat
  | .Regular => 0
  | .Bold => 1
  | .Italic => 2
  | .BoldItalic => 3

/-- `style_id_from_style`. -/
def style_id_from_style (style : TextStyle) : StyleId :=
  match style.bold, style.italic with
  | false, false => .Regular
  | true, false => .Bold
  | false, true => .Italic
  | true, true => .BoldItalic

/-- `RunLine` (also used for pages: a page is a `RunLine` whose runs carry
explicit `"\n"` markers). -/
structure RunLine where
  spine_index : Int
  runs : List TextRun
deriving DecidableEq, Repr

/-- `RenderOptions`; `u16` fields as `Nat`, `i16` fields as `Int`. -/
structure RenderOptions where
  screen_width : Nat
  screen_height : Nat
  margin_x : Nat
  margin_y : Nat
  line_height : Nat
  char_width : Nat
  ascent : Int
  word_spacing : Int
deriving DecidableEq, Repr

/-- Encoder-side `TrbkMetadata` (title/author/language/identifier). -/
structure TrbkMetadata where
  title : List Nat
  author : List Nat
  language : List Nat
  identifier : List Nat
deriving DecidableEq, Repr

/-- Encoder-side `TrbkTocEntry`. -/
structure TrbkTocEntry where
  title : List Nat
  page_index : Nat
  level : Nat
deriving DecidableEq, Repr

/-- Encoder-side `Glyph`. -/
structure Glyph where
  codepoint : Nat
  style : StyleId
  width : Nat
  height : Nat
  x_advance : Int
  x_offset : Int
  y_offset : Int
  bitmap : List Nat
deriving DecidableEq, Repr

/-- The advance map built by `build_advance_map`, as a lookup function
(`HashMap::get` on `(StyleId, codepoint)`). -/
def AdvanceMap : Type := StyleId → Nat → Option Int

/-- `measure_token_width`: per-character advance from the map, falling
back to `char_width` for unknown codepoints.  The same loop is inlined in
`write_trbk` to advance the pen. -/
def measure_token_width (adv : AdvanceMap) (cw : Nat) (sid : StyleId)
    (text : List Nat) : Int :=
  text.foldl (fun w cp => w + (match adv sid cp with
    | some a => a
    | none => (cw : Int))) 0

/-- `write_string`: length-prefixed UTF-8 bytes. -/
def write_string (s : List Nat) : List Nat :=
  le32 (utf8Encode s).length ++ utf8Encode s

/-- The scalar values of `"fontdue"`. -/
def fontdueStr : List Nat := [102, 111, 110, 116, 100, 117, 101]

/-- The metadata block written by `write_trbk`: five length-prefixed
strings then seven u16/i16 layout constants. -/
def metadataBytes (metadata : TrbkMetadata) (options : RenderOptions) : List Nat :=
  write_string metadata.title ++ write_string metadata.author ++
  write_string metadata.language ++ write_string metadata.identifier ++
  write_string fontdueStr ++
  le16 options.char_width ++ le16 options.line_height ++
  le16i options.ascent ++
  le16 options.margin_x ++ le16 options.margin_x ++
  le16 options.margin_y ++ le16 options.margin_y

/-- The TOC block written by `write_trbk`. -/
def tocBytes (entries : List TrbkTocEntry) : List Nat :=
  (entries.map (fun e =>
    write_string e.title ++ le32 e.page_index ++ [e.level, 0] ++ le16 0)).flatten

/-- `u16::saturating_add` of a pen position and `advance as u16` (the
truncating i32→u16 cast of the computed advance). -/
def satAddU16 (x : Nat) (advance : Int) : Nat :=
  min 65535 (x + (advance % 65536).toNat)

/-- The per-run record emission loop of `write_trbk`: a `"\n"` run resets
the pen and advances the baseline; any other run becomes an opcode-0x01
record whose payload is pen x, baseline (as u16), style id, a reserved
byte, and the UTF-8 text, after which the pen advances by the measured
text width (when positive). -/
def page_record_bytes (options : RenderOptions) (adv : AdvanceMap)
    (x : Nat) (baseline : Int) : List TextRun → List Nat
  | [] => []
  | run :: rest =>
    if run.text = [10] then
      page_record_bytes options adv options.margin_x
        (baseline + (options.line_height : Int)) rest
    else
      let sid := style_id_from_style run.style
      let payload := le16 x ++ le16i baseline ++ [sid.toNat, 0] ++
        utf8Encode run.text
      let advance := measure_token_width adv options.char_width sid run.text
      let x' := if 0 < advance then satAddU16 x advance else x
      (1 :: le16 payload.length ++ payload) ++
        page_record_bytes options adv x' baseline rest

/-- The opcode stream of one page as written by `write_trbk` (pen starts
at `margin_x`, baseline at `margin_y + ascent`). -/
def encodePage (options : RenderOptions) (adv : AdvanceMap) (page : RunLine) :
    List Nat :=
  page_record_bytes options adv options.margin_x
    ((options.margin_y : Int) + options.ascent) page.runs

/-- The page LUT and page data blocks written by `write_trbk`: each page
contributes a little-endian u32 offset (the data length so far) and its
opcode stream. -/
def pages_lut_data (options : RenderOptions) (adv : AdvanceMap) :
    List RunLine → Nat → List Nat × List Nat
  | [], _ => ([], [])
  | p :: rest, off =>
    let pd := encodePage options adv p
    let lutData := pages_lut_data options adv rest (off + pd.length)
    (le32 off ++ lutData.1, pd ++ lutData.2)

/-- One glyph record as written by `write_glyph_table`. -/
def glyph_bytes (g : Glyph) : List Nat :=
  le32 g.codepoint ++ [g.style.toNat, g.width, g.height] ++
  le16i g.x_advance ++ le16i g.x_offset ++ le16i g.y_offset ++
  le32 g.bitmap.length ++ g.bitmap

/-- `write_glyph_table`. -/
def write_glyph_table (glyphs : List Glyph) : List Nat :=
  (glyphs.map glyph_bytes).flatten

/-- `write_trbk` from src/tools/trusty-book/src/lib.rs, as the byte string
it writes to the output file. -/
def write_trbk (metadata : TrbkMetadata) (options : RenderOptions)
    (pages : List RunLine) (glyphs : List Glyph) (adv : AdvanceMap)
    (toc_entries : List TrbkTocEntry) : List Nat :=
  let toc_count := toc_entries.length
  let page_count := pages.length
  let glyph_count := glyphs.length
  let metadata_bytes := metadataBytes metadata options
  let header_size := (0x30 + metadata_bytes.length) % 65536
  let toc_offset := header_size
  let toc_bytes := tocBytes toc_entries
  let page_lut_offset := toc_offset + toc_bytes.length
  let lutData := pages_lut_data options adv pages 0
  let page_data_offset := page_lut_offset + lutData.1.length
  let glyph_table_offset := page_data_offset + lutData.2.length
  magicBytes ++ [2, 0] ++
  le16 header_size ++ le16 options.screen_width ++ le16 options.screen_height ++
  le32 page_count ++ le32 toc_count ++
  le32 page_lut_offset ++ le32 toc_offset ++ le32 page_data_offset ++
  le32 0 ++ le32 0 ++
  le32 glyph_count ++ le32 glyph_table_offset ++
  metadata_bytes ++
  (if toc_count ≠ 0 then toc_bytes else []) ++
  lutData.1 ++ lutData.2 ++ write_glyph_table glyphs

/-! ## Word-wrap engine (`wrap_runs`, src/tools/trusty-book/src/lib.rs) -/

/-- `char::is_whitespace` (the Unicode `White_Space` property), as used by
`str::split_whitespace`. -/
def isRustWhitespace (c : Nat) : Bool :=
  c = 9 ∨ c = 10 ∨ c = 11 ∨ c = 12 ∨ c = 13 ∨ c = 32 ∨ c = 133 ∨ c = 160 ∨
  c = 5760 ∨ (8192 ≤ c ∧ c ≤ 8202) ∨ c = 8232 ∨ c = 8233 ∨ c = 8239 ∨
  c = 8287 ∨ c = 12288

/-- `dropWhile` never lengthens a list. -/
theorem length_dropWhile_le (p : Nat → Bool) (l : List Nat) :
    (l.dropWhile p).length ≤ l.length := by
  induction l with
  | nil => simp [List.dropWhile]
  | cons a t ih =>
    simp only [List.dropWhile]
    split
    · simp only [List.length_cons]; omega
    · simp

/-- The tokenizing loop of `str::split_whitespace` (each step consumes at
least one character, so a step-count bound of the string length always
suffices; the zero-bound non-empty case is unreachable). -/
def split_whitespace_loop : Nat → List Nat → List (List Nat)
  | _, [] => []
  | 0, _ :: _ => []
  | fuel + 1, c :: rest =>
    if isRustWhitespace c then split_whitespace_loop fuel rest
    else
      (c :: rest.takeWhile (fun x => ¬ isRustWhitespace x)) ::
        split_whitespace_loop fuel (rest.dropWhile (fun x => ¬ isRustWhitespace x))

/-- `str::split_whitespace` on a string's scalar values. -/
def split_whitespace (l : List Nat) : List (List Nat) :=
  split_whitespace_loop l.length l

/-- `SpineRuns`: one chapter's extracted runs. -/
structure SpineRuns where
  spine_index : Int
  runs : List TextRun
deriving DecidableEq, Repr

/-- The mutable state of `wrap_runs`' loop. -/
structure WrapState where
  lines : List RunLine
  current : List TextRun
  current_width : Int
  current_spine : Int
deriving DecidableEq, Repr

/-- The per-token body of `wrap_runs`' innermost loop. -/
def wrap_token (options : RenderOptions) (adv : AdvanceMap) (max_width : Int)
    (style : TextStyle) (st : WrapState) (token : List Nat) : WrapState :=
  let sid := style_id_from_style style
  let token_width := measure_token_width adv options.char_width sid token
  if st.current_width = 0 then
    { st with current := st.current ++ [⟨token, style⟩],
              current_width := token_width }
  else
    let space_width :=
      measure_token_width adv options.char_width sid [32] + options.word_spacing
    if st.current_width + space_width + token_width ≤ max_width then
      { st with
          current := st.current ++ [⟨[32], style⟩, ⟨token, style⟩],
          current_width := st.current_width + space_width + token_width }
    else
      { st with
          lines := st.lines ++ [⟨st.current_spine, st.current⟩],
          current := [⟨token, style⟩],
          current_width := token_width }

/-- The per-run body of `wrap_runs`: wrap each whitespace-delimited token,
then flush the current line if the run's text contains a newline. -/
def wrap_run (options : RenderOptions) (adv : AdvanceMap) (max_width : Int)
    (st : WrapState) (run : TextRun) : WrapState :=
  let st := (split_whitespace run.text).foldl
    (wrap_token options adv max_width run.style) st
  if 10 ∈ run.text then
    if st.current ≠ [] then
      { st with lines := st.lines ++ [⟨st.current_spine, st.current⟩],
                current := [], current_width := 0 }
    else st
  else st

/-- The per-chapter body of `wrap_runs`: the current spine index is
overwritten before the chapter's runs are processed. -/
def wrap_spine (options : RenderOptions) (adv : AdvanceMap) (max_width : Int)
    (st : WrapState) (spine : SpineRuns) : WrapState :=
  spine.runs.foldl (wrap_run options adv max_width)
    { st with current_spine := spine.spine_index }

/-- The maximum line width computed at the top of `wrap_runs`:
`(screen_width - margin_x * 2).max(1)`. -/
def maxLineWidth (options : RenderOptions) : Int :=
  max ((options.screen_width : Int) - (options.margin_x : Int) * 2) 1

/-- `wrap_runs` from src/tools/trusty-book/src/lib.rs. -/
def wrap_runs (runs : List SpineRuns) (options : RenderOptions)
    (adv : AdvanceMap) : List RunLine :=
  let max_width : Int := maxLineWidth options
  let st := runs.foldl (wrap_spine options adv max_width) ⟨[], [], 0, -1⟩
  if st.current ≠ [] then st.lines ++ [⟨st.current_spine, st.current⟩]
  else st.lines

/-! ## Paginator (`paginate_lines`, src/tools/trusty-book/src/lib.rs) -/

/-- The `"\n"` pseudo-run appended after each line's runs. -/
def newlineRun : TextRun := ⟨[10], TextStyle.default⟩

/-- The scalar values of `"(empty)"`. -/
def emptyPlaceholder : List Nat := [40, 101, 109, 112, 116, 121, 41]

/-- The accumulation loop of `paginate_lines` over the input lines, with
state (finished pages, current page's runs, current page's spine index,
current line count). -/
def paginate_lines_loop (lpp : Nat) :
    List RunLine → List RunLine → List TextRun → Int → Nat → List RunLine
  | [], pages, page_runs, spine_index, _ =>
    if page_runs ≠ [] then pages ++ [⟨spine_index, page_runs⟩] else pages
  | line :: rest, pages, page_runs, spine_index, line_count =>
    let st :=
      if 0 ≤ spine_index ∧ 0 ≤ line.spine_index ∧
          line.spine_index ≠ spine_index ∧ page_runs ≠ [] then
        (pages ++ [(⟨spine_index, page_runs⟩ : RunLine)], ([] : List TextRun),
          (-1 : Int), 0)
      else (pages, page_runs, spine_index, line_count)
    let spine' := if st.2.2.1 < 0 then line.spine_index else st.2.2.1
    let page_runs' := st.2.1 ++ line.runs ++ [newlineRun]
    let line_count' := st.2.2.2 + 1
    if lpp ≤ line_count' then
      paginate_lines_loop lpp rest (st.1 ++ [⟨spine', page_runs'⟩]) [] (-1) 0
    else
      paginate_lines_loop lpp rest st.1 page_runs' spine' line_count'

/-- `paginate_lines` from src/tools/trusty-book/src/lib.rs.  (The source
divides by `line_height`, which a zero `line_height` would panic on;
theorems about this function assume `line_height ≠ 0`.) -/
def paginate_lines (lines : List RunLine) (options : RenderOptions) :
    List RunLine :=
  let usable_height := max (options.screen_height - options.margin_y * 2 % 65536) 1
  let lines_per_page := max (usable_height / options.line_height) 1
  let pages := paginate_lines_loop lines_per_page lines [] [] (-1) 0
  if pages = [] then [⟨-1, [⟨emptyPlaceholder, TextStyle.default⟩]⟩] else pages

/-- Instrumented paginator state: pages as the lists of input lines they
aggregate (same control flow as `paginate_lines_loop`; related to it by
`paginate_lines_loop_eq_groups`). -/
def paginate_groups_loop (lpp : Nat) :
    List RunLine → List (Int × List RunLine) → List RunLine → Int → Nat →
      List (Int × List RunLine)
  | [], pages, cur, spine_index, _ =>
    if cur ≠ [] then pages ++ [(spine_index, cur)] else pages
  | line :: rest, pages, cur, spine_index, line_count =>
    let st :=
      if 0 ≤ spine_index ∧ 0 ≤ line.spine_index ∧
          line.spine_index ≠ spine_index ∧ cur ≠ [] then
        (pages ++ [(spine_index, cur)], ([] : List RunLine), (-1 : Int), 0)
      else (pages, cur, spine_index, line_count)
    let spine' := if st.2.2.1 < 0 then line.spine_index else st.2.2.1
    let cur' := st.2.1 ++ [line]
    let line_count' := st.2.2.2 + 1
    if lpp ≤ line_count' then
      paginate_groups_loop lpp rest (st.1 ++ [(spine', cur')]) [] (-1) 0
    else
      paginate_groups_loop lpp rest st.1 cur' spine' line_count'

/-- The runs of a list of lines as assembled onto a page: each line's runs
followed by the `"\n"` marker. -/
def linesRuns (ls : List RunLine) : List TextRun :=
  (ls.map (fun l => l.runs ++ [newlineRun])).flatten

/-- A page group as the page `paginate_lines` builds from it. -/
def groupPage (g : Int × List RunLine) : RunLine := ⟨g.1, linesRuns g.2⟩

end Book

/-! ## Renderer (src/core/src/application.rs) -/

/-- `find_glyph`: first glyph matching `(style, codepoint)`. -/
def find_glyph (glyphs : List TrbkGlyph) (style : Nat) (codepoint : Nat) :
    Option TrbkGlyph :=
  glyphs.find? (fun glyph => glyph.style = style && glyph.codepoint = codepoint)

/-- Result of `draw_trbk_text`: final pen x, the glyphs drawn (with their
origin x and baseline), and whether the built-in-font fallback path for an
empty glyph table was taken (that path's drawing is outside the model). -/
structure DrawResult where
  penX : Int
  draws : List (TrbkGlyph × Int × Int)
  usedFallback : Bool
deriving DecidableEq, Repr

/-- The loop body of `draw_trbk_text`: CR/LF are skipped; a found glyph
is drawn at the current pen position and advances the pen by its
`x_advance`; a missing glyph draws nothing and advances the pen by
`metadata.char_width`. -/
def drawStep (book : TrbkBookInfo) (y : Int) (style : Nat)
    (st : Int × List (TrbkGlyph × Int × Int)) (ch : Nat) :
    Int × List (TrbkGlyph × Int × Int) :=
  if ch = 13 ∨ ch = 10 then st
  else
    match find_glyph book.glyphs style ch with
    | some glyph => (st.1 + glyph.x_advance, st.2 ++ [(glyph, st.1, y)])
    | none => (st.1 + (book.metadata.char_width : Int), st.2)

/-- `draw_trbk_text` from src/core/src/application.rs. -/
def draw_trbk_text (book : TrbkBookInfo) (x y : Int) (style : Nat)
    (text : List Nat) : DrawResult :=
  if book.glyphs.isEmpty then ⟨x, [], true⟩
  else
    let r := text.foldl (drawStep book y style) (x, [])
    ⟨r.1, r.2, false⟩

/-! ## Device-side streaming reader (src/x4/src/image_source.rs) -/

namespace X4

/-- `read_exact` after a seek to `pos`, as a pure function of the file's
bytes: reading past end-of-file hits the `read == 0` branch and returns a
Decode error (device I/O errors are outside the model). -/
def readExactAt (file : List Nat) (pos len : Nat) :
    Except ImageError (List Nat) :=
  if pos + len ≤ file.length then .ok ((file.drop pos).take len)
  else .error .Decode

/-- The streaming state kept in `TrbkStream` (path and filename are
filesystem concerns outside the model). -/
structure TrbkStream where
  page_offsets : List Nat
  page_data_offset : Nat
  glyph_table_offset : Nat
deriving DecidableEq, Repr

/-- The TOC-reading loop of `open_trbk`: sequential reads from the file
at `pos`. -/
def open_toc_loop (file : List Nat) (pos : Nat) :
    Nat → Except ImageError (List TrbkTocEntry)
  | 0 => .ok []
  | n + 1 =>
    match readExactAt file pos 4 with
    | .error e => .error e
    | .ok len_buf =>
      let title_len := byteAt len_buf 0 + 256 * byteAt len_buf 1 +
        65536 * byteAt len_buf 2 + 16777216 * byteAt len_buf 3
      match readExactAt file (pos + 4) title_len with
      | .error e => .error e
      | .ok title_buf =>
        match utf8Decode title_buf with
        | none => .error .Decode
        | some title =>
          match readExactAt file (pos + 4 + title_len) 8 with
          | .error e => .error e
          | .ok entry_buf =>
            let page_index := byteAt entry_buf 0 + 256 * byteAt entry_buf 1 +
              65536 * byteAt entry_buf 2 + 16777216 * byteAt entry_buf 3
            let level := byteAt entry_buf 4
            match open_toc_loop file (pos + 4 + title_len + 8) n with
            | .error e => .error e
            | .ok rest => .ok (⟨title, page_index, level⟩ :: rest)

/-- The glyph-reading loop of `open_trbk`. -/
def open_glyphs_loop (file : List Nat) (pos : Nat) :
    Nat → Except ImageError (List TrbkGlyph)
  | 0 => .ok []
  | n + 1 =>
    match readExactAt file pos 17 with
    | .error e => .error e
    | .ok h =>
      let codepoint := byteAt h 0 + 256 * byteAt h 1 + 65536 * byteAt h 2 +
        16777216 * byteAt h 3
      let bitmap_len := byteAt h 13 + 256 * byteAt h 14 + 65536 * byteAt h 15 +
        16777216 * byteAt h 16
      match readExactAt file (pos + 17) bitmap_len with
      | .error e => .error e
      | .ok bitmap =>
        match open_glyphs_loop file (pos + 17 + bitmap_len) n with
        | .error e => .error e
        | .ok rest =>
          .ok (⟨codepoint, byteAt h 4, byteAt h 5, byteAt h 6,
            asI16 (byteAt h 7 + 256 * byteAt h 8),
            asI16 (byteAt h 9 + 256 * byteAt h 10),
            asI16 (byteAt h 11 + 256 * byteAt h 12), bitmap⟩ :: rest)

/-- The page-LUT extraction of `open_trbk`: u32 offsets out of the LUT
buffer read in one `read_exact`. -/
def lutEntries (buf : List Nat) (count : Nat) : List Nat :=
  (List.range count).map (fun i =>
    byteAt buf (i * 4) + 256 * byteAt buf (i * 4 + 1) +
    65536 * byteAt buf (i * 4 + 2) + 16777216 * byteAt buf (i * 4 + 3))

/-- `open_trbk` (the TRBK branch of `load_trbk` in
src/x4/src/image_source.rs), as a pure function of the file's bytes:
parses the fixed header, the whole metadata block, the TOC, the page LUT
and the glyph table, and returns the session `TrbkBookInfo` together with
the retained streaming state.  Unlike the core decoder it reads the
`ascent` field unconditionally (no legacy fallback) and does not validate
`toc_offset` when `toc_count == 0`. -/
def open_trbk (file : List Nat) :
    Except ImageError (TrbkBookInfo × TrbkStream) := do
  let header ← readExactAt file 0 0x30
  if header.take 4 ≠ magicBytes then
    throw ImageError.Decode
  let version := byteAt header 4
  if version ≠ 1 ∧ version ≠ 2 then
    throw ImageError.Unsupported
  let header_size ← read_u16 header 0x06
  let screen_width ← read_u16 header 0x08
  let screen_height ← read_u16 header 0x0A
  let page_count ← read_u32 header 0x0C
  let toc_count ← read_u32 header 0x10
  let page_lut_offset ← read_u32 header 0x14
  let toc_offset ← read_u32 header 0x18
  let page_data_offset ← read_u32 header 0x1C
  let gpair ← if 2 ≤ version then do
      let gc ← read_u32 header 0x28
      let gt ← read_u32 header 0x2C
      pure (gc, gt)
    else pure (0, 0)
  let glyph_count := gpair.1
  let glyph_table_offset := gpair.2
  if toc_count ≠ 0 ∧ toc_offset ≠ header_size then
    throw ImageError.Decode
  let header_buf ← readExactAt file 0 header_size
  let c0 := if 2 ≤ version then 0x30 else 0x2C
  let (title, c1) ← read_string header_buf c0
  let (author, c2) ← read_string header_buf c1
  let (language, c3) ← read_string header_buf c2
  let (identifier, c4) ← read_string header_buf c3
  let (font_name, c5) ← read_string header_buf c4
  let char_width ← read_u16 header_buf c5
  let line_height ← read_u16 header_buf (c5 + 2)
  let ascent ← read_i16 header_buf (c5 + 4)
  let margin_left ← read_u16 header_buf (c5 + 6)
  let margin_right ← read_u16 header_buf (c5 + 8)
  let margin_top ← read_u16 header_buf (c5 + 10)
  let margin_bottom ← read_u16 header_buf (c5 + 12)
  let toc_entries ← if toc_count > 0 then open_toc_loop file toc_offset toc_count
    else pure []
  let lut_buf ← readExactAt file page_lut_offset (page_count * 4)
  let offsets := lutEntries lut_buf page_count
  let glyphs ← if glyph_count > 0 then
      open_glyphs_loop file glyph_table_offset glyph_count
    else pure []
  let info : TrbkBookInfo :=
    { screen_width := screen_width
      screen_height := screen_height
      page_count := page_count
      metadata :=
        { title := title
          author := author
          language := language
          identifier := identifier
          font_name := font_name
          char_width := char_width
          line_height := line_height
          ascent := ascent
          margin_left := margin_left
          margin_right := margin_right
          margin_top := margin_top
          margin_bottom := margin_bottom }
      glyphs := glyphs
      toc := toc_entries }
  pure (info, ⟨offsets, page_data_offset, glyph_table_offset⟩)

/-- `trbk_page` from src/x4/src/image_source.rs, as a pure function of the
retained streaming state and the file's bytes: computes the page's byte
range from consecutive LUT offsets (the last page ends at the stored
glyph-table offset), reads exactly that range, and decodes its opcode
stream. -/
def trbk_page (state : TrbkStream) (file : List Nat) (page_index : Nat) :
    Except ImageError TrbkPage :=
  if state.page_offsets.length ≤ page_index then .error .Decode
  else
    let start := state.page_data_offset + state.page_offsets.getD page_index 0
    let e := if page_index + 1 < state.page_offsets.length then
        state.page_data_offset + state.page_offsets.getD (page_index + 1) 0
      else state.glyph_table_offset
    if e < start then .error .Decode
    else
      match readExactAt file start (e - start) with
      | .error er => .error er
      | .ok buf =>
        match parse_trbk_page_ops buf with
        | .error er => .error er
        | .ok ops => .ok ⟨ops⟩

end X4

/-! ## Infrastructure lemmas -/

theorem ok_bind {α β : Type} (a : α) (f : α → Except ImageError β) :
    (Except.ok a >>= f) = f a := rfl

theorem error_bind {α β : Type} (e : ImageError) (f : α → Except ImageError β) :
    ((Except.error e : Except ImageError α) >>= f) = .error e := rfl

/-- Total little-endian u16 view at an offset. -/
def u16At (data : List Nat) (offset : Nat) : Nat :=
  byteAt data offset + 256 * byteAt data (offset + 1)

/-- Total little-endian u32 view at an offset. -/
def u32At (data : List Nat) (offset : Nat) : Nat :=
  byteAt data offset + 256 * byteAt data (offset + 1) +
    65536 * byteAt data (offset + 2) + 16777216 * byteAt data (offset + 3)

theorem read_u16_eq (data : List Nat) (offset : Nat)
    (h : offset + 2 ≤ data.length) :
    read_u16 data offset = .ok (u16At data offset) := by
  unfold read_u16 u16At
  rw [if_neg (by omega)]

theorem read_u32_eq (data : List Nat) (offset : Nat)
    (h : offset + 4 ≤ data.length) :
    read_u32 data offset = .ok (u32At data offset) := by
  unfold read_u32 u32At
  rw [if_neg (by omega)]

theorem read_u16_err (data : List Nat) (offset : Nat)
    (h : offset + 2 > data.length) :
    read_u16 data offset = .error .Decode := by
  unfold read_u16; rw [if_pos h]

theorem read_u32_err (data : List Nat) (offset : Nat)
    (h : offset + 4 > data.length) :
    read_u32 data offset = .error .Decode := by
  unfold read_u32; rw [if_pos h]

theorem throw_bind {α β : Type} (e : ImageError) (f : α → Except ImageError β) :
    ((throw e : Except ImageError α) >>= f) = .error e := rfl

theorem byteAt_pre (pre rest : List Nat) (i : Nat) :
    byteAt (pre ++ rest) (pre.length + i) = byteAt rest i := by
  unfold byteAt
  rw [List.getD_append_right pre rest 0 (pre.length + i) (by omega)]
  congr 1
  omega

theorem byteAt_left (a b : List Nat) (i : Nat) (h : i < a.length) :
    byteAt (a ++ b) i = byteAt a i :=
  List.getD_append a b 0 i h

/-- Dropping the prefix and taking the middle recovers the middle. -/
theorem drop_take_concat (pre mid post : List Nat) :
    ((pre ++ (mid ++ post)).drop pre.length).take mid.length = mid := by
  rw [List.drop_left, List.take_left]

theorem read_u16_at (pre : List Nat) (n : Nat) (post : List Nat)
    (hn : n < 65536) :
    read_u16 (pre ++ (le16 n ++ post)) pre.length = .ok n := by
  unfold read_u16
  rw [if_neg (by simp [le16])]
  have h0 : byteAt (pre ++ (le16 n ++ post)) pre.length = n % 256 := by
    simpa [byteAt, le16] using byteAt_pre pre (le16 n ++ post) 0
  have h1 : byteAt (pre ++ (le16 n ++ post)) (pre.length + 1) = n / 256 % 256 := by
    simpa [byteAt, le16] using byteAt_pre pre (le16 n ++ post) 1
  rw [h0, h1]
  congr 1
  omega

theorem read_u32_at (pre : List Nat) (n : Nat) (post : List Nat)
    (hn : n < 4294967296) :
    read_u32 (pre ++ (le32 n ++ post)) pre.length = .ok n := by
  unfold read_u32
  rw [if_neg (by simp [le32])]
  have h0 : byteAt (pre ++ (le32 n ++ post)) pre.length = n % 256 := by
    simpa [byteAt, le32] using byteAt_pre pre (le32 n ++ post) 0
  have h1 : byteAt (pre ++ (le32 n ++ post)) (pre.length + 1) = n / 256 % 256 := by
    simpa [byteAt, le32] using byteAt_pre pre (le32 n ++ post) 1
  have h2 : byteAt (pre ++ (le32 n ++ post)) (pre.length + 2) = n / 65536 % 256 := by
    simpa [byteAt, le32] using byteAt_pre pre (le32 n ++ post) 2
  have h3 : byteAt (pre ++ (le32 n ++ post)) (pre.length + 3) = n / 16777216 % 256 := by
    simpa [byteAt, le32] using byteAt_pre pre (le32 n ++ post) 3
  rw [h0, h1, h2, h3]
  congr 1
  omega

theorem read_i16_at (pre : List Nat) (v : Int) (post : List Nat)
    (hv : -32768 ≤ v ∧ v < 32768) :
    read_i16 (pre ++ (le16i v ++ post)) pre.length = .ok v := by
  unfold read_i16
  rw [if_neg (by simp [le16i, le16])]
  have h0 : byteAt (pre ++ (le16i v ++ post)) pre.length =
      (v % 65536).toNat % 256 := by
    have h := byteAt_pre pre (le16i v ++ post) 0
    rw [Nat.add_zero] at h
    rw [h]
    rfl
  have h1 : byteAt (pre ++ (le16i v ++ post)) (pre.length + 1) =
      (v % 65536).toNat / 256 % 256 := by
    rw [byteAt_pre pre (le16i v ++ post) 1]
    rfl
  rw [h0, h1]
  have hgen : ∀ m : Nat, m < 65536 → m % 256 + 256 * (m / 256 % 256) = m := by
    intro m hm; omega
  rw [hgen _ (by omega)]
  congr 1
  unfold asI16
  rw [Nat.mod_eq_of_lt (by omega : (v % 65536).toNat < 65536)]
  split <;> omega

/-- Per-character pen advance of `draw_trbk_text` with a non-empty glyph
table: CR/LF are skipped with no advance; a glyph found for
`(style, codepoint)` advances by its `x_advance`; a missing glyph advances
by `metadata.char_width`. -/
def glyphAdvance (book : TrbkBookInfo) (style c : Nat) : Int :=
  if c = 13 ∨ c = 10 then 0
  else
    match find_glyph book.glyphs style c with
    | some glyph => glyph.x_advance
    | none => (book.metadata.char_width : Int)

/-- Does `draw_trbk_text` draw a glyph for this character?  Exactly the
non-CR/LF characters whose `(style, codepoint)` pair is in the table. -/
def isDrawnChar (book : TrbkBookInfo) (style c : Nat) : Bool :=
  if c = 13 ∨ c = 10 then false
  else (find_glyph book.glyphs style c).isSome

/-- Unrolled behaviour of the `draw_trbk_text` loop: final pen position is
the start plus the per-character advances; one glyph is drawn per drawn
character; every drawn glyph was found in the table. -/
theorem drawStep_fold (book : TrbkBookInfo) (y : Int) (style : Nat)
    (text : List Nat) :
    ∀ (px : Int) (ds : List (TrbkGlyph × Int × Int)),
      ((text.foldl (drawStep book y style) (px, ds)).1 =
        px + (text.map (glyphAdvance book style)).sum) ∧
      ((text.foldl (drawStep book y style) (px, ds)).2.length =
        ds.length + (text.filter (isDrawnChar book style)).length) ∧
      (∀ d ∈ (text.foldl (drawStep book y style) (px, ds)).2,
        d ∈ ds ∨ ∃ c ∈ text, find_glyph book.glyphs style c = some d.1) := by
  induction text with
  | nil => intro px ds; simp
  | cons c t ih =>
    intro px ds
    simp only [List.foldl_cons, List.map_cons, List.sum_cons, List.filter_cons]
    by_cases hc : c = 13 ∨ c = 10
    · have hstep : drawStep book y style (px, ds) c = (px, ds) := by
        unfold drawStep; rw [if_pos hc]
      have hadv : glyphAdvance book style c = 0 := by
        unfold glyphAdvance; rw [if_pos hc]
      have hdraw : isDrawnChar book style c = false := by
        unfold isDrawnChar; rw [if_pos hc]
      rw [hstep, hadv, hdraw]
      obtain ⟨ih1, ih2, ih3⟩ := ih px ds
      refine ⟨by rw [ih1]; ring, by simpa using ih2, ?_⟩
      intro d hd
      rcases ih3 d hd with h | ⟨c', hc', hfound⟩
      · exact Or.inl h
      · exact Or.inr ⟨c', List.mem_cons_of_mem c hc', hfound⟩
    · cases hfind : find_glyph book.glyphs style c with
      | some glyph =>
        have hstep : drawStep book y style (px, ds) c =
            (px + glyph.x_advance, ds ++ [(glyph, px, y)]) := by
          unfold drawStep; rw [if_neg hc, hfind]
        have hadv : glyphAdvance book style c = glyph.x_advance := by
          unfold glyphAdvance; rw [if_neg hc, hfind]
        have hdraw : isDrawnChar book style c = true := by
          unfold isDrawnChar; rw [if_neg hc, hfind]; rfl
        rw [hstep, hadv, hdraw]
        obtain ⟨ih1, ih2, ih3⟩ := ih (px + glyph.x_advance) (ds ++ [(glyph, px, y)])
        refine ⟨by rw [ih1]; ring, ?_, ?_⟩
        · rw [ih2]; simp; ring
        · intro d hd
          rcases ih3 d hd with h | ⟨c', hc', hfound⟩
          · rcases List.mem_append.mp h with h' | h'
            · exact Or.inl h'
            · refine Or.inr ⟨c, List.mem_cons_self c t, ?_⟩
              have : d = (glyph, px, y) := by simpa using h'
              rw [this, hfind]
          · exact Or.inr ⟨c', List.mem_cons_of_mem c hc', hfound⟩
      | none =>
        have hstep : drawStep book y style (px, ds) c =
            (px + (book.metadata.char_width : Int), ds) := by
          unfold drawStep; rw [if_neg hc, hfind]
        have hadv : glyphAdvance book style c = (book.metadata.char_width : Int) := by
          unfold glyphAdvance; rw [if_neg hc, hfind]
        have hdraw : isDrawnChar book style c = false := by
          unfold isDrawnChar; rw [if_neg hc, hfind]; rfl
        rw [hstep, hadv, hdraw]
        obtain ⟨ih1, ih2, ih3⟩ := ih (px + (book.metadata.char_width : Int)) ds
        refine ⟨by rw [ih1]; ring, by simpa using ih2, ?_⟩
        intro d hd
        rcases ih3 d hd with h | ⟨c', hc', hfound⟩
        · exact Or.inl h
        · exact Or.inr ⟨c', List.mem_cons_of_mem c hc', hfound⟩

/-- Reading back an encoded length-prefixed string. -/
theorem read_string_at (pre s post : List Nat)
    (hscal : ∀ c ∈ s, ScalarValue c)
    (hlen : (utf8Encode s).length < 4294967296) :
    read_string (pre ++ (Book.write_string s ++ post)) pre.length =
      .ok (s, pre.length + 4 + (utf8Encode s).length) := by
  unfold read_string
  unfold Book.write_string
  have hassoc : pre ++ ((le32 (utf8Encode s).length ++ utf8Encode s) ++ post) =
      pre ++ (le32 (utf8Encode s).length ++ (utf8Encode s ++ post)) := by
    simp [List.append_assoc]
  rw [hassoc, read_u32_at pre _ _ hlen]
  simp only []
  rw [if_neg (by simp [le32]; omega)]
  have hdrop : ((pre ++ (le32 (utf8Encode s).length ++ (utf8Encode s ++ post))).drop
      (pre.length + 4)).take (utf8Encode s).length = utf8Encode s := by
    have : pre ++ (le32 (utf8Encode s).length ++ (utf8Encode s ++ post)) =
        (pre ++ le32 (utf8Encode s).length) ++ (utf8Encode s ++ post) := by
      simp [List.append_assoc]
    rw [this]
    have hl : pre.length + 4 = (pre ++ le32 (utf8Encode s).length).length := by
      simp [le32]
    rw [hl, List.drop_left, List.take_left]
  rw [hdrop, utf8Decode_utf8Encode s hscal]

/-! ## Page-instruction streams as record lists (for the C3 contract) -/

/-- One record of a page instruction stream: opcode byte, u16 length,
payload. -/
def recordBytes (r : Nat × List Nat) : List Nat :=
  r.1 :: le16 r.2.length ++ r.2

/-- A record list serialized as a page instruction stream. -/
def streamBytes (rs : List (Nat × List Nat)) : List Nat :=
  (rs.map recordBytes).flatten

/-- A record the interpreter accepts: the length field is exact (payload
below 2^16), and an opcode-0x01 record has at least 6 payload bytes and
valid UTF-8 text. -/
def recordWellFormed (r : Nat × List Nat) : Prop :=
  r.2.length < 65536 ∧
    (r.1 = 1 → 6 ≤ r.2.length ∧ (utf8Decode (r.2.drop 6)).isSome)

instance (r : Nat × List Nat) : Decidable (recordWellFormed r) := by
  unfold recordWellFormed; infer_instance

/-- The ops decoded from one record: a `TextRun` for opcode 0x01, nothing
for any other opcode. -/
def recordOps (r : Nat × List Nat) : List TrbkOp :=
  if r.1 = 1 then
    match utf8Decode (r.2.drop 6) with
    | some text =>
      [.TextRun (byteAt r.2 0 + 256 * byteAt r.2 1)
        (byteAt r.2 2 + 256 * byteAt r.2 3) (byteAt r.2 4) text]
    | none => []
  else []

/-- The interpreter's acceptance condition, mirrored as a predicate with
the same recursion: a stream is rejected exactly when some record's
declared payload overruns the buffer, an opcode-0x01 payload is shorter
than 6 bytes, or an opcode-0x01 payload carries invalid UTF-8. -/
def opsWF_loop : Nat → List Nat → Bool
  | _, [] => true
  | _, [_] => true
  | _, [_, _] => true
  | 0, _ :: _ :: _ :: _ => false
  | fuel + 1, opcode :: l1 :: l2 :: rest =>
    let length := l1 + 256 * l2
    if rest.length < length then false
    else if opcode = 1 then
      if (rest.take length).length < 6 then false
      else (utf8Decode ((rest.take length).drop 6)).isSome &&
        opsWF_loop fuel (rest.drop length)
    else opsWF_loop fuel (rest.drop length)

/-- The acceptance predicate's entry point (same step-count convention as
`parse_trbk_page_ops`). -/
def opsWellFormed (data : List Nat) : Bool := opsWF_loop data.length data

/-! ## Claim theorems -/

/-- C7 (amended): the encoder always writes version byte 2 at file
offset 4, whether or not the glyph table is empty. -/
theorem c7_version_byte_always_two (metadata : Book.TrbkMetadata)
    (options : Book.RenderOptions) (pages : List Book.RunLine)
    (glyphs : List Book.Glyph) (adv : Book.AdvanceMap)
    (toc_entries : List Book.TrbkTocEntry) :
    byteAt (Book.write_trbk metadata options pages glyphs adv toc_entries) 4 = 2 := by
  simp [Book.write_trbk, magicBytes, byteAt]

/-- C7 counterexample: a book with an empty glyph list is still written
with version byte 2, not 1 as the claim states. -/
theorem c7_counterexample :
    byteAt (Book.write_trbk ⟨[], [], [], []⟩ ⟨480, 800, 16, 60, 20, 10, 14, 2⟩
      [] [] (fun _ _ => none) []) 4 = 2 ∧ (2 : Nat) ≠ 1 := by
  refine ⟨?_, by decide⟩
  rfl

/-- A concrete one-glyph book for exercising the renderer: glyph table
holds only `(style 0, codepoint 72)`. -/
def c8book : TrbkBookInfo :=
  ⟨480, 800, 1, ⟨[], [], [], [], [], 10, 20, 14, 0, 0, 0, 0⟩,
    [⟨72, 0, 5, 7, 6, 0, 7, [1]⟩], []⟩

/-- C8 (amended): rendering a text run against a non-empty glyph table,
CR and LF characters are skipped outright — no draw and no pen advance,
whether or not they are in the table; every other character absent from
the table advances the pen by exactly `metadata.char_width` and draws
nothing; every other character present in the table draws its glyph and
advances the pen by the glyph's `x_advance`; the function is total, so no
error is possible. -/
theorem c8_glyph_fallback_amended (book : TrbkBookInfo) (x y : Int)
    (style : Nat) (text : List Nat) (h : book.glyphs ≠ []) :
    (draw_trbk_text book x y style text).penX =
      x + (text.map (glyphAdvance book style)).sum ∧
    (draw_trbk_text book x y style text).draws.length =
      (text.filter (isDrawnChar book style)).length ∧
    (∀ d ∈ (draw_trbk_text book x y style text).draws,
      ∃ c ∈ text, find_glyph book.glyphs style c = some d.1) ∧
    (draw_trbk_text book x y style text).usedFallback = false := by
  have hne : book.glyphs.isEmpty = false := by
    cases hg : book.glyphs with
    | nil => exact absurd hg h
    | cons a t => rfl
  obtain ⟨h1, h2, h3⟩ := drawStep_fold book y style text x []
  unfold draw_trbk_text
  rw [hne]
  simp only [Bool.false_eq_true, if_false]
  refine ⟨h1, by simpa using h2, ?_, by trivial⟩
  intro d hd
  rcases h3 d hd with hfalse | hok
  · simp at hfalse
  · exact hok

/-- C8 witness: the amended theorem applied to the one-glyph book and the
text `"Hi\n"` (H present, i absent, LF skipped). -/
theorem c8_glyph_fallback_witness :
    c8book.glyphs ≠ [] ∧
    ((draw_trbk_text c8book 100 50 0 [72, 105, 10]).penX =
        100 + (([72, 105, 10].map (glyphAdvance c8book 0)).sum) ∧
      (draw_trbk_text c8book 100 50 0 [72, 105, 10]).draws.length =
        (([72, 105, 10].filter (isDrawnChar c8book 0))).length ∧
      (∀ d ∈ (draw_trbk_text c8book 100 50 0 [72, 105, 10]).draws,
        ∃ c ∈ [72, 105, 10], find_glyph c8book.glyphs 0 c = some d.1) ∧
      (draw_trbk_text c8book 100 50 0 [72, 105, 10]).usedFallback = false) :=
  ⟨by decide, c8_glyph_fallback_amended c8book 100 50 0 [72, 105, 10] (by decide)⟩

/-- C9: for every byte string (large enough to be a header, with good
magic and a supported version byte) whose `toc_offset` field differs from
its `header_size` field, `parse_trbk` returns a Decode error even when
`toc_count` is 0: the `toc_offset == header_size` check is unconditional,
not restricted to files that carry a TOC. -/
theorem c9_toc_offset_check_unconditional (data : List Nat)
    (hlen : 0x2C ≤ data.length)
    (hmagic : data.take 4 = magicBytes)
    (hver : byteAt data 4 = 1 ∨ byteAt data 4 = 2)
    (hneq : u32At data 0x18 ≠ u16At data 0x06) :
    parse_trbk data = .error .Decode := by
  unfold parse_trbk
  rw [if_neg (by rw [hmagic]; simp; omega)]
  simp only [pure_bind]
  rcases hver with hv | hv
  · rw [hv]
    rw [if_neg (by simp)]
    rw [read_u16_eq data 6 (by omega), ok_bind]
    rw [read_u16_eq data 8 (by omega), ok_bind]
    rw [read_u16_eq data 10 (by omega), ok_bind]
    rw [read_u32_eq data 12 (by omega), ok_bind]
    rw [read_u32_eq data 16 (by omega), ok_bind]
    rw [read_u32_eq data 20 (by omega), ok_bind]
    rw [read_u32_eq data 24 (by omega), ok_bind]
    rw [read_u32_eq data 28 (by omega), ok_bind]
    rw [read_u32_eq data 32 (by omega), ok_bind]
    rw [if_neg (by decide : ¬ (2 ≤ 1))]
    rw [if_pos (Or.inr hneq), throw_bind]
  · rw [hv]
    rw [if_neg (by simp)]
    rw [read_u16_eq data 6 (by omega), ok_bind]
    rw [read_u16_eq data 8 (by omega), ok_bind]
    rw [read_u16_eq data 10 (by omega), ok_bind]
    rw [read_u32_eq data 12 (by omega), ok_bind]
    rw [read_u32_eq data 16 (by omega), ok_bind]
    rw [read_u32_eq data 20 (by omega), ok_bind]
    rw [read_u32_eq data 24 (by omega), ok_bind]
    rw [read_u32_eq data 28 (by omega), ok_bind]
    rw [read_u32_eq data 32 (by omega), ok_bind]
    rw [if_pos (by omega : 2 ≤ 2)]
    by_cases h48 : 48 ≤ data.length
    · rw [read_u32_eq data 0x28 (by omega), ok_bind]
      rw [read_u32_eq data 0x2C (by omega), ok_bind]
      rw [if_pos (Or.inr hneq), throw_bind]
    · rw [read_u32_eq data 0x28 (by omega), ok_bind]
      rw [read_u32_err data 0x2C (by omega), error_bind]

/-- A concrete version-1 header whose `toc_offset` (45) differs from its
`header_size` (9999) and which carries no TOC (`toc_count = 0`). -/
def c9data : List Nat :=
  magicBytes ++ [1, 0] ++ le16 9999 ++ le16 480 ++ le16 800 ++
  le32 0 ++ le32 0 ++ le32 0 ++ le32 45 ++ le32 0 ++ le32 0 ++ le32 0 ++ le32 0

/-- C9 witness: the unconditional check fires on the concrete headers. -/
theorem c9_toc_offset_check_witness :
    (0x2C ≤ c9data.length ∧ c9data.take 4 = magicBytes ∧
      (byteAt c9data 4 = 1 ∨ byteAt c9data 4 = 2) ∧
      u32At c9data 0x18 ≠ u16At c9data 0x06) ∧
    parse_trbk c9data = .error .Decode :=
  ⟨⟨by decide, by decide, by decide, by decide⟩,
    c9_toc_offset_check_unconditional c9data (by decide) (by decide)
      (by decide) (by decide)⟩

/-- C8 counterexample: with a non-empty glyph table and `char_width = 10`,
the LF character (absent from the table) advances the pen by 0, not by
`char_width` as the claim requires of every absent character. -/
theorem c8_counterexample :
    c8book.glyphs ≠ [] ∧
    find_glyph c8book.glyphs 0 10 = none ∧
    (draw_trbk_text c8book 0 0 0 [10]).penX = 0 ∧
    ((0 : Int) ≠ 0 + (c8book.metadata.char_width : Int)) :=
  ⟨by decide, rfl, rfl, by decide⟩

theorem parse_ops_loop_fuel (f1 : Nat) :
    ∀ (f2 : Nat) (l : List Nat), l.length ≤ f1 → l.length ≤ f2 →
      parse_ops_loop f1 l = parse_ops_loop f2 l := by
  induction f1 with
  | zero =>
    intro f2 l h1 h2
    match l, h1 with
    | [], _ => cases f2 <;> rfl
  | succ f ih =>
    intro f2 l h1 h2
    match l with
    | [] => cases f2 <;> rfl
    | [a] => match f2 with
      | 0 => rfl
      | g + 1 => rfl
    | [a, b] => match f2 with
      | 0 => rfl
      | g + 1 => rfl
    | a :: b :: c :: rest =>
      match f2, h2 with
      | g + 1, hg =>
        show (let length := b + 256 * c
          if rest.length < length then Except.error ImageError.Decode
          else
            let payload := rest.take length
            let remain := rest.drop length
            if a = 1 then
              if payload.length < 6 then Except.error ImageError.Decode
              else
                match utf8Decode (payload.drop 6) with
                | none => Except.error ImageError.Decode
                | some text =>
                  match parse_ops_loop f remain with
                  | .error e => .error e
                  | .ok ops =>
                    .ok (.TextRun (byteAt payload 0 + 256 * byteAt payload 1)
                      (byteAt payload 2 + 256 * byteAt payload 3)
                      (byteAt payload 4) text :: ops)
            else parse_ops_loop f remain) =
          (let length := b + 256 * c
          if rest.length < length then Except.error ImageError.Decode
          else
            let payload := rest.take length
            let remain := rest.drop length
            if a = 1 then
              if payload.length < 6 then Except.error ImageError.Decode
              else
                match utf8Decode (payload.drop 6) with
                | none => Except.error ImageError.Decode
                | some text =>
                  match parse_ops_loop g remain with
                  | .error e => .error e
                  | .ok ops =>
                    .ok (.TextRun (byteAt payload 0 + 256 * byteAt payload 1)
                      (byteAt payload 2 + 256 * byteAt payload 3)
                      (byteAt payload 4) text :: ops)
            else parse_ops_loop g remain)
        have hrec : parse_ops_loop f (rest.drop (b + 256 * c)) =
            parse_ops_loop g (rest.drop (b + 256 * c)) := by
          refine ih g (rest.drop (b + 256 * c)) ?_ ?_ <;>
            (simp only [List.length_drop, List.length_cons] at h1 hg ⊢; omega)
        simp only []
        rw [hrec]

theorem parse_ops_loop_error (n : Nat) :
    ∀ (data : List Nat), data.length ≤ n →
      ∀ e, parse_ops_loop n data = .error e → e = .Decode := by
  induction n with
  | zero =>
    intro data hd e h
    match data, hd with
    | [], _ => simp [parse_ops_loop] at h
  | succ n ih =>
    intro data hd e h
    match data with
    | [] => simp [parse_ops_loop] at h
    | [a] => simp [parse_ops_loop] at h
    | [a, b] => simp [parse_ops_loop] at h
    | a :: b :: c :: rest =>
      unfold parse_ops_loop at h
      simp only [] at h
      by_cases h1 : rest.length < b + 256 * c
      · rw [if_pos h1] at h
        injection h with h'
        exact h'.symm
      · rw [if_neg h1] at h
        by_cases h2 : a = 1
        · rw [if_pos h2] at h
          by_cases h3 : (rest.take (b + 256 * c)).length < 6
          · rw [if_pos h3] at h
            injection h with h'
            exact h'.symm
          · rw [if_neg h3] at h
            cases hu : utf8Decode ((rest.take (b + 256 * c)).drop 6) with
            | none =>
              rw [hu] at h
              injection h with h'
              exact h'.symm
            | some s =>
              rw [hu] at h
              cases hp : parse_ops_loop n (rest.drop (b + 256 * c)) with
              | error e' =>
                rw [hp] at h
                injection h with h'
                rw [← h']
                refine ih (rest.drop (b + 256 * c)) ?_ e' hp
                simp only [List.length_drop, List.length_cons] at hd ⊢
                omega
              | ok ops =>
                rw [hp] at h
                simp at h
        · rw [if_neg h2] at h
          refine ih (rest.drop (b + 256 * c)) ?_ e h
          simp only [List.length_drop, List.length_cons] at hd ⊢
          omega

theorem mod_split_u16 (m : Nat) (h : m < 65536) :
    m % 256 + 256 * (m / 256 % 256) = m := by omega

theorem streamBytes_cons (r : Nat × List Nat) (rs : List (Nat × List Nat)) :
    streamBytes (r :: rs) =
      r.1 :: (r.2.length % 256) :: (r.2.length / 256 % 256) ::
        (r.2 ++ streamBytes rs) := by
  simp [streamBytes, recordBytes, le16]

theorem parse_ops_loop_stream (rs : List (Nat × List Nat))
    (h : ∀ r ∈ rs, recordWellFormed r) :
    ∀ fuel, (streamBytes rs).length ≤ fuel →
      parse_ops_loop fuel (streamBytes rs) = .ok ((rs.map recordOps).flatten) := by
  induction rs with
  | nil =>
    intro fuel _
    show parse_ops_loop fuel [] = _
    cases fuel <;> rfl
  | cons r rs ih =>
    intro fuel hfuel
    have hr : recordWellFormed r := h r (List.mem_cons_self r rs)
    have hrs : ∀ x ∈ rs, recordWellFormed x :=
      fun x hx => h x (List.mem_cons_of_mem r hx)
    rw [streamBytes_cons] at hfuel ⊢
    match fuel, hfuel with
    | f + 1, hf =>
      unfold parse_ops_loop
      simp only []
      rw [mod_split_u16 r.2.length hr.1]
      rw [if_neg (by simp)]
      rw [List.take_left' rfl, List.drop_left' rfl]
      have htail : (streamBytes rs).length ≤ f := by
        simp only [List.length_cons, List.length_append] at hf ⊢
        omega
      by_cases hop : r.1 = 1
      · rw [if_pos hop]
        obtain ⟨h6, hsome⟩ := hr.2 hop
        rw [if_neg (by omega)]
        cases hu : utf8Decode (r.2.drop 6) with
        | none => rw [hu] at hsome; simp at hsome
        | some s =>
          rw [ih hrs f htail]
          simp only [List.map_cons, List.flatten_cons]
          unfold recordOps
          rw [if_pos hop, hu]
          simp
      · rw [if_neg hop, ih hrs f htail]
        simp only [List.map_cons, List.flatten_cons]
        unfold recordOps
        rw [if_neg hop]
        simp

theorem parse_ops_wf_loop (n : Nat) :
    ∀ data : List Nat, data.length ≤ n →
      ((∃ ops, parse_ops_loop n data = .ok ops) ↔ opsWF_loop n data = true) := by
  induction n with
  | zero =>
    intro data hd
    match data, hd with
    | [], _ => simp [parse_ops_loop, opsWF_loop]
  | succ n ih =>
    intro data hd
    match data with
    | [] => simp [parse_ops_loop, opsWF_loop]
    | [a] => simp [parse_ops_loop, opsWF_loop]
    | [a, b] => simp [parse_ops_loop, opsWF_loop]
    | a :: b :: c :: rest =>
      unfold parse_ops_loop opsWF_loop
      simp only []
      have ihr := ih (rest.drop (b + 256 * c))
        (by simp only [List.length_drop, List.length_cons] at hd ⊢; omega)
      by_cases h1 : rest.length < b + 256 * c
      · simp only [if_pos h1]
        simp
      · simp only [if_neg h1]
        by_cases h2 : a = 1
        · simp only [if_pos h2]
          by_cases h3 : (rest.take (b + 256 * c)).length < 6
          · simp only [if_pos h3]
            simp
          · simp only [if_neg h3]
            cases hu : utf8Decode ((rest.take (b + 256 * c)).drop 6) with
            | none => simp
            | some s =>
              cases hp : parse_ops_loop n (rest.drop (b + 256 * c)) with
              | error e =>
                have hw : opsWF_loop n (rest.drop (b + 256 * c)) ≠ true := by
                  intro hcon
                  obtain ⟨ops, hops⟩ := ihr.mpr hcon
                  rw [hp] at hops
                  cases hops
                cases hb : opsWF_loop n (rest.drop (b + 256 * c)) with
                | false => simp
                | true => exact absurd hb hw
              | ok ops =>
                have hw : opsWF_loop n (rest.drop (b + 256 * c)) = true :=
                  ihr.mp ⟨ops, hp⟩
                simp [hw]
        · simp only [if_neg h2]
          exact ihr

theorem opsWF_loop_fuel (f1 : Nat) :
    ∀ (f2 : Nat) (l : List Nat), l.length ≤ f1 → l.length ≤ f2 →
      opsWF_loop f1 l = opsWF_loop f2 l := by
  induction f1 with
  | zero =>
    intro f2 l h1 h2
    match l, h1 with
    | [], _ => cases f2 <;> rfl
  | succ f ih =>
    intro f2 l h1 h2
    match l with
    | [] => cases f2 <;> rfl
    | [a] => match f2 with
      | 0 => rfl
      | g + 1 => rfl
    | [a, b] => match f2 with
      | 0 => rfl
      | g + 1 => rfl
    | a :: b :: c :: rest =>
      match f2, h2 with
      | g + 1, hg =>
        unfold opsWF_loop
        simp only []
        have hrec : opsWF_loop f (rest.drop (b + 256 * c)) =
            opsWF_loop g (rest.drop (b + 256 * c)) := by
          refine ih g (rest.drop (b + 256 * c)) ?_ ?_ <;>
            (simp only [List.length_drop, List.length_cons] at h1 hg ⊢; omega)
        rw [hrec]


/-- C3: the page-instruction interpreter's contract.  (1) Every serialized
record stream whose records have exact length fields decodes to exactly
the opcode-0x01 records' `TextRun` ops in stream order, skipping every
other opcode by its length field alone.  (2) Every failure of the
interpreter is a Decode error.  (3) The interpreter succeeds exactly on
streams accepted by `opsWellFormed`, i.e. it fails only when a record's
declared payload overruns the buffer, an opcode-0x01 payload is shorter
than 6 bytes, or an opcode-0x01 payload's text is invalid UTF-8. -/
theorem c3_page_ops_contract :
    (∀ rs : List (Nat × List Nat), (∀ r ∈ rs, recordWellFormed r) →
      parse_trbk_page_ops (streamBytes rs) = .ok ((rs.map recordOps).flatten)) ∧
    (∀ (data : List Nat) (e : ImageError),
      parse_trbk_page_ops data = .error e → e = .Decode) ∧
    (∀ data : List Nat,
      (∃ ops, parse_trbk_page_ops data = .ok ops) ↔ opsWellFormed data = true) :=
  ⟨fun rs h => parse_ops_loop_stream rs h (streamBytes rs).length (le_refl _),
    fun data e h => parse_ops_loop_error data.length data (le_refl _) e h,
    fun data => parse_ops_wf_loop data.length data (le_refl _)⟩

/-- The example stream of spec section 8: a `TextRun "Hi"` record, an
unknown opcode 0xFF record of length 3, and a `TextRun "Ok"` record. -/
def c3records : List (Nat × List Nat) :=
  [(1, [16, 0, 24, 0, 0, 0, 72, 105]), (255, [0, 0, 0]),
    (1, [16, 0, 44, 0, 0, 0, 79, 107])]

/-- C3 witness: the contract applied to the spec's example stream decodes
two `TextRun` ops ("Hi" then "Ok") and skips the 0xFF record. -/
theorem c3_page_ops_witness :
    (∀ r ∈ c3records, recordWellFormed r) ∧
    parse_trbk_page_ops (streamBytes c3records) =
      .ok [.TextRun 16 24 0 [72, 105], .TextRun 16 44 0 [79, 107]] := by
  refine ⟨by decide, ?_⟩
  rw [c3_page_ops_contract.1 c3records (by decide)]
  rfl

/-- C5 (amended): the streaming page reader reads the byte range starting
at `page_data_offset + offsets[i]`; a non-last page's range ends at
`page_data_offset + offsets[i+1]` and the last page's range ends at the
stored glyph-table offset, with no end-of-file fallback; when that range
is well formed and inside the file, exactly that slice's opcode stream is
decoded, and when the computed end precedes the start (as for a version-1
book, whose stored glyph-table offset is 0) the fetch returns a Decode
error instead of reading. -/
theorem c5_streaming_page_range (state : X4.TrbkStream) (file : List Nat)
    (i : Nat) (hi : i < state.page_offsets.length) :
    (state.page_data_offset + state.page_offsets.getD i 0 ≤
        (if i + 1 < state.page_offsets.length then
          state.page_data_offset + state.page_offsets.getD (i + 1) 0
        else state.glyph_table_offset) →
      (if i + 1 < state.page_offsets.length then
          state.page_data_offset + state.page_offsets.getD (i + 1) 0
        else state.glyph_table_offset) ≤ file.length →
      X4.trbk_page state file i =
        (parse_trbk_page_ops ((file.drop
            (state.page_data_offset + state.page_offsets.getD i 0)).take
          ((if i + 1 < state.page_offsets.length then
              state.page_data_offset + state.page_offsets.getD (i + 1) 0
            else state.glyph_table_offset) -
            (state.page_data_offset + state.page_offsets.getD i 0)))).map
          TrbkPage.mk) ∧
    ((if i + 1 < state.page_offsets.length then
        state.page_data_offset + state.page_offsets.getD (i + 1) 0
      else state.glyph_table_offset) <
        state.page_data_offset + state.page_offsets.getD i 0 →
      X4.trbk_page state file i = .error .Decode) := by
  constructor
  · intro hse hef
    unfold X4.trbk_page
    rw [if_neg (by omega)]
    simp only []
    rw [if_neg (by omega)]
    unfold X4.readExactAt
    rw [if_pos (by omega)]
    simp only []
    cases hp : parse_trbk_page_ops ((file.drop
        (state.page_data_offset + state.page_offsets.getD i 0)).take
      ((if i + 1 < state.page_offsets.length then
          state.page_data_offset + state.page_offsets.getD (i + 1) 0
        else state.glyph_table_offset) -
        (state.page_data_offset + state.page_offsets.getD i 0))) with
    | error e => rfl
    | ok ops => rfl
  · intro hlt
    unfold X4.trbk_page
    rw [if_neg (by omega)]
    simp only []
    rw [if_pos (by omega)]


/-- A version-1 file (full post-ascent metadata layout) with one page:
header of 44 bytes, 34 metadata bytes (`header_size` 78), a one-entry
page LUT at 78, page data at 82, no TOC and no glyph table. -/
def c5file : List Nat :=
  magicBytes ++ [1, 0] ++ le16 78 ++ le16 480 ++ le16 800 ++
  le32 1 ++ le32 0 ++ le32 78 ++ le32 78 ++ le32 82 ++ le32 0 ++
  le32 0 ++ le32 0 ++
  le32 0 ++ le32 0 ++ le32 0 ++ le32 0 ++ le32 0 ++
  le16 10 ++ le16 20 ++ le16i 14 ++ le16 0 ++ le16 0 ++ le16 0 ++ le16 0 ++
  le32 0 ++
  [0, 0, 0, 0]

/-- C5 counterexample: opening this version-1 book stores glyph-table
offset 0, so fetching its (only, hence last) page computes the range
[82, 0) and returns a Decode error — it does not fall back to
end-of-file, although decoding the [82, EOF) slice would succeed. -/
theorem c5_counterexample :
    (X4.open_trbk c5file).map (fun r => r.2) =
      .ok ⟨[0], 82, 0⟩ ∧
    X4.trbk_page ⟨[0], 82, 0⟩ c5file 0 = .error .Decode ∧
    (parse_trbk_page_ops ((c5file.drop 82).take (c5file.length - 82))).map
      TrbkPage.mk = .ok ⟨[]⟩ ∧
    (Except.error ImageError.Decode : Except ImageError TrbkPage) ≠ .ok ⟨[]⟩ := by
  refine ⟨rfl, rfl, rfl, ?_⟩
  intro hcon
  cases hcon

/-- C5 witness: a two-page stream state on a 25-byte file; fetching page
0 reads exactly [10+0, 10+11) and decodes that slice. -/
theorem c5_streaming_page_witness :
    X4.trbk_page ⟨[0, 11], 10, 21⟩ (List.replicate 25 0) 0 = .ok ⟨[]⟩ := by
  rw [(c5_streaming_page_range ⟨[0, 11], 10, 21⟩ (List.replicate 25 0) 0
    (by decide)).1 (by decide) (by decide)]
  rfl

/-- C2: page-range safety.  (1) The core decoder's page-extraction loop
(`parse_pages`, invoked by `parse_trbk` with the LUT offsets, index 0 and
the page count) either returns a Decode error or succeeds with every
page's computed byte range satisfying `start ≤ end ≤ file_size` — each
range is bounds-checked before the slice is read, so no out-of-bounds
access is possible.  (2) Fetching a page through the streaming reader is
total and yields either a successfully parsed page or a Decode error. -/
theorem c2_page_range_safety :
    (∀ (data : List Nat) (version pdo gto : Nat) (offsets : List Nat)
        (i n : Nat),
      parse_pages data version pdo gto offsets i n = .error .Decode ∨
      ∃ pages, parse_pages data version pdo gto offsets i n = .ok pages ∧
        ∀ j, j < n →
          pageStart pdo offsets (i + j) ≤
            pageEnd data.length version pdo gto offsets (i + j) ∧
          pageEnd data.length version pdo gto offsets (i + j) ≤ data.length) ∧
    (∀ (state : X4.TrbkStream) (file : List Nat) (i : Nat),
      (∃ page, X4.trbk_page state file i = .ok page) ∨
      X4.trbk_page state file i = .error .Decode) := by
  constructor
  · intro data version pdo gto offsets i n
    induction n generalizing i with
    | zero =>
      right
      exact ⟨[], rfl, fun j hj => absurd hj (by omega)⟩
    | succ n ih =>
      unfold parse_pages
      simp only []
      by_cases hchk : pageStart pdo offsets i > data.length ∨
          pageEnd data.length version pdo gto offsets i > data.length ∨
          pageStart pdo offsets i > pageEnd data.length version pdo gto offsets i
      · left
        rw [if_pos hchk]
      · rw [if_neg hchk]
        cases hp : parse_trbk_page_ops ((data.drop (pageStart pdo offsets i)).take
            (pageEnd data.length version pdo gto offsets i - pageStart pdo offsets i)) with
        | error e =>
          left
          have he : e = .Decode :=
            parse_ops_loop_error _ _ (le_refl _) e hp
          rw [he]
        | ok ops =>
          rcases ih (i + 1) with herr | ⟨pages, hpg, hrange⟩
          · left
            rw [herr]
          · right
            refine ⟨⟨ops⟩ :: pages, by rw [hpg], ?_⟩
            intro j hj
            cases j with
            | zero =>
              push_neg at hchk
              simp only [Nat.add_zero]
              exact ⟨by omega, by omega⟩
            | succ j =>
              have hshift : i + (j + 1) = i + 1 + j := by omega
              rw [hshift]
              exact hrange j (by omega)
  · intro state file i
    unfold X4.trbk_page
    by_cases hlen : state.page_offsets.length ≤ i
    · right
      rw [if_pos hlen]
    · rw [if_neg hlen]
      simp only []
      by_cases hend : (if i + 1 < state.page_offsets.length then
            state.page_data_offset + state.page_offsets.getD (i + 1) 0
          else state.glyph_table_offset) <
          state.page_data_offset + state.page_offsets.getD i 0
      · right
        rw [if_pos hend]
      · rw [if_neg hend]
        unfold X4.readExactAt
        by_cases hbound : state.page_data_offset + state.page_offsets.getD i 0 +
            ((if i + 1 < state.page_offsets.length then
                state.page_data_offset + state.page_offsets.getD (i + 1) 0
              else state.glyph_table_offset) -
              (state.page_data_offset + state.page_offsets.getD i 0)) ≤
            file.length
        · rw [if_pos hbound]
          simp only []
          cases hp : parse_trbk_page_ops ((file.drop
              (state.page_data_offset + state.page_offsets.getD i 0)).take
            ((if i + 1 < state.page_offsets.length then
                state.page_data_offset + state.page_offsets.getD (i + 1) 0
              else state.glyph_table_offset) -
              (state.page_data_offset + state.page_offsets.getD i 0))) with
          | error e =>
            right
            have he : e = .Decode :=
              parse_ops_loop_error _ _ (le_refl _) e hp
            rw [he]
          | ok ops => exact Or.inl ⟨⟨ops⟩, rfl⟩
        · right
          rw [if_neg hbound]


/-- C2 witness: both halves of the range-safety theorem instantiated on a
concrete two-page layout over a 25-byte file. -/
theorem c2_page_range_witness :
    (parse_pages (List.replicate 25 0) 2 10 21 [0, 11] 0 2 = .error .Decode ∨
      ∃ pages, parse_pages (List.replicate 25 0) 2 10 21 [0, 11] 0 2 =
          .ok pages ∧
        ∀ j, j < 2 →
          pageStart 10 [0, 11] (0 + j) ≤ pageEnd 25 2 10 21 [0, 11] (0 + j) ∧
          pageEnd 25 2 10 21 [0, 11] (0 + j) ≤ 25) ∧
    ((∃ page, X4.trbk_page ⟨[0, 11], 10, 21⟩ (List.replicate 25 0) 0 =
        .ok page) ∨
      X4.trbk_page ⟨[0, 11], 10, 21⟩ (List.replicate 25 0) 0 =
        .error .Decode) :=
  ⟨c2_page_range_safety.1 (List.replicate 25 0) 2 10 21 [0, 11] 0 2,
    c2_page_range_safety.2 ⟨[0, 11], 10, 21⟩ (List.replicate 25 0) 0⟩

namespace Book

/-- The assembled runs of a line list are empty exactly when the list is. -/
theorem linesRuns_eq_nil_iff (ls : List RunLine) : linesRuns ls = [] ↔ ls = [] := by
  cases ls with
  | nil => simp [linesRuns]
  | cons l t => simp [linesRuns]

/-- The instrumented paginator and the real one run in lockstep: mapping
each group to its page reproduces `paginate_lines_loop`. -/
theorem paginate_loop_eq_groups (lpp : Nat) (lines : List RunLine) :
    ∀ (gacc : List (Int × List RunLine)) (cur : List RunLine)
      (spine : Int) (cnt : Nat),
      paginate_lines_loop lpp lines (gacc.map groupPage) (linesRuns cur)
          spine cnt =
        (paginate_groups_loop lpp lines gacc cur spine cnt).map groupPage := by
  induction lines with
  | nil =>
    intro gacc cur spine cnt
    unfold paginate_lines_loop paginate_groups_loop
    by_cases hcur : cur = []
    · subst hcur
      simp [linesRuns]
    · rw [if_pos (by simpa [Ne, linesRuns_eq_nil_iff] using hcur),
        if_pos hcur]
      simp [groupPage]
  | cons line rest ih =>
    intro gacc cur spine cnt
    unfold paginate_lines_loop paginate_groups_loop
    by_cases hbr : 0 ≤ spine ∧ 0 ≤ line.spine_index ∧
        line.spine_index ≠ spine ∧ cur ≠ []
    · have hbr' : 0 ≤ spine ∧ 0 ≤ line.spine_index ∧
          line.spine_index ≠ spine ∧ linesRuns cur ≠ [] := by
        refine ⟨hbr.1, hbr.2.1, hbr.2.2.1, ?_⟩
        simpa [Ne, linesRuns_eq_nil_iff] using hbr.2.2.2
      rw [if_pos hbr', if_pos hbr]
      simp only []
      by_cases hcap : lpp ≤ 0 + 1
      · rw [if_pos hcap, if_pos hcap]
        have h := ih ((gacc ++ [(spine, cur)]) ++
          [(line.spine_index, [] ++ [line])]) [] (-1) 0
        simpa [groupPage, linesRuns, List.append_assoc] using h
      · rw [if_neg hcap, if_neg hcap]
        have h := ih (gacc ++ [(spine, cur)]) ([] ++ [line])
          line.spine_index (0 + 1)
        simpa [groupPage, linesRuns, List.append_assoc] using h
    · have hbr' : ¬ (0 ≤ spine ∧ 0 ≤ line.spine_index ∧
          line.spine_index ≠ spine ∧ linesRuns cur ≠ []) := by
        intro hcon
        exact hbr ⟨hcon.1, hcon.2.1, hcon.2.2.1,
          by simpa [Ne, linesRuns_eq_nil_iff] using hcon.2.2.2⟩
      rw [if_neg hbr', if_neg hbr]
      simp only []
      by_cases hcap : lpp ≤ cnt + 1
      · rw [if_pos hcap, if_pos hcap]
        have h := ih (gacc ++ [(if spine < 0 then line.spine_index else spine,
          cur ++ [line])]) [] (-1) 0
        simpa [groupPage, linesRuns, List.append_assoc] using h
      · rw [if_neg hcap, if_neg hcap]
        have h := ih gacc (cur ++ [line])
          (if spine < 0 then line.spine_index else spine) (cnt + 1)
        simpa [groupPage, linesRuns, List.append_assoc] using h

/-- No group aggregates lines of two distinct non-sentinel chapters. -/
def groupOk (g : Int × List RunLine) : Prop :=
  ∀ l1 ∈ g.2, ∀ l2 ∈ g.2, 0 ≤ l1.spine_index → 0 ≤ l2.spine_index →
    l1.spine_index = l2.spine_index

/-- Invariant preservation: if every finished group is chapter-pure, every
non-sentinel line of the current page matches the page's spine, and a
non-sentinel spine implies a non-empty page, then every produced group is
chapter-pure. -/
theorem groups_loop_ok (lpp : Nat) (lines : List RunLine) :
    ∀ (gacc : List (Int × List RunLine)) (cur : List RunLine)
      (spine : Int) (cnt : Nat),
      (∀ g ∈ gacc, groupOk g) →
      (∀ l ∈ cur, 0 ≤ l.spine_index → l.spine_index = spine) →
      (0 ≤ spine → cur ≠ []) →
      ∀ g ∈ paginate_groups_loop lpp lines gacc cur spine cnt, groupOk g := by
  induction lines with
  | nil =>
    intro gacc cur spine cnt hacc hcur _ g hg
    unfold paginate_groups_loop at hg
    by_cases hc : cur ≠ []
    · rw [if_pos hc] at hg
      rcases List.mem_append.mp hg with h | h
      · exact hacc g h
      · have hgc : g = (spine, cur) := by simpa using h
        subst hgc
        intro l1 h1 l2 h2 p1 p2
        rw [hcur l1 h1 p1, hcur l2 h2 p2]
    · rw [if_neg hc] at hg
      exact hacc g hg
  | cons line rest ih =>
    intro gacc cur spine cnt hacc hcur hne g hg
    unfold paginate_groups_loop at hg
    by_cases hbr : 0 ≤ spine ∧ 0 ≤ line.spine_index ∧
        line.spine_index ≠ spine ∧ cur ≠ []
    · rw [if_pos hbr] at hg
      simp only [] at hg
      have hacc' : ∀ x ∈ gacc ++ [(spine, cur)], groupOk x := by
        intro x hx
        rcases List.mem_append.mp hx with h | h
        · exact hacc x h
        · have hxc : x = (spine, cur) := by simpa using h
          subst hxc
          intro l1 h1 l2 h2 p1 p2
          rw [hcur l1 h1 p1, hcur l2 h2 p2]
      have hsingle : ∀ l ∈ ([] : List RunLine) ++ [line],
          0 ≤ l.spine_index → l.spine_index = line.spine_index := by
        intro l hl _
        have : l = line := by simpa using hl
        rw [this]
      by_cases hcap : lpp ≤ 0 + 1
      · rw [if_pos hcap] at hg
        refine ih _ [] (-1) 0 ?_ (by simp) (by intro h; omega) g hg
        intro x hx
        rcases List.mem_append.mp hx with h | h
        · exact hacc' x h
        · have hxc : x = (line.spine_index, [] ++ [line]) := by simpa using h
          subst hxc
          intro l1 h1 l2 h2 p1 p2
          simp only [List.nil_append, List.mem_singleton] at h1 h2
          rw [h1, h2]
      · rw [if_neg hcap] at hg
        exact ih (gacc ++ [(spine, cur)]) ([] ++ [line]) line.spine_index
          (0 + 1) hacc' hsingle (by simp) g hg
    · rw [if_neg hbr] at hg
      simp only [] at hg
      have hcur' : ∀ l ∈ cur ++ [line], 0 ≤ l.spine_index →
          l.spine_index = (if spine < 0 then line.spine_index else spine) := by
        intro l hl hp
        rcases List.mem_append.mp hl with h | h
        · have hls := hcur l h hp
          have hs : ¬ spine < 0 := by omega
          rw [if_neg hs, hls]
        · have hlc : l = line := by simpa using h
          subst hlc
          by_cases hs : spine < 0
          · rw [if_pos hs]
          · rw [if_neg hs]
            push_neg at hbr
            by_contra hneq
            exact hne (by omega) (hbr (by omega) hp hneq)
      by_cases hcap : lpp ≤ cnt + 1
      · rw [if_pos hcap] at hg
        refine ih _ [] (-1) 0 ?_ (by simp) (by intro h; omega) g hg
        intro x hx
        rcases List.mem_append.mp hx with h | h
        · exact hacc x h
        · have hxc : x = (if spine < 0 then line.spine_index else spine,
              cur ++ [line]) := by simpa using h
          subst hxc
          intro l1 h1 l2 h2 p1 p2
          rw [hcur' l1 h1 p1, hcur' l2 h2 p2]
      · rw [if_neg hcap] at hg
        exact ih gacc (cur ++ [line])
          (if spine < 0 then line.spine_index else spine) (cnt + 1)
          hacc hcur' (by simp) g hg

/-- The group accumulator is a prefix of the loop's output. -/
theorem groups_loop_acc (lpp : Nat) (lines : List RunLine) :
    ∀ (gacc : List (Int × List RunLine)) (cur : List RunLine)
      (spine : Int) (cnt : Nat),
      paginate_groups_loop lpp lines gacc cur spine cnt =
        gacc ++ paginate_groups_loop lpp lines [] cur spine cnt := by
  induction lines with
  | nil =>
    intro gacc cur spine cnt
    unfold paginate_groups_loop
    by_cases hc : cur ≠ []
    · rw [if_pos hc, if_pos hc]
      simp
    · rw [if_neg hc, if_neg hc]
      simp
  | cons line rest ih =>
    intro gacc cur spine cnt
    unfold paginate_groups_loop
    by_cases hbr : 0 ≤ spine ∧ 0 ≤ line.spine_index ∧
        line.spine_index ≠ spine ∧ cur ≠ []
    · rw [if_pos hbr, if_pos hbr]
      simp only []
      by_cases hcap : lpp ≤ 0 + 1
      · rw [if_pos hcap, if_pos hcap]
        rw [ih ((gacc ++ [(spine, cur)]) ++
            [(if (-1 : Int) < 0 then line.spine_index else (-1 : Int),
              [] ++ [line])]),
          ih (([] ++ [(spine, cur)]) ++
            [(if (-1 : Int) < 0 then line.spine_index else (-1 : Int),
              [] ++ [line])])]
        simp [List.append_assoc]
      · rw [if_neg hcap, if_neg hcap]
        rw [ih (gacc ++ [(spine, cur)]), ih ([] ++ [(spine, cur)])]
        simp [List.append_assoc]
    · rw [if_neg hbr, if_neg hbr]
      simp only []
      by_cases hcap : lpp ≤ cnt + 1
      · rw [if_pos hcap, if_pos hcap]
        rw [ih (gacc ++ [(if spine < 0 then line.spine_index else spine,
            cur ++ [line])]),
          ih ([] ++ [(if spine < 0 then line.spine_index else spine,
            cur ++ [line])])]
        simp [List.append_assoc]
      · rw [if_neg hcap, if_neg hcap]
        exact ih gacc (cur ++ [line])
          (if spine < 0 then line.spine_index else spine) (cnt + 1)

/-- Chapter coverage: a non-sentinel chapter carried by some remaining
line, or by the current page, ends up as the chapter of some group. -/
theorem groups_loop_coverage (lpp : Nat) (lines : List RunLine) :
    ∀ (cur : List RunLine) (spine : Int) (cnt : Nat) (c : Int),
      0 ≤ c →
      (0 ≤ spine → cur ≠ []) →
      ((∃ l ∈ lines, l.spine_index = c) ∨ spine = c) →
      ∃ g ∈ paginate_groups_loop lpp lines [] cur spine cnt, g.1 = c := by
  induction lines with
  | nil =>
    intro cur spine cnt c hc hne hor
    rcases hor with ⟨l, hl, _⟩ | hsp
    · exact absurd hl (List.not_mem_nil l)
    · subst hsp
      unfold paginate_groups_loop
      rw [if_pos (hne hc)]
      exact ⟨(spine, cur), by simp, rfl⟩
  | cons line rest ih =>
    intro cur spine cnt c hc hne hor
    unfold paginate_groups_loop
    by_cases hbr : 0 ≤ spine ∧ 0 ≤ line.spine_index ∧
        line.spine_index ≠ spine ∧ cur ≠ []
    · rw [if_pos hbr]
      simp only []
      by_cases hcap : lpp ≤ 0 + 1
      · rw [if_pos hcap]
        rw [groups_loop_acc]
        rcases hor with ⟨l, hl, hlc⟩ | hsp
        · rcases List.mem_cons.mp hl with hl0 | hlr
          · subst hl0
            exact ⟨(l.spine_index, [] ++ [l]), by simp, hlc⟩
          · obtain ⟨g, hg, hgc⟩ := ih [] (-1) 0 c hc (by intro h; omega)
              (Or.inl ⟨l, hlr, hlc⟩)
            exact ⟨g, by simp [hg], hgc⟩
        · exact ⟨(spine, cur), by simp, hsp⟩
      · rw [if_neg hcap]
        rw [groups_loop_acc]
        rcases hor with ⟨l, hl, hlc⟩ | hsp
        · rcases List.mem_cons.mp hl with hl0 | hlr
          · subst hl0
            obtain ⟨g, hg, hgc⟩ := ih ([] ++ [l]) l.spine_index (0 + 1) c hc
              (by simp) (Or.inr hlc)
            refine ⟨g, ?_, hgc⟩
            simp only [List.nil_append, Nat.zero_add] at hg
            simp [hg]
          · obtain ⟨g, hg, hgc⟩ := ih ([] ++ [line]) line.spine_index (0 + 1)
              c hc (by simp) (Or.inl ⟨l, hlr, hlc⟩)
            refine ⟨g, ?_, hgc⟩
            simp only [List.nil_append, Nat.zero_add] at hg
            simp [hg]
        · exact ⟨(spine, cur), by simp, hsp⟩
    · rw [if_neg hbr]
      simp only []
      have hspine' : spine = c →
          (if spine < 0 then line.spine_index else spine) = c := by
        intro hsp
        rw [if_neg (by omega), hsp]
      have hline' : line.spine_index = c →
          (if spine < 0 then line.spine_index else spine) = c := by
        intro hlc
        by_cases hs : spine < 0
        · rw [if_pos hs, hlc]
        · push_neg at hbr
          by_cases heq : line.spine_index = spine
          · rw [if_neg hs, ← heq, hlc]
          · exact absurd (hbr (by omega) (by omega) heq) (hne (by omega))
      by_cases hcap : lpp ≤ cnt + 1
      · rw [if_pos hcap]
        rw [groups_loop_acc]
        rcases hor with ⟨l, hl, hlc⟩ | hsp
        · rcases List.mem_cons.mp hl with hl0 | hlr
          · subst hl0
            exact ⟨((if spine < 0 then l.spine_index else spine),
              cur ++ [l]), by simp, hline' hlc⟩
          · obtain ⟨g, hg, hgc⟩ := ih [] (-1) 0 c hc (by intro h; omega)
              (Or.inl ⟨l, hlr, hlc⟩)
            exact ⟨g, by simp [hg], hgc⟩
        · exact ⟨((if spine < 0 then line.spine_index else spine),
            cur ++ [line]), by simp, hspine' hsp⟩
      · rw [if_neg hcap]
        rcases hor with ⟨l, hl, hlc⟩ | hsp
        · rcases List.mem_cons.mp hl with hl0 | hlr
          · subst hl0
            exact ih (cur ++ [l])
              (if spine < 0 then l.spine_index else spine) (cnt + 1) c hc
              (by simp) (Or.inr (hline' hlc))
          · exact ih (cur ++ [line])
              (if spine < 0 then line.spine_index else spine) (cnt + 1) c hc
              (by simp) (Or.inl ⟨l, hlr, hlc⟩)
        · exact ih (cur ++ [line])
            (if spine < 0 then line.spine_index else spine) (cnt + 1) c hc
            (by simp) (Or.inr (hspine' hsp))

/-- The instrumented paginator with the same layout computation as
`paginate_lines`. -/
def paginate_groups (lines : List RunLine) (options : RenderOptions) :
    List (Int × List RunLine) :=
  let usable_height := max (options.screen_height - options.margin_y * 2 % 65536) 1
  let lines_per_page := max (usable_height / options.line_height) 1
  paginate_groups_loop lines_per_page lines [] [] (-1) 0

end Book

/-- C4: pagination never mixes chapters and covers every chapter.
(1) `paginate_lines` is the page image of the instrumented group paginator
(or the single `"(empty)"` placeholder page when no lines were grouped),
so the groups are exactly the lines each page aggregates.  (2) No group —
hence no page — aggregates lines of two distinct non-negative chapter
indices: a chapter change on a non-empty page forces a break regardless of
remaining capacity.  (3) Every non-negative chapter index on some input
line is the chapter index of at least one output page.  (`line_height ≠ 0`
keeps the model on the domain where the source does not panic on division
by zero.) -/
theorem c4_pagination_chapters (lines : List Book.RunLine)
    (options : Book.RenderOptions) (hlh : options.line_height ≠ 0) :
    (Book.paginate_lines lines options =
      if Book.paginate_groups lines options = [] then
        [⟨-1, [⟨Book.emptyPlaceholder, Book.TextStyle.default⟩]⟩]
      else (Book.paginate_groups lines options).map Book.groupPage) ∧
    (∀ g ∈ Book.paginate_groups lines options, ∀ l1 ∈ g.2, ∀ l2 ∈ g.2,
      0 ≤ l1.spine_index → 0 ≤ l2.spine_index →
        l1.spine_index = l2.spine_index) ∧
    (∀ c : Int, 0 ≤ c → (∃ l ∈ lines, l.spine_index = c) →
      ∃ p ∈ Book.paginate_lines lines options, p.spine_index = c) := by
  have heq := Book.paginate_loop_eq_groups
    (max (max (options.screen_height - options.margin_y * 2 % 65536) 1 /
      options.line_height) 1) lines [] [] (-1) 0
  simp only [List.map_nil] at heq
  have hlr : Book.linesRuns [] = [] := rfl
  rw [hlr] at heq
  refine ⟨?_, ?_, ?_⟩
  · unfold Book.paginate_lines Book.paginate_groups
    simp only []
    rw [heq]
    by_cases hG : Book.paginate_groups_loop
        (max (max (options.screen_height - options.margin_y * 2 % 65536) 1 /
          options.line_height) 1) lines [] [] (-1) 0 = []
    · rw [if_pos hG, if_pos (by rw [hG]; rfl)]
    · rw [if_neg hG, if_neg (by simpa using hG)]
  · intro g hg
    exact Book.groups_loop_ok _ lines [] [] (-1) 0 (by simp) (by simp)
      (by intro h; omega) g hg
  · intro c hc ⟨l, hl, hlc⟩
    obtain ⟨g, hg, hgc⟩ := Book.groups_loop_coverage
      (max (max (options.screen_height - options.margin_y * 2 % 65536) 1 /
        options.line_height) 1) lines [] (-1) 0 c hc (by intro h; omega)
      (Or.inl ⟨l, hl, hlc⟩)
    refine ⟨Book.groupPage g, ?_, hgc⟩
    unfold Book.paginate_lines
    simp only []
    rw [heq]
    rw [if_neg (by
      intro hnil
      rw [List.map_eq_nil] at hnil
      rw [hnil] at hg
      simp at hg)]
    exact List.mem_map_of_mem Book.groupPage hg


/-- Concrete layout options for exercising the paginator. -/
def c4opts : Book.RenderOptions := ⟨480, 800, 16, 60, 20, 10, 14, 2⟩

/-- Two one-run lines in chapters 0 and 1. -/
def c4lines : List Book.RunLine :=
  [⟨0, [⟨[65], ⟨false, false⟩⟩]⟩, ⟨1, [⟨[66], ⟨false, false⟩⟩]⟩]

/-- C4 witness: chapter 1, present in the input, is the chapter of some
page of the concrete paginated output. -/
theorem c4_pagination_witness :
    c4opts.line_height ≠ 0 ∧
    (∃ l ∈ c4lines, l.spine_index = 1) ∧
    ∃ p ∈ Book.paginate_lines c4lines c4opts, p.spine_index = 1 :=
  ⟨by decide, by decide,
    (c4_pagination_chapters c4lines c4opts (by decide)).2.2 1 (by decide)
      (by decide)⟩

/-! ## C10: the wrap engine and whitespace-delimited tokens -/

/-- Every whitespace-delimited token of every run of every chapter: the
tokens `wrap_runs` feeds to `wrap_token`. -/
def allTokens (runs : List Book.SpineRuns) : List (List Nat) :=
  (runs.map (fun sp =>
    (sp.runs.map (fun r => Book.split_whitespace r.text)).flatten)).flatten

/-- The measured width of a line as accumulated by `wrap_runs`: each run's
measured text width, plus one `word_spacing` per separating space run. -/
def lineWidth (options : Book.RenderOptions) (adv : Book.AdvanceMap)
    (runs : List Book.TextRun) : Int :=
  (runs.map (fun r => Book.measure_token_width adv options.char_width
    (Book.style_id_from_style r.style) r.text)).sum +
  options.word_spacing * ((runs.filter (fun r => r.text = [32])).length : Int)

/-- Tokens produced by the `split_whitespace` loop are non-empty and
contain no whitespace characters. -/
theorem split_whitespace_loop_tokens :
    ∀ (fuel : Nat) (l : List Nat), ∀ t ∈ Book.split_whitespace_loop fuel l,
      t ≠ [] ∧ ∀ c ∈ t, Book.isRustWhitespace c = false := by
  intro fuel
  induction fuel with
  | zero =>
    intro l t ht
    cases l with
    | nil => simp [Book.split_whitespace_loop] at ht
    | cons a r => simp [Book.split_whitespace_loop] at ht
  | succ n ih =>
    intro l t ht
    cases l with
    | nil => simp [Book.split_whitespace_loop] at ht
    | cons c rest =>
      rw [Book.split_whitespace_loop] at ht
      by_cases hc : Book.isRustWhitespace c = true
      · rw [if_pos hc] at ht
        exact ih rest t ht
      · rw [if_neg hc] at ht
        have hcf : Book.isRustWhitespace c = false := by
          simpa using hc
        rcases List.mem_cons.mp ht with h | h
        · subst h
          refine ⟨by simp, ?_⟩
          intro ch hch
          rcases List.mem_cons.mp hch with h | h
          · subst h; exact hcf
          · have := List.mem_takeWhile_imp h
            simpa using this
        · exact ih _ t h

theorem mem_allTokens (runs : List Book.SpineRuns) (sp : Book.SpineRuns)
    (hsp : sp ∈ runs) (run : Book.TextRun) (hrun : run ∈ sp.runs)
    (t : List Nat) (ht : t ∈ Book.split_whitespace run.text) :
    t ∈ allTokens runs := by
  unfold allTokens
  rw [List.mem_flatten]
  refine ⟨(sp.runs.map (fun r => Book.split_whitespace r.text)).flatten,
    List.mem_map.mpr ⟨sp, hsp, rfl⟩, ?_⟩
  rw [List.mem_flatten]
  exact ⟨Book.split_whitespace run.text,
    List.mem_map.mpr ⟨run, hrun, rfl⟩, ht⟩

theorem allTokens_spec (runs : List Book.SpineRuns) :
    ∀ t ∈ allTokens runs,
      t ≠ [] ∧ ∀ c ∈ t, Book.isRustWhitespace c = false := by
  intro t ht
  unfold allTokens at ht
  rw [List.mem_flatten] at ht
  obtain ⟨l, hl, htl⟩ := ht
  rw [List.mem_map] at hl
  obtain ⟨sp, _, rfl⟩ := hl
  rw [List.mem_flatten] at htl
  obtain ⟨l2, hl2, htl2⟩ := htl
  rw [List.mem_map] at hl2
  obtain ⟨run, _, rfl⟩ := hl2
  unfold Book.split_whitespace at htl2
  exact split_whitespace_loop_tokens run.text.length run.text t htl2

/-- With every mapped advance at least one and a positive fallback width,
`measure_token_width`'s accumulator grows by at least one per character. -/
theorem measure_foldl_ge (adv : Book.AdvanceMap) (cw : Nat) (sid : Book.StyleId)
    (hadv : ∀ s cp a, adv s cp = some a → 1 ≤ a) (hcw : 1 ≤ cw) :
    ∀ (t : List Nat) (w : Int),
      w + t.length ≤ t.foldl (fun w cp => w + (match adv sid cp with
        | some a => a
        | none => (cw : Int))) w := by
  intro t
  induction t with
  | nil => intro w; simp
  | cons c rest ih =>
    intro w
    have hge : (1 : Int) ≤ (match adv sid c with
        | some a => a
        | none => (cw : Int)) := by
      cases h : adv sid c with
      | some a => exact hadv sid c a h
      | none =>
        show (1 : Int) ≤ (cw : Int)
        exact_mod_cast hcw
    have hr := ih (w + (match adv sid c with
        | some a => a
        | none => (cw : Int)))
    simp only [List.foldl_cons]
    push_cast [List.length_cons]
    linarith

theorem measure_token_width_pos (adv : Book.AdvanceMap) (cw : Nat)
    (sid : Book.StyleId) (t : List Nat)
    (hadv : ∀ s cp a, adv s cp = some a → 1 ≤ a) (hcw : 1 ≤ cw)
    (ht : t ≠ []) :
    1 ≤ Book.measure_token_width adv cw sid t := by
  have h := measure_foldl_ge adv cw sid hadv hcw t 0
  have hlen : 1 ≤ t.length := List.length_pos.mpr ht
  unfold Book.measure_token_width
  have : (1 : Int) ≤ (t.length : Int) := by exact_mod_cast hlen
  linarith

theorem lineWidth_append (options : Book.RenderOptions)
    (adv : Book.AdvanceMap) (a b : List Book.TextRun) :
    lineWidth options adv (a ++ b) =
      lineWidth options adv a + lineWidth options adv b := by
  unfold lineWidth
  rw [List.map_append, List.sum_append, List.filter_append, List.length_append]
  push_cast
  ring

theorem lineWidth_nil (options : Book.RenderOptions) (adv : Book.AdvanceMap) :
    lineWidth options adv [] = 0 := by
  unfold lineWidth; simp

theorem lineWidth_single (options : Book.RenderOptions)
    (adv : Book.AdvanceMap) (r : Book.TextRun) :
    lineWidth options adv [r] =
      Book.measure_token_width adv options.char_width
        (Book.style_id_from_style r.style) r.text +
      (if r.text = [32] then options.word_spacing else 0) := by
  unfold lineWidth
  by_cases h : r.text = [32]
  · simp [List.filter_cons, h]
  · simp [List.filter_cons, h]

theorem lineWidth_runs_ge (options : Book.RenderOptions)
    (adv : Book.AdvanceMap)
    (hadv : ∀ s cp a, adv s cp = some a → 1 ≤ a)
    (hcw : 1 ≤ options.char_width) (hws : 0 ≤ options.word_spacing) :
    ∀ (runs : List Book.TextRun), (∀ r ∈ runs, r.text ≠ []) →
      (runs.length : Int) ≤ lineWidth options adv runs := by
  intro runs
  induction runs with
  | nil => intro _; simp [lineWidth_nil]
  | cons r rest ih =>
    intro hne
    have h1 : (1 : Int) ≤ Book.measure_token_width adv options.char_width
        (Book.style_id_from_style r.style) r.text :=
      measure_token_width_pos _ _ _ _ hadv hcw (hne r (by simp))
    have h2 := ih (fun x hx => hne x (by simp [hx]))
    have h3 : lineWidth options adv (r :: rest) =
        lineWidth options adv [r] + lineWidth options adv rest := by
      have := lineWidth_append options adv [r] rest
      simpa using this
    rw [h3, lineWidth_single]
    by_cases h : r.text = [32]
    · rw [if_pos h]
      push_cast [List.length_cons]
      linarith
    · rw [if_neg h]
      push_cast [List.length_cons]
      linarith

/-- The `wrap_runs` loop invariant: the tracked width is the line width of
the pending runs; pending and emitted runs are spaces or whole tokens of
`T`; the pending width only exceeds the maximum when the pending line is a
single oversized token; and every emitted line's width exceeds the maximum
exactly when it is a single oversized token. -/
def wrapInv (options : Book.RenderOptions) (adv : Book.AdvanceMap)
    (max_width : Int) (T : List (List Nat)) (st : Book.WrapState) : Prop :=
  st.current_width = lineWidth options adv st.current ∧
  (∀ r ∈ st.current, r.text = [32] ∨ r.text ∈ T) ∧
  (st.current_width ≤ max_width ∨
    ∃ r, st.current = [r] ∧ max_width <
      Book.measure_token_width adv options.char_width
        (Book.style_id_from_style r.style) r.text) ∧
  (∀ line ∈ st.lines,
    (∀ r ∈ line.runs, r.text = [32] ∨ r.text ∈ T) ∧
    (max_width < lineWidth options adv line.runs ↔
      ∃ r, line.runs = [r] ∧ max_width <
        Book.measure_token_width adv options.char_width
          (Book.style_id_from_style r.style) r.text))

/-- Flushing the pending runs as a finished line: the emitted-line
properties follow from the pending-state invariants. -/
theorem flush_props (options : Book.RenderOptions) (adv : Book.AdvanceMap)
    (max_width : Int) (T : List (List Nat))
    (hws : 0 ≤ options.word_spacing)
    (cur : List Book.TextRun) (curw : Int)
    (hA : curw = lineWidth options adv cur)
    (hC : ∀ r ∈ cur, r.text = [32] ∨ r.text ∈ T)
    (hD : curw ≤ max_width ∨ ∃ r, cur = [r] ∧ max_width <
      Book.measure_token_width adv options.char_width
        (Book.style_id_from_style r.style) r.text) :
    (∀ r ∈ cur, r.text = [32] ∨ r.text ∈ T) ∧
    (max_width < lineWidth options adv cur ↔
      ∃ r, cur = [r] ∧ max_width <
        Book.measure_token_width adv options.char_width
          (Book.style_id_from_style r.style) r.text) := by
  refine ⟨hC, ⟨fun hgt => ?_, fun h => ?_⟩⟩
  · rcases hD with h | h
    · rw [hA] at h
      exact absurd hgt (not_lt.mpr h)
    · exact h
  · obtain ⟨r, hr, hm⟩ := h
    rw [hr, lineWidth_single]
    by_cases h32 : r.text = [32]
    · rw [if_pos h32]; linarith
    · rw [if_neg h32]; linarith

theorem wrap_token_inv (options : Book.RenderOptions) (adv : Book.AdvanceMap)
    (max_width : Int) (T : List (List Nat)) (style : Book.TextStyle)
    (st : Book.WrapState) (token : List Nat)
    (hadv : ∀ s cp a, adv s cp = some a → 1 ≤ a)
    (hcw : 1 ≤ options.char_width)
    (hws : 0 ≤ options.word_spacing)
    (htok : token ∈ T)
    (hT : ∀ t ∈ T, t ≠ [] ∧ ∀ c ∈ t, Book.isRustWhitespace c = false)
    (hinv : wrapInv options adv max_width T st) :
    wrapInv options adv max_width T
      (Book.wrap_token options adv max_width style st token) := by
  obtain ⟨hA, hC, hD, hB⟩ := hinv
  obtain ⟨htne, htnws⟩ := hT token htok
  have htok32 : token ≠ [32] := by
    intro h
    have := htnws 32 (by rw [h]; simp)
    simp [Book.isRustWhitespace] at this
  have hLtok : lineWidth options adv [⟨token, style⟩] =
      Book.measure_token_width adv options.char_width
        (Book.style_id_from_style style) token := by
    rw [lineWidth_single]
    simp [htok32]
  have hcurne : ∀ r ∈ st.current, r.text ≠ [] := by
    intro r hr
    rcases hC r hr with h | h
    · rw [h]; simp
    · exact (hT _ h).1
  unfold Book.wrap_token
  simp only []
  by_cases h0 : st.current_width = 0
  · rw [if_pos h0]
    have hcur : st.current = [] := by
      by_contra hne
      have hlen : st.current.length ≠ 0 := by
        simpa [List.length_eq_zero] using hne
      have hlen1 : (1 : Int) ≤ (st.current.length : Int) := by
        exact_mod_cast Nat.one_le_iff_ne_zero.mpr hlen
      have hge := lineWidth_runs_ge options adv hadv hcw hws st.current hcurne
      rw [← hA, h0] at hge
      linarith
    unfold wrapInv
    refine ⟨?_, ?_, ?_, hB⟩
    · show Book.measure_token_width adv options.char_width
          (Book.style_id_from_style style) token =
        lineWidth options adv (st.current ++ [⟨token, style⟩])
      rw [hcur, List.nil_append, hLtok]
    · intro r hr
      rw [hcur, List.nil_append, List.mem_singleton] at hr
      subst hr
      exact Or.inr htok
    · by_cases hle : Book.measure_token_width adv options.char_width
          (Book.style_id_from_style style) token ≤ max_width
      · exact Or.inl hle
      · exact Or.inr ⟨⟨token, style⟩, by rw [hcur, List.nil_append],
          not_le.mp hle⟩
  · rw [if_neg h0]
    by_cases hfit : st.current_width +
        (Book.measure_token_width adv options.char_width
          (Book.style_id_from_style style) [32] + options.word_spacing) +
        Book.measure_token_width adv options.char_width
          (Book.style_id_from_style style) token ≤ max_width
    · rw [if_pos hfit]
      unfold wrapInv
      refine ⟨?_, ?_, Or.inl hfit, hB⟩
      · show st.current_width +
            (Book.measure_token_width adv options.char_width
              (Book.style_id_from_style style) [32] + options.word_spacing) +
            Book.measure_token_width adv options.char_width
              (Book.style_id_from_style style) token =
          lineWidth options adv
            (st.current ++ [⟨[32], style⟩, ⟨token, style⟩])
        have hsplit : st.current ++ [⟨[32], style⟩, ⟨token, style⟩] =
            (st.current ++ [(⟨[32], style⟩ : Book.TextRun)]) ++ [⟨token, style⟩] := by
          simp
        rw [hsplit, lineWidth_append, lineWidth_append, hLtok,
          lineWidth_single, if_pos rfl, ← hA]
        try ring
      · intro r hr
        rw [List.mem_append] at hr
        rcases hr with h | h
        · exact hC r h
        · rcases List.mem_cons.mp h with h | h
          · subst h; exact Or.inl rfl
          · rw [List.mem_singleton] at h
            subst h
            exact Or.inr htok
    · rw [if_neg hfit]
      unfold wrapInv
      refine ⟨hLtok.symm, ?_, ?_, ?_⟩
      · intro r hr
        rw [List.mem_singleton] at hr
        subst hr
        exact Or.inr htok
      · by_cases hle : Book.measure_token_width adv options.char_width
            (Book.style_id_from_style style) token ≤ max_width
        · exact Or.inl hle
        · exact Or.inr ⟨⟨token, style⟩, rfl, not_le.mp hle⟩
      · intro line hline
        rw [List.mem_append] at hline
        rcases hline with h | h
        · exact hB line h
        · rw [List.mem_singleton] at h
          subst h
          exact flush_props options adv max_width T hws st.current
            st.current_width hA hC hD

theorem wrap_token_foldl_inv (options : Book.RenderOptions)
    (adv : Book.AdvanceMap) (max_width : Int) (T : List (List Nat))
    (style : Book.TextStyle)
    (hadv : ∀ s cp a, adv s cp = some a → 1 ≤ a)
    (hcw : 1 ≤ options.char_width)
    (hws : 0 ≤ options.word_spacing)
    (hT : ∀ t ∈ T, t ≠ [] ∧ ∀ c ∈ t, Book.isRustWhitespace c = false) :
    ∀ (toks : List (List Nat)) (st : Book.WrapState),
      (∀ t ∈ toks, t ∈ T) →
      wrapInv options adv max_width T st →
      wrapInv options adv max_width T
        (toks.foldl (Book.wrap_token options adv max_width style) st) := by
  intro toks
  induction toks with
  | nil => intro st _ h; exact h
  | cons t rest ih =>
    intro st hmem hinv
    simp only [List.foldl_cons]
    exact ih _ (fun x hx => hmem x (by simp [hx]))
      (wrap_token_inv options adv max_width T style st t hadv hcw hws
        (hmem t (by simp)) hT hinv)

theorem wrap_run_inv (options : Book.RenderOptions) (adv : Book.AdvanceMap)
    (max_width : Int) (T : List (List Nat))
    (hadv : ∀ s cp a, adv s cp = some a → 1 ≤ a)
    (hcw : 1 ≤ options.char_width)
    (hws : 0 ≤ options.word_spacing)
    (hmax : 0 ≤ max_width)
    (hT : ∀ t ∈ T, t ≠ [] ∧ ∀ c ∈ t, Book.isRustWhitespace c = false)
    (st : Book.WrapState) (run : Book.TextRun)
    (hrun : ∀ t ∈ Book.split_whitespace run.text, t ∈ T)
    (hinv : wrapInv options adv max_width T st) :
    wrapInv options adv max_width T
      (Book.wrap_run options adv max_width st run) := by
  have hmid := wrap_token_foldl_inv options adv max_width T run.style
    hadv hcw hws hT (Book.split_whitespace run.text) st hrun hinv
  obtain ⟨hA, hC, hD, hB⟩ := hmid
  unfold Book.wrap_run
  simp only []
  by_cases h10 : 10 ∈ run.text
  · rw [if_pos h10]
    by_cases hne : ((Book.split_whitespace run.text).foldl
        (Book.wrap_token options adv max_width run.style) st).current ≠ []
    · rw [if_pos hne]
      unfold wrapInv
      refine ⟨by rw [lineWidth_nil], by simp, Or.inl hmax, ?_⟩
      intro line hline
      rw [List.mem_append] at hline
      rcases hline with h | h
      · exact hB line h
      · rw [List.mem_singleton] at h
        subst h
        exact flush_props options adv max_width T hws _ _ hA hC hD
    · rw [if_neg hne]
      exact ⟨hA, hC, hD, hB⟩
  · rw [if_neg h10]
    exact ⟨hA, hC, hD, hB⟩

theorem wrap_run_foldl_inv (options : Book.RenderOptions)
    (adv : Book.AdvanceMap) (max_width : Int) (T : List (List Nat))
    (hadv : ∀ s cp a, adv s cp = some a → 1 ≤ a)
    (hcw : 1 ≤ options.char_width)
    (hws : 0 ≤ options.word_spacing)
    (hmax : 0 ≤ max_width)
    (hT : ∀ t ∈ T, t ≠ [] ∧ ∀ c ∈ t, Book.isRustWhitespace c = false) :
    ∀ (rs : List Book.TextRun) (st : Book.WrapState),
      (∀ run ∈ rs, ∀ t ∈ Book.split_whitespace run.text, t ∈ T) →
      wrapInv options adv max_width T st →
      wrapInv options adv max_width T
        (rs.foldl (Book.wrap_run options adv max_width) st) := by
  intro rs
  induction rs with
  | nil => intro st _ h; exact h
  | cons r rest ih =>
    intro st hmem hinv
    simp only [List.foldl_cons]
    exact ih _ (fun x hx => hmem x (by simp [hx]))
      (wrap_run_inv options adv max_width T hadv hcw hws hmax hT st r
        (hmem r (by simp)) hinv)

theorem wrap_spine_foldl_inv (options : Book.RenderOptions)
    (adv : Book.AdvanceMap) (max_width : Int) (T : List (List Nat))
    (hadv : ∀ s cp a, adv s cp = some a → 1 ≤ a)
    (hcw : 1 ≤ options.char_width)
    (hws : 0 ≤ options.word_spacing)
    (hmax : 0 ≤ max_width)
    (hT : ∀ t ∈ T, t ≠ [] ∧ ∀ c ∈ t, Book.isRustWhitespace c = false) :
    ∀ (l : List Book.SpineRuns) (st : Book.WrapState),
      (∀ sp ∈ l, ∀ run ∈ sp.runs, ∀ t ∈ Book.split_whitespace run.text, t ∈ T) →
      wrapInv options adv max_width T st →
      wrapInv options adv max_width T
        (l.foldl (Book.wrap_spine options adv max_width) st) := by
  intro l
  induction l with
  | nil => intro st _ h; exact h
  | cons sp rest ih =>
    intro st hmem hinv
    simp only [List.foldl_cons]
    have hinit : wrapInv options adv max_width T
        { st with current_spine := sp.spine_index } := by
      obtain ⟨hA, hC, hD, hB⟩ := hinv
      exact ⟨hA, hC, hD, hB⟩
    have hstep : wrapInv options adv max_width T
        (Book.wrap_spine options adv max_width st sp) := by
      unfold Book.wrap_spine
      exact wrap_run_foldl_inv options adv max_width T hadv hcw hws hmax hT
        sp.runs _ (fun run hr => hmem sp (by simp) run hr) hinit
    exact ih _ (fun x hx => hmem x (by simp [hx])) hstep

/-- C10: under positive per-character advances (every mapped advance at
least 1, `char_width` at least 1) and non-negative word spacing, the wrap
engine never splits a whitespace-delimited token: every run of every
output line is either a single-space separator or a whole token of the
input, and a line's measured width exceeds the maximum line width exactly
when that line consists of a single token whose own measured width exceeds
it. -/
theorem c10_wrap_token_integrity (runs : List Book.SpineRuns)
    (options : Book.RenderOptions) (adv : Book.AdvanceMap)
    (hadv : ∀ s cp a, adv s cp = some a → 1 ≤ a)
    (hcw : 1 ≤ options.char_width)
    (hws : 0 ≤ options.word_spacing) :
    ∀ line ∈ Book.wrap_runs runs options adv,
      (∀ r ∈ line.runs, r.text = [32] ∨ r.text ∈ allTokens runs) ∧
      (Book.maxLineWidth options < lineWidth options adv line.runs ↔
        ∃ r, line.runs = [r] ∧ Book.maxLineWidth options <
          Book.measure_token_width adv options.char_width
            (Book.style_id_from_style r.style) r.text) := by
  have hmax : 0 ≤ Book.maxLineWidth options :=
    le_trans (by norm_num) (le_max_right _ _)
  have hT := allTokens_spec runs
  have hmem : ∀ sp ∈ runs, ∀ run ∈ sp.runs,
      ∀ t ∈ Book.split_whitespace run.text, t ∈ allTokens runs :=
    fun sp hsp run hrun t ht => mem_allTokens runs sp hsp run hrun t ht
  have hinit : wrapInv options adv (Book.maxLineWidth options)
      (allTokens runs) ⟨[], [], 0, -1⟩ :=
    ⟨by rw [lineWidth_nil], by simp, Or.inl hmax, by simp⟩
  have hfin := wrap_spine_foldl_inv options adv (Book.maxLineWidth options)
    (allTokens runs) hadv hcw hws hmax hT runs ⟨[], [], 0, -1⟩ hmem hinit
  obtain ⟨hA, hC, hD, hB⟩ := hfin
  intro line hline
  unfold Book.wrap_runs at hline
  simp only [] at hline
  by_cases hne : (runs.foldl
      (Book.wrap_spine options adv (Book.maxLineWidth options))
      ⟨[], [], 0, -1⟩).current ≠ []
  · rw [if_pos hne] at hline
    rw [List.mem_append] at hline
    rcases hline with h | h
    · exact hB line h
    · rw [List.mem_singleton] at h
      subst h
      exact flush_props options adv (Book.maxLineWidth options)
        (allTokens runs) hws _ _ hA hC hD
  · rw [if_neg hne] at hline
    exact hB line hline

def c10opts : Book.RenderOptions := ⟨30, 800, 10, 60, 20, 10, 14, 2⟩

def c10adv : Book.AdvanceMap := fun _ cp => if cp = 97 then some 0 else none

def c10runs : List Book.SpineRuns :=
  [⟨0, [⟨[97, 32, 88, 88, 88, 88], ⟨false, false⟩⟩]⟩]

/-- C10 counterexample: with a zero-advance glyph for the letter a, the
single output line for the input text "a XXXX" is the run list
["a", "XXXX"]: its measured width 40 exceeds the maximum line width 10,
yet the line does not begin with the oversized token "XXXX" (its first
run "a" measures 0), falsifying the claim that an oversized token is
always emitted as the first token of a line and that a line exceeds the
maximum exactly when it begins with one. -/
theorem c10_counterexample :
    Book.wrap_runs c10runs c10opts c10adv =
      [⟨0, [⟨[97], ⟨false, false⟩⟩, ⟨[88, 88, 88, 88], ⟨false, false⟩⟩]⟩] ∧
    Book.maxLineWidth c10opts = 10 ∧
    lineWidth c10opts c10adv
      [⟨[97], ⟨false, false⟩⟩, ⟨[88, 88, 88, 88], ⟨false, false⟩⟩] = 40 ∧
    Book.measure_token_width c10adv c10opts.char_width .Regular [97] = 0 :=
  ⟨rfl, rfl, rfl, rfl⟩

def c10wadv : Book.AdvanceMap := fun _ _ => none

def c10wruns : List Book.SpineRuns :=
  [⟨0, [⟨[104, 105, 32, 104, 105, 104, 105], ⟨false, false⟩⟩]⟩]

/-- C10 witness: wrapping "hi hihi" at maximum width 10 with uniform
advance 10 puts the oversized token "hi" alone on a line, and the amended
theorem's characterization certifies that that line's width exceeds the
maximum. -/
theorem c10_wrap_witness :
    (1 ≤ c10opts.char_width) ∧ (0 ≤ c10opts.word_spacing) ∧
    (⟨0, [⟨[104, 105], ⟨false, false⟩⟩]⟩ : Book.RunLine) ∈
      Book.wrap_runs c10wruns c10opts c10wadv ∧
    Book.maxLineWidth c10opts <
      lineWidth c10opts c10wadv [⟨[104, 105], ⟨false, false⟩⟩] :=
  ⟨by decide, by decide, by decide,
    ((c10_wrap_token_integrity c10wruns c10opts c10wadv
        (fun _ _ _ h => Option.noConfusion h) (by decide) (by decide)
        ⟨0, [⟨[104, 105], ⟨false, false⟩⟩]⟩ (by decide)).2).mpr
      ⟨⟨[104, 105], ⟨false, false⟩⟩, rfl, by decide⟩⟩

/-! ## C6: legacy pre-ascent version-1 headers -/

theorem read_i16_eq (data : List Nat) (offset : Nat)
    (h : offset + 2 ≤ data.length) :
    read_i16 data offset = .ok (asI16 (u16At data offset)) := by
  unfold read_i16 u16At
  rw [if_neg (by omega)]

theorem byteAt_take (l : List Nat) (n i : Nat) (h : i < n) :
    byteAt (l.take n) i = byteAt l i := by
  unfold byteAt
  rw [List.getD_eq_getElem?_getD, List.getD_eq_getElem?_getD,
    List.getElem?_take, if_pos h]

theorem u16At_take (l : List Nat) (n i : Nat) (h : i + 2 ≤ n) :
    u16At (l.take n) i = u16At l i := by
  unfold u16At
  rw [byteAt_take l n i (by omega), byteAt_take l n (i + 1) (by omega)]

theorem u32At_take (l : List Nat) (n i : Nat) (h : i + 4 ≤ n) :
    u32At (l.take n) i = u32At l i := by
  unfold u32At
  rw [byteAt_take l n i (by omega), byteAt_take l n (i + 1) (by omega),
    byteAt_take l n (i + 2) (by omega), byteAt_take l n (i + 3) (by omega)]

/-- A successful `read_string` advances the cursor by at least the length
prefix and stays inside the data. -/
theorem read_string_ok_bounds (data : List Nat) (c : Nat) (s : List Nat)
    (c' : Nat) (h : read_string data c = .ok (s, c')) :
    c + 4 ≤ c' ∧ c' ≤ data.length := by
  unfold read_string at h
  cases hu : read_u32 data c with
  | error e => rw [hu] at h; simp at h
  | ok len =>
    rw [hu] at h
    simp only [] at h
    by_cases hb : c + 4 + len > data.length
    · rw [if_pos hb] at h; simp at h
    · rw [if_neg hb] at h
      cases hd : utf8Decode ((data.drop (c + 4)).take len) with
      | none => rw [hd] at h; simp at h
      | some s' =>
        rw [hd] at h
        simp only [Except.ok.injEq, Prod.mk.injEq] at h
        omega

theorem readExactAt_take (data : List Nat) (n : Nat) (h : n ≤ data.length) :
    X4.readExactAt data 0 n = .ok (data.take n) := by
  unfold X4.readExactAt
  rw [if_pos (by omega)]
  simp

/-- C6 (amended): a version-1 file in the legacy pre-ascent header layout
(header spanning the whole file; five metadata strings, then `char_width`,
`line_height` and exactly the four margins; no TOC, no pages) decodes in
the core decoder with `ascent = line_height - line_height / 4` and an
empty glyph table, but the x4 streaming reader, which reads the `ascent`
field unconditionally, rejects every such file with a Decode error. -/
theorem c6_legacy_header_decode (data t a lg idn fn : List Nat)
    (c1 c2 c3 c4 c5 : Nat)
    (hmagic : data.take 4 = magicBytes)
    (hver : byteAt data 4 = 1)
    (hhs : u16At data 6 = data.length)
    (hpc : u32At data 0x0C = 0)
    (htc : u32At data 0x10 = 0)
    (hlut : u32At data 0x14 ≤ data.length)
    (htoco : u32At data 0x18 = data.length)
    (hs1 : read_string data 0x2C = .ok (t, c1))
    (hs2 : read_string data c1 = .ok (a, c2))
    (hs3 : read_string data c2 = .ok (lg, c3))
    (hs4 : read_string data c3 = .ok (idn, c4))
    (hs5 : read_string data c4 = .ok (fn, c5))
    (hpre : data.length = c5 + 12)
    (hlh : u16At data (c5 + 2) < 32768) :
    parse_trbk data = .ok
      { screen_width := u16At data 8
        screen_height := u16At data 10
        pages := []
        metadata :=
          { title := t
            author := a
            language := lg
            identifier := idn
            font_name := fn
            char_width := u16At data c5
            line_height := u16At data (c5 + 2)
            ascent := (u16At data (c5 + 2) : Int) -
              (u16At data (c5 + 2) : Int) / 4
            margin_left := u16At data (c5 + 4)
            margin_right := u16At data (c5 + 6)
            margin_top := u16At data (c5 + 8)
            margin_bottom := u16At data (c5 + 10) }
        glyphs := []
        page_count := 0
        toc := [] } ∧
    X4.open_trbk data = .error .Decode := by
  obtain ⟨hb1, hb1' ⟩ := read_string_ok_bounds data 0x2C t c1 hs1
  obtain ⟨hb2, hb2' ⟩ := read_string_ok_bounds data c1 a c2 hs2
  obtain ⟨hb3, hb3' ⟩ := read_string_ok_bounds data c2 lg c3 hs3
  obtain ⟨hb4, hb4' ⟩ := read_string_ok_bounds data c3 idn c4 hs4
  obtain ⟨hb5, hb5' ⟩ := read_string_ok_bounds data c4 fn c5 hs5
  have hlen : 76 ≤ data.length := by omega
  have hascent : satSubI16 (asI16 (u16At data (c5 + 2)))
      (Int.tdiv (asI16 (u16At data (c5 + 2))) 4) =
      (u16At data (c5 + 2) : Int) - (u16At data (c5 + 2) : Int) / 4 := by
    have hm : asI16 (u16At data (c5 + 2)) = (u16At data (c5 + 2) : Int) := by
      unfold asI16
      rw [Nat.mod_eq_of_lt (by omega), if_pos hlh]
      omega
    rw [hm, Int.tdiv_eq_ediv (by positivity) (by norm_num)]
    unfold satSubI16
    have h1 : (0 : Int) ≤ (u16At data (c5 + 2) : Int) / 4 := by positivity
    have h2 : (u16At data (c5 + 2) : Int) / 4 ≤ (u16At data (c5 + 2) : Int) := by
      omega
    have h3 : (u16At data (c5 + 2) : Int) ≤ 32767 := by
      have : (u16At data (c5 + 2)) ≤ 32767 := by omega
      exact_mod_cast this
    omega
  constructor
  · unfold parse_trbk
    rw [if_neg (by rw [hmagic]; simp; omega)]
    try simp only [pure_bind]
    rw [hver]
    rw [if_neg (by simp)]
    rw [read_u16_eq data 6 (by omega), ok_bind, hhs]
    rw [read_u16_eq data 8 (by omega), ok_bind]
    rw [read_u16_eq data 10 (by omega), ok_bind]
    rw [read_u32_eq data 12 (by omega), ok_bind, hpc]
    rw [read_u32_eq data 16 (by omega), ok_bind, htc]
    rw [read_u32_eq data 20 (by omega), ok_bind]
    rw [read_u32_eq data 24 (by omega), ok_bind, htoco]
    rw [read_u32_eq data 28 (by omega), ok_bind]
    rw [read_u32_eq data 32 (by omega), ok_bind]
    rw [if_neg (by decide : ¬ (2 ≤ 1))]
    try simp only [pure_bind]
    rw [if_neg (by omega)]
    try simp only [pure_bind]
    rw [if_neg (by simp)]
    try simp only [pure_bind]
    rw [if_neg (by exact not_lt.mpr hlut)]
    try simp only [pure_bind]
    rw [if_neg (by decide : ¬ (2 ≤ 1))]
    rw [hs1, ok_bind]
    try simp only []
    rw [hs2, ok_bind]
    try simp only []
    rw [hs3, ok_bind]
    try simp only []
    rw [hs4, ok_bind]
    try simp only []
    rw [hs5, ok_bind]
    try simp only []
    rw [read_u16_eq data c5 (by omega), ok_bind]
    rw [read_u16_eq data (c5 + 2) (by omega), ok_bind]
    rw [if_neg (by omega)]
    rw [read_u16_eq data (c5 + 4) (by omega), ok_bind]
    rw [read_u16_eq data (c5 + 6) (by omega), ok_bind]
    rw [read_u16_eq data (c5 + 8) (by omega), ok_bind]
    rw [read_u16_eq data (c5 + 10) (by omega), ok_bind]
    try simp only [pure_bind]
    rw [if_neg (by omega)]
    rw [if_neg (by decide : ¬ (0 > 0))]
    try simp only [pure_bind]
    rw [if_neg (by simpa using not_lt.mpr hlut)]
    rw [show read_offsets data (u32At data 20) 0 = .ok [] from rfl, ok_bind]
    try simp only []
    simp only [List.length_nil]
    rw [show parse_pages data 1 (u32At data 28) 0 [] 0 0 = .ok [] from rfl,
      ok_bind]
    rw [if_neg (by simp)]
    try simp only [pure_bind]
    rw [hascent]
    rfl
  · unfold X4.open_trbk
    rw [readExactAt_take data 0x30 (by omega), ok_bind]
    rw [if_neg (by rw [List.take_take]; simp; rw [hmagic])]
    try simp only [pure_bind]
    rw [byteAt_take data 0x30 4 (by omega), hver]
    rw [if_neg (by simp)]
    rw [read_u16_eq (data.take 0x30) 6
        (by rw [List.length_take]; omega), ok_bind]
    rw [u16At_take data 0x30 6 (by omega), hhs]
    rw [read_u16_eq (data.take 0x30) 8
        (by rw [List.length_take]; omega), ok_bind]
    rw [read_u16_eq (data.take 0x30) 10
        (by rw [List.length_take]; omega), ok_bind]
    rw [read_u32_eq (data.take 0x30) 12
        (by rw [List.length_take]; omega), ok_bind]
    rw [read_u32_eq (data.take 0x30) 16
        (by rw [List.length_take]; omega), ok_bind]
    rw [u32At_take data 0x30 16 (by omega), htc]
    rw [read_u32_eq (data.take 0x30) 20
        (by rw [List.length_take]; omega), ok_bind]
    rw [read_u32_eq (data.take 0x30) 24
        (by rw [List.length_take]; omega), ok_bind]
    rw [read_u32_eq (data.take 0x30) 28
        (by rw [List.length_take]; omega), ok_bind]
    rw [if_neg (by decide : ¬ (2 ≤ 1))]
    try simp only [pure_bind]
    rw [if_neg (by simp)]
    rw [show X4.readExactAt data 0 data.length = .ok data from by
      rw [readExactAt_take data data.length (by omega), List.take_length]]
    rw [ok_bind]
    rw [if_neg (by decide : ¬ (2 ≤ 1))]
    rw [hs1, ok_bind]
    try simp only []
    rw [hs2, ok_bind]
    try simp only []
    rw [hs3, ok_bind]
    try simp only []
    rw [hs4, ok_bind]
    try simp only []
    rw [hs5, ok_bind]
    try simp only []
    rw [read_u16_eq data c5 (by omega), ok_bind]
    rw [read_u16_eq data (c5 + 2) (by omega), ok_bind]
    rw [read_i16_eq data (c5 + 4) (by omega), ok_bind]
    rw [read_u16_eq data (c5 + 6) (by omega), ok_bind]
    rw [read_u16_eq data (c5 + 8) (by omega), ok_bind]
    rw [read_u16_eq data (c5 + 10) (by omega), ok_bind]
    rw [read_u16_err data (c5 + 12) (by omega), error_bind]

/-- A 76-byte version-1 file in the legacy pre-ascent layout: empty
metadata strings, `char_width = 8`, `line_height = 20`, margins
10/10/60/60, no TOC, no pages, no glyph table. -/
def c6data : List Nat :=
  magicBytes ++ [1, 0] ++ le16 76 ++ le16 480 ++ le16 800 ++
  le32 0 ++ le32 0 ++ le32 76 ++ le32 76 ++ le32 76 ++ le32 0 ++ le32 0 ++
  le32 0 ++
  le32 0 ++ le32 0 ++ le32 0 ++ le32 0 ++ le32 0 ++
  le16 8 ++ le16 20 ++ le16 10 ++ le16 10 ++ le16 60 ++ le16 60

/-- C6 counterexample: the core decoder accepts the legacy file (with the
derived `ascent = 20 - 20/4 = 15` and no glyphs), but the x4 streaming
reader, cited by the claim for the same layout, fails with a Decode error
instead of succeeding. -/
theorem c6_counterexample :
    parse_trbk c6data = .ok
      { screen_width := 480
        screen_height := 800
        pages := []
        metadata :=
          { title := []
            author := []
            language := []
            identifier := []
            font_name := []
            char_width := 8
            line_height := 20
            ascent := 15
            margin_left := 10
            margin_right := 10
            margin_top := 60
            margin_bottom := 60 }
        glyphs := []
        page_count := 0
        toc := [] } ∧
    X4.open_trbk c6data = .error .Decode :=
  ⟨rfl, rfl⟩

/-- C6 witness: the legacy-layout theorem applied to the concrete 76-byte
file. -/
theorem c6_legacy_witness :
    (byteAt c6data 4 = 1 ∧ u16At c6data 6 = c6data.length ∧
      c6data.length = 64 + 12 ∧ u16At c6data 66 < 32768) ∧
    parse_trbk c6data = .ok
      { screen_width := u16At c6data 8
        screen_height := u16At c6data 10
        pages := []
        metadata :=
          { title := []
            author := []
            language := []
            identifier := []
            font_name := []
            char_width := u16At c6data 64
            line_height := u16At c6data 66
            ascent := (u16At c6data 66 : Int) - (u16At c6data 66 : Int) / 4
            margin_left := u16At c6data 68
            margin_right := u16At c6data 70
            margin_top := u16At c6data 72
            margin_bottom := u16At c6data 74 }
        glyphs := []
        page_count := 0
        toc := [] } ∧
    X4.open_trbk c6data = .error .Decode :=
  ⟨⟨rfl, rfl, rfl, by decide⟩,
    (c6_legacy_header_decode c6data [] [] [] [] [] 48 52 56 60 64
      rfl rfl rfl rfl rfl (by decide) rfl rfl rfl rfl rfl rfl rfl
      (by decide)).1,
    (c6_legacy_header_decode c6data [] [] [] [] [] 48 52 56 60 64
      rfl rfl rfl rfl rfl (by decide) rfl rfl rfl rfl rfl rfl rfl
      (by decide)).2⟩

/-! ## C1: round-trip support — page records -/

/-- The records emitted by `write_trbk`'s per-page loop (the record-list
view of `page_record_bytes`). -/
def pageRecs (options : Book.RenderOptions) (adv : Book.AdvanceMap) :
    Nat → Int → List Book.TextRun → List (Nat × List Nat)
  | _, _, [] => []
  | x, baseline, run :: rest =>
    if run.text = [10] then
      pageRecs options adv options.margin_x
        (baseline + (options.line_height : Int)) rest
    else
      let sid := Book.style_id_from_style run.style
      let payload := le16 x ++ le16i baseline ++ [sid.toNat, 0] ++
        utf8Encode run.text
      let advance := Book.measure_token_width adv options.char_width sid run.text
      (1, payload) ::
        pageRecs options adv
          (if 0 < advance then Book.satAddU16 x advance else x) baseline rest

theorem page_record_bytes_eq (options : Book.RenderOptions)
    (adv : Book.AdvanceMap) :
    ∀ (rs : List Book.TextRun) (x : Nat) (b : Int),
      Book.page_record_bytes options adv x b rs =
        streamBytes (pageRecs options adv x b rs) := by
  intro rs
  induction rs with
  | nil => intro x b; rfl
  | cons run rest ih =>
    intro x b
    unfold Book.page_record_bytes pageRecs
    by_cases h : run.text = [10]
    · rw [if_pos h, if_pos h]
      exact ih _ _
    · rw [if_neg h, if_neg h]
      simp only [streamBytes, List.map_cons, List.flatten_cons, recordBytes]
      rw [ih]
      rfl

/-- The first six payload bytes are the pen position, baseline and style;
the rest is the UTF-8 text. -/
theorem payload_drop6 (x : Nat) (b : Int) (s : Nat) (enc : List Nat) :
    (le16 x ++ le16i b ++ [s, 0] ++ enc).drop 6 = enc := by
  simp [le16, le16i]

theorem payload_length (x : Nat) (b : Int) (s : Nat) (enc : List Nat) :
    (le16 x ++ le16i b ++ [s, 0] ++ enc).length = 6 + enc.length := by
  simp [le16, le16i]
  omega

theorem pageRecs_wf (options : Book.RenderOptions) (adv : Book.AdvanceMap) :
    ∀ (rs : List Book.TextRun) (x : Nat) (b : Int),
      (∀ r ∈ rs, (∀ c ∈ r.text, ScalarValue c) ∧
        (utf8Encode r.text).length + 6 < 65536) →
      ∀ rec ∈ pageRecs options adv x b rs, recordWellFormed rec := by
  intro rs
  induction rs with
  | nil => intro x b _ rec h; simp [pageRecs] at h
  | cons run rest ih =>
    intro x b hr rec hrec
    unfold pageRecs at hrec
    by_cases h : run.text = [10]
    · rw [if_pos h] at hrec
      exact ih _ _ (fun r hr' => hr r (by simp [hr'])) rec hrec
    · rw [if_neg h] at hrec
      simp only [] at hrec
      rcases List.mem_cons.mp hrec with he | he
      · subst he
        obtain ⟨hsc, hlen⟩ := hr run (by simp)
        constructor
        · rw [payload_length]
          omega
        · intro _
          rw [payload_length, payload_drop6]
          refine ⟨by omega, ?_⟩
          rw [utf8Decode_utf8Encode run.text hsc]
          rfl
      · exact ih _ _ (fun r hr' => hr r (by simp [hr'])) rec he

theorem pageRecs_texts (options : Book.RenderOptions) (adv : Book.AdvanceMap) :
    ∀ (rs : List Book.TextRun) (x : Nat) (b : Int),
      (∀ r ∈ rs, ∀ c ∈ r.text, ScalarValue c) →
      ((pageRecs options adv x b rs).map recordOps).flatten.map TrbkOp.text =
        (rs.filter (fun r => ¬ r.text = [10])).map (fun r => r.text) := by
  intro rs
  induction rs with
  | nil => intro x b _; rfl
  | cons run rest ih =>
    intro x b hsc
    unfold pageRecs
    by_cases h : run.text = [10]
    · rw [if_pos h]
      rw [List.filter_cons_of_neg (by simp [h])]
      exact ih _ _ (fun r hr => hsc r (by simp [hr]))
    · rw [if_neg h]
      simp only [List.map_cons, List.flatten_cons, List.map_append]
      rw [List.filter_cons_of_pos (by simp [h])]
      have hrec : recordOps (1, le16 x ++ le16i b ++
          [(Book.style_id_from_style run.style).toNat, 0] ++
          utf8Encode run.text) =
          [.TextRun
            (byteAt (le16 x ++ le16i b ++
              [(Book.style_id_from_style run.style).toNat, 0] ++
              utf8Encode run.text) 0 + 256 * byteAt (le16 x ++ le16i b ++
              [(Book.style_id_from_style run.style).toNat, 0] ++
              utf8Encode run.text) 1)
            (byteAt (le16 x ++ le16i b ++
              [(Book.style_id_from_style run.style).toNat, 0] ++
              utf8Encode run.text) 2 + 256 * byteAt (le16 x ++ le16i b ++
              [(Book.style_id_from_style run.style).toNat, 0] ++
              utf8Encode run.text) 3)
            (byteAt (le16 x ++ le16i b ++
              [(Book.style_id_from_style run.style).toNat, 0] ++
              utf8Encode run.text) 4) run.text] := by
        unfold recordOps
        rw [if_pos rfl]
        simp only []
        rw [payload_drop6,
          utf8Decode_utf8Encode run.text (hsc run (by simp))]
      rw [hrec]
      simp only [List.map_cons, List.map_nil, List.cons_append, List.nil_append,
        TrbkOp.text]
      rw [ih _ _ (fun r hr => hsc r (by simp [hr]))]

/-- The ops decoded from one encoded page (pen starting at the margin,
baseline at `margin_y + ascent`). -/
def pageOpsE (options : Book.RenderOptions) (adv : Book.AdvanceMap)
    (p : Book.RunLine) : List TrbkOp :=
  ((pageRecs options adv options.margin_x
    ((options.margin_y : Int) + options.ascent) p.runs).map recordOps).flatten

theorem encodePage_parse (options : Book.RenderOptions) (adv : Book.AdvanceMap)
    (p : Book.RunLine)
    (hr : ∀ r ∈ p.runs, (∀ c ∈ r.text, ScalarValue c) ∧
      (utf8Encode r.text).length + 6 < 65536) :
    parse_trbk_page_ops (Book.encodePage options adv p) =
      .ok (pageOpsE options adv p) := by
  unfold parse_trbk_page_ops Book.encodePage pageOpsE
  rw [page_record_bytes_eq]
  exact parse_ops_loop_stream _ (pageRecs_wf options adv p.runs _ _ hr) _
    (le_refl _)

/-! ## C1: round-trip support — LUT, TOC and glyph table -/

theorem length_write_string (s : List Nat) :
    (Book.write_string s).length = 4 + (utf8Encode s).length := by
  simp [Book.write_string, le32]
  omega

/-- The page-LUT offsets written by `pages_lut_data`: running byte offsets
of the encoded pages. -/
def lutOffsets (options : Book.RenderOptions) (adv : Book.AdvanceMap) :
    List Book.RunLine → Nat → List Nat
  | [], _ => []
  | p :: rest, off =>
    off :: lutOffsets options adv rest (off + (Book.encodePage options adv p).length)

theorem pages_lut_data_eq (options : Book.RenderOptions)
    (adv : Book.AdvanceMap) :
    ∀ (ps : List Book.RunLine) (off : Nat),
      Book.pages_lut_data options adv ps off =
        (((lutOffsets options adv ps off).map le32).flatten,
          (ps.map (Book.encodePage options adv)).flatten) := by
  intro ps
  induction ps with
  | nil => intro off; rfl
  | cons p rest ih =>
    intro off
    unfold Book.pages_lut_data lutOffsets
    simp only []
    rw [ih]
    simp

theorem lutOffsets_length (options : Book.RenderOptions)
    (adv : Book.AdvanceMap) :
    ∀ (ps : List Book.RunLine) (off : Nat),
      (lutOffsets options adv ps off).length = ps.length := by
  intro ps
  induction ps with
  | nil => intro off; rfl
  | cons p rest ih => intro off; simp [lutOffsets, ih]

theorem lutOffsets_getD (options : Book.RenderOptions) (adv : Book.AdvanceMap) :
    ∀ (ps : List Book.RunLine) (off i : Nat), i < ps.length →
      (lutOffsets options adv ps off).getD i 0 =
        off + ((ps.take i).map (Book.encodePage options adv)).flatten.length := by
  intro ps
  induction ps with
  | nil => intro off i h; simp at h
  | cons p rest ih =>
    intro off i h
    cases i with
    | zero => simp [lutOffsets]
    | succ i =>
      unfold lutOffsets
      rw [List.getD_cons_succ, ih _ i (by simpa using Nat.lt_of_succ_lt_succ h)]
      simp [List.take_succ_cons]
      omega

theorem lutOffsets_le (options : Book.RenderOptions) (adv : Book.AdvanceMap) :
    ∀ (ps : List Book.RunLine) (off : Nat),
      ∀ v ∈ lutOffsets options adv ps off,
        off ≤ v ∧ v ≤ off + (ps.map (Book.encodePage options adv)).flatten.length := by
  intro ps
  induction ps with
  | nil => intro off v h; simp [lutOffsets] at h
  | cons p rest ih =>
    intro off v h
    unfold lutOffsets at h
    rcases List.mem_cons.mp h with he | he
    · subst he
      simp
    · obtain ⟨h1, h2⟩ := ih _ v he
      constructor
      · omega
      · simp only [List.map_cons, List.flatten_cons, List.length_append]
        omega

theorem read_offsets_flat :
    ∀ (offs : List Nat) (pre post : List Nat),
      (∀ v ∈ offs, v < 4294967296) →
      read_offsets (pre ++ ((offs.map le32).flatten ++ post)) pre.length
        offs.length = .ok offs := by
  intro offs
  induction offs with
  | nil => intro pre post _; rfl
  | cons v rest ih =>
    intro pre post hv
    simp only [List.length_cons]
    unfold read_offsets
    have hshape : pre ++ (((v :: rest).map le32).flatten ++ post) =
        pre ++ (le32 v ++ ((rest.map le32).flatten ++ post)) := by
      simp [List.append_assoc]
    rw [hshape, read_u32_at pre v _ (hv v (by simp))]
    simp only []
    have hpos : pre.length + 4 = (pre ++ le32 v).length := by simp
    have hassoc : pre ++ (le32 v ++ ((rest.map le32).flatten ++ post)) =
        (pre ++ le32 v) ++ ((rest.map le32).flatten ++ post) := by
      simp [List.append_assoc]
    rw [hpos, hassoc, ih (pre ++ le32 v) post (fun x hx => hv x (by simp [hx]))]

theorem length_glyph_bytes (g : Book.Glyph) :
    (Book.glyph_bytes g).length = 17 + g.bitmap.length := by
  simp [Book.glyph_bytes, le32, le16i, le16]
  omega

theorem toc_loop_enc :
    ∀ (entries : List Book.TrbkTocEntry) (pre rest : List Nat),
      (∀ e ∈ entries, (∀ c ∈ e.title, ScalarValue c) ∧
        (utf8Encode e.title).length < 4294967296 ∧
        e.page_index < 4294967296) →
      parse_trbk_toc_loop (pre ++ (Book.tocBytes entries ++ rest)) pre.length
        entries.length =
        .ok (entries.map (fun e => ⟨e.title, e.page_index, e.level⟩)) := by
  intro entries
  induction entries with
  | nil => intro pre rest _; rfl
  | cons e es ih =>
    intro pre rest he
    obtain ⟨hsc, hel, hpi⟩ := he e (by simp)
    simp only [List.length_cons]
    unfold parse_trbk_toc_loop
    have hshape1 : pre ++ (Book.tocBytes (e :: es) ++ rest) =
        pre ++ (Book.write_string e.title ++ (le32 e.page_index ++
          ([e.level, 0] ++ (le16 0 ++ (Book.tocBytes es ++ rest))))) := by
      simp [Book.tocBytes, List.append_assoc]
    rw [hshape1, read_string_at pre e.title _ hsc hel]
    simp only []
    rw [if_neg (by
      simp only [List.length_append, length_write_string, length_le32,
        length_le16, List.length_cons, List.length_nil]
      omega)]
    have hpos2 : pre.length + 4 + (utf8Encode e.title).length =
        (pre ++ Book.write_string e.title).length := by
      simp [length_write_string]
      omega
    have hshape2 : pre ++ (Book.write_string e.title ++ (le32 e.page_index ++
        ([e.level, 0] ++ (le16 0 ++ (Book.tocBytes es ++ rest))))) =
        (pre ++ Book.write_string e.title) ++ (le32 e.page_index ++
          ([e.level, 0] ++ (le16 0 ++ (Book.tocBytes es ++ rest)))) := by
      simp [List.append_assoc]
    rw [hpos2, hshape2,
      read_u32_at (pre ++ Book.write_string e.title) e.page_index _ hpi]
    simp only []
    have hlvl : byteAt ((pre ++ Book.write_string e.title) ++
        (le32 e.page_index ++ ([e.level, 0] ++ (le16 0 ++
          (Book.tocBytes es ++ rest)))))
        ((pre ++ Book.write_string e.title).length + 4) = e.level := by
      have hshape3 : (pre ++ Book.write_string e.title) ++
          (le32 e.page_index ++ ([e.level, 0] ++ (le16 0 ++
            (Book.tocBytes es ++ rest)))) =
          ((pre ++ Book.write_string e.title) ++ le32 e.page_index) ++
            ([e.level, 0] ++ (le16 0 ++ (Book.tocBytes es ++ rest))) := by
        simp [List.append_assoc]
      have hp4 : (pre ++ Book.write_string e.title).length + 4 =
          ((pre ++ Book.write_string e.title) ++ le32 e.page_index).length +
            0 := by
        simp
        omega
      rw [hshape3, hp4, byteAt_pre]
      rfl
    rw [hlvl]
    have hpos5 : (pre ++ Book.write_string e.title).length + 4 + 4 =
        (pre ++ (Book.write_string e.title ++ (le32 e.page_index ++
          ([e.level, 0] ++ le16 0)))).length := by
      simp [length_write_string]
      omega
    have hshape5 : (pre ++ Book.write_string e.title) ++
        (le32 e.page_index ++ ([e.level, 0] ++ (le16 0 ++
          (Book.tocBytes es ++ rest)))) =
        (pre ++ (Book.write_string e.title ++ (le32 e.page_index ++
          ([e.level, 0] ++ le16 0)))) ++ (Book.tocBytes es ++ rest) := by
      simp [List.append_assoc]
    rw [hpos5, hshape5, ih _ rest (fun x hx => he x (by simp [hx]))]
    rfl

theorem glyphs_loop_enc :
    ∀ (gs : List Book.Glyph) (pre rest : List Nat),
      (∀ g ∈ gs, g.bitmap.length < 4294967296) →
      ∃ res, parse_glyphs_loop (pre ++ (Book.write_glyph_table gs ++ rest))
        pre.length gs.length = .ok res := by
  intro gs
  induction gs with
  | nil => intro pre rest _; exact ⟨[], rfl⟩
  | cons g gs ih =>
    intro pre rest hg
    have hbm : g.bitmap.length < 4294967296 := hg g (by simp)
    have hshape1 : pre ++ (Book.write_glyph_table (g :: gs) ++ rest) =
        pre ++ ((le32 g.codepoint ++ ([g.style.toNat, g.width, g.height] ++
          (le16i g.x_advance ++ (le16i g.x_offset ++ (le16i g.y_offset ++
          (le32 g.bitmap.length ++ (g.bitmap ++
            (Book.write_glyph_table gs ++ rest)))))))) ) := by
      simp [Book.write_glyph_table, Book.glyph_bytes, List.append_assoc]
    obtain ⟨res, hres⟩ := ih (pre ++ Book.glyph_bytes g) rest
      (fun x hx => hg x (by simp [hx]))
    cases hout : parse_glyphs_loop (pre ++ (Book.write_glyph_table (g :: gs) ++
        rest)) pre.length (g :: gs).length with
    | ok res2 => exact ⟨res2, rfl⟩
    | error e =>
      exfalso
      rw [List.length_cons] at hout
      unfold parse_glyphs_loop at hout
      rw [hshape1] at hout
      rw [if_neg (by
        simp only [List.length_append, length_le32, length_le16i,
          List.length_cons, List.length_nil]
        omega)] at hout
      rw [read_u32_eq _ pre.length (by
        simp only [List.length_append, length_le32, length_le16i,
          List.length_cons, List.length_nil]
        omega)] at hout
      simp only [] at hout
      have hpos13 : pre.length + 13 =
          (pre ++ (le32 g.codepoint ++ ([g.style.toNat, g.width, g.height] ++
            (le16i g.x_advance ++ (le16i g.x_offset ++
              le16i g.y_offset))))).length := by
        simp only [List.length_append, length_le32, length_le16i,
          List.length_cons, List.length_nil]
      have hshape13 : pre ++ ((le32 g.codepoint ++
          ([g.style.toNat, g.width, g.height] ++
            (le16i g.x_advance ++ (le16i g.x_offset ++ (le16i g.y_offset ++
            (le32 g.bitmap.length ++ (g.bitmap ++
              (Book.write_glyph_table gs ++ rest)))))))) ) =
          (pre ++ (le32 g.codepoint ++ ([g.style.toNat, g.width, g.height] ++
            (le16i g.x_advance ++ (le16i g.x_offset ++ le16i g.y_offset))))) ++
            (le32 g.bitmap.length ++ (g.bitmap ++
              (Book.write_glyph_table gs ++ rest))) := by
        simp [List.append_assoc]
      rw [hpos13, hshape13, read_u32_at _ g.bitmap.length _ hbm] at hout
      simp only [] at hout
      rw [if_neg (by
        simp only [List.length_append, length_le32, length_le16i,
          List.length_cons, List.length_nil]
        omega)] at hout
      have hpos17 : pre.length + 17 + g.bitmap.length =
          (pre ++ Book.glyph_bytes g).length := by
        simp only [List.length_append, length_glyph_bytes]
        omega
      have hshape17 : (pre ++ (le32 g.codepoint ++
          ([g.style.toNat, g.width, g.height] ++ (le16i g.x_advance ++
            (le16i g.x_offset ++ le16i g.y_offset))))) ++
            (le32 g.bitmap.length ++ (g.bitmap ++
              (Book.write_glyph_table gs ++ rest))) =
          (pre ++ Book.glyph_bytes g) ++ (Book.write_glyph_table gs ++ rest) := by
        simp [Book.glyph_bytes, List.append_assoc]
      rw [hpos17, hshape17, hres] at hout
      simp at hout

theorem parse_pages_enc (options : Book.RenderOptions) (adv : Book.AdvanceMap)
    (pages : List Book.RunLine) (prePD gt : List Nat)
    (hrun : ∀ p ∈ pages, ∀ r ∈ p.runs, (∀ c ∈ r.text, ScalarValue c) ∧
      (utf8Encode r.text).length + 6 < 65536)
    (hgt : (pages.map (Book.encodePage options adv)).flatten = [] → pages ≠ [] →
      gt = []) :
    ∀ (n i : Nat), i + n = pages.length →
      parse_pages
        (prePD ++ ((pages.map (Book.encodePage options adv)).flatten ++ gt))
        2 prePD.length
        (prePD.length + (pages.map (Book.encodePage options adv)).flatten.length)
        (lutOffsets options adv pages 0) i n =
        .ok ((pages.drop i).map (fun p => ⟨pageOpsE options adv p⟩)) := by
  intro n
  induction n with
  | zero =>
    intro i hi
    have hiN : i = pages.length := by omega
    subst hiN
    simp [parse_pages, List.drop_length]
  | succ n ih =>
    intro i hi
    have hilt : i < pages.length := by omega
    cases hdrop : pages.drop i with
    | nil =>
      exfalso
      have := List.drop_eq_nil_iff.mp hdrop
      omega
    | cons p rest =>
      have hpages : pages = pages.take i ++ p :: rest := by
        conv_lhs => rw [← List.take_append_drop i pages]
        rw [hdrop]
      have hget : pages[i]? = some p := by
        have h0 := List.getElem?_drop pages i 0
        rw [hdrop] at h0
        simpa using h0.symm
      have htake : pages.take (i + 1) = pages.take i ++ [p] := by
        rw [List.take_succ, hget]
        rfl
      have hsucc : ((pages.take (i + 1)).map
          (Book.encodePage options adv)).flatten.length =
          ((pages.take i).map (Book.encodePage options adv)).flatten.length +
            (Book.encodePage options adv p).length := by
        rw [htake]
        simp
      have hsplit : (pages.map (Book.encodePage options adv)).flatten.length =
          ((pages.take i).map (Book.encodePage options adv)).flatten.length +
          (Book.encodePage options adv p).length +
          ((rest.map (Book.encodePage options adv)).flatten).length := by
        conv_lhs => rw [hpages]
        simp
        omega
      have hS : pageStart prePD.length (lutOffsets options adv pages 0) i =
          prePD.length +
            ((pages.take i).map (Book.encodePage options adv)).flatten.length := by
        unfold pageStart
        rw [lutOffsets_getD options adv pages 0 i hilt]
        omega
      have hE : pageEnd
          (prePD ++ ((pages.map (Book.encodePage options adv)).flatten ++
            gt)).length 2 prePD.length
          (prePD.length + (pages.map (Book.encodePage options adv)).flatten.length)
          (lutOffsets options adv pages 0) i =
          prePD.length +
            ((pages.take (i + 1)).map
              (Book.encodePage options adv)).flatten.length := by
        unfold pageEnd
        rw [lutOffsets_length]
        by_cases hmid : i + 1 < pages.length
        · rw [if_pos hmid, lutOffsets_getD options adv pages 0 (i + 1) hmid]
          omega
        · rw [if_neg hmid]
          have hi1 : i + 1 = pages.length := by omega
          rw [hi1, List.take_length]
          by_cases hpd : (pages.map (Book.encodePage options adv)).flatten = []
          · rw [if_neg (by
              rw [hpd]
              simp)]
            have hgt' : gt = [] := hgt hpd (by
              intro hnil
              rw [hnil] at hilt
              simp at hilt)
            rw [hgt', hpd]
            simp
          · rw [if_pos ⟨by norm_num, by
              have : 0 < (pages.map (Book.encodePage options adv)).flatten.length :=
                List.length_pos.mpr hpd
              omega⟩]
      unfold parse_pages
      simp only []
      rw [hS, hE]
      rw [if_neg (by
        simp only [List.length_append]
        omega)]
      have hdiff : prePD.length + ((pages.take (i + 1)).map
            (Book.encodePage options adv)).flatten.length -
          (prePD.length + ((pages.take i).map
            (Book.encodePage options adv)).flatten.length) =
          (Book.encodePage options adv p).length := by
        omega
      rw [hdiff]
      have hassoc : prePD ++ ((pages.map (Book.encodePage options adv)).flatten ++
          gt) = (prePD ++ ((pages.take i).map
            (Book.encodePage options adv)).flatten) ++
          (Book.encodePage options adv p ++
            ((rest.map (Book.encodePage options adv)).flatten ++ gt)) := by
        conv_lhs => rw [hpages]
        simp [List.append_assoc]
      have hpos : prePD.length + ((pages.take i).map
          (Book.encodePage options adv)).flatten.length =
          (prePD ++ ((pages.take i).map
            (Book.encodePage options adv)).flatten).length := by
        simp
      have hslice : ((prePD ++ ((pages.map (Book.encodePage options adv)).flatten ++
          gt)).drop (prePD.length + ((pages.take i).map
            (Book.encodePage options adv)).flatten.length)).take
          (Book.encodePage options adv p).length =
          Book.encodePage options adv p := by
        rw [hassoc, hpos]
        exact drop_take_concat _ _ _
      rw [hslice, encodePage_parse options adv p (hrun p (by rw [hpages]; simp))]
      simp only []
      rw [ih (i + 1) (by omega)]
      have hdrop1 : pages.drop (i + 1) = rest := by
        rw [← List.tail_drop, hdrop]
        rfl
      simp only [hdrop1, hdrop, List.map_cons]

/-! ## C1: the round-trip theorem -/

theorem le32_flatten_length :
    ∀ (offs : List Nat), ((offs.map le32).flatten).length = 4 * offs.length := by
  intro offs
  induction offs with
  | nil => rfl
  | cons v rest ih =>
    simp only [List.map_cons, List.flatten_cons, List.length_append, ih,
      length_le32, List.length_cons]
    omega

theorem page_record_bytes_ne_nil (options : Book.RenderOptions)
    (adv : Book.AdvanceMap) :
    ∀ (rs : List Book.TextRun) (x : Nat) (b : Int),
      (∃ r ∈ rs, r.text ≠ [10]) →
      Book.page_record_bytes options adv x b rs ≠ [] := by
  intro rs
  induction rs with
  | nil => intro x b h; obtain ⟨r, hr, _⟩ := h; simp at hr
  | cons run rest ih =>
    intro x b h
    unfold Book.page_record_bytes
    by_cases h10 : run.text = [10]
    · rw [if_pos h10]
      refine ih _ _ ?_
      obtain ⟨r, hr, hne⟩ := h
      rcases List.mem_cons.mp hr with he | he
      · subst he; exact absurd h10 hne
      · exact ⟨r, he, hne⟩
    · rw [if_neg h10]
      simp

set_option maxHeartbeats 2000000 in
/-- C1: encoding a book with `write_trbk` and decoding the bytes with
`parse_trbk` succeeds and reproduces the page count, each page's text runs
in order (the encoder's non-newline run texts), and the TOC entries
(title, page index, level).  Hypotheses: the metadata block fits the u16
header-size field; the file is below 4 GiB; counts fit u32; all strings
are valid Unicode scalar sequences; every page record's payload fits its
u16 length field; TOC page indices fit u32, levels fit a byte; glyph
bitmap lengths fit u32; and a book whose pages are all empty does not
carry glyphs (otherwise the decoder's last-page range would swallow the
glyph table). -/
theorem c1_roundtrip (metadata : Book.TrbkMetadata)
    (options : Book.RenderOptions) (pages : List Book.RunLine)
    (glyphs : List Book.Glyph) (adv : Book.AdvanceMap)
    (toc : List Book.TrbkTocEntry)
    (hmb : 48 + (Book.metadataBytes metadata options).length < 65536)
    (hfl : (Book.write_trbk metadata options pages glyphs adv toc).length <
      4294967296)
    (hcnt : pages.length < 4294967296 ∧ toc.length < 4294967296 ∧
      glyphs.length < 4294967296)
    (hsc : (∀ c ∈ metadata.title, ScalarValue c) ∧
      (∀ c ∈ metadata.author, ScalarValue c) ∧
      (∀ c ∈ metadata.language, ScalarValue c) ∧
      (∀ c ∈ metadata.identifier, ScalarValue c))
    (htoc : ∀ e ∈ toc, (∀ c ∈ e.title, ScalarValue c) ∧
      (utf8Encode e.title).length < 4294967296 ∧
      e.page_index < 4294967296 ∧ e.level < 256)
    (hrun : ∀ p ∈ pages, ∀ r ∈ p.runs, (∀ c ∈ r.text, ScalarValue c) ∧
      (utf8Encode r.text).length + 6 < 65536)
    (hg : ∀ g ∈ glyphs, g.bitmap.length < 4294967296)
    (hpd : glyphs = [] ∨ pages = [] ∨ ∃ p ∈ pages, ∃ r ∈ p.runs,
      r.text ≠ [10]) :
    ∃ book,
      parse_trbk (Book.write_trbk metadata options pages glyphs adv toc) =
        .ok book ∧
      book.page_count = pages.length ∧
      book.pages.map (fun pg => pg.ops.map TrbkOp.text) =
        pages.map (fun p =>
          (p.runs.filter (fun r => ¬ r.text = [10])).map (fun r => r.text)) ∧
      book.toc = toc.map (fun e => ⟨e.title, e.page_index, e.level⟩) := by
  have hfile : Book.write_trbk metadata options pages glyphs adv toc =
      magicBytes ++ ([2, 0] ++ (le16 (48 + (Book.metadataBytes metadata options).length) ++ (le16 options.screen_width ++ (le16 options.screen_height ++ (le32 pages.length ++ (le32 toc.length ++ (le32 ((48 + (Book.metadataBytes metadata options).length) + (Book.tocBytes toc).length) ++ (le32 (48 + (Book.metadataBytes metadata options).length) ++ (le32 (((48 + (Book.metadataBytes metadata options).length) + (Book.tocBytes toc).length) + (((lutOffsets options adv pages 0).map le32).flatten).length) ++ (le32 0 ++ (le32 0 ++ (le32 glyphs.length ++ (le32 ((((48 + (Book.metadataBytes metadata options).length) + (Book.tocBytes toc).length) + (((lutOffsets options adv pages 0).map le32).flatten).length) + ((pages.map (Book.encodePage options adv)).flatten).length) ++ (Book.write_string metadata.title ++ (Book.write_string metadata.author ++ (Book.write_string metadata.language ++ (Book.write_string metadata.identifier ++ (Book.write_string Book.fontdueStr ++ (le16 options.char_width ++ (le16 options.line_height ++ (le16i options.ascent ++ (le16 options.margin_x ++ (le16 options.margin_x ++ (le16 options.margin_y ++ (le16 options.margin_y ++ (Book.tocBytes toc ++ (((lutOffsets options adv pages 0).map le32).flatten ++ ((pages.map (Book.encodePage options adv)).flatten ++ (Book.write_glyph_table glyphs))))))))))))))))))))))))))))) := by
    unfold Book.write_trbk
    rw [pages_lut_data_eq]
    simp only []
    rw [Nat.mod_eq_of_lt hmb]
    rw [show (if toc.length ≠ 0 then Book.tocBytes toc else []) =
        Book.tocBytes toc from by
      by_cases h : toc.length = 0
      · rw [if_neg (by simp [h])]
        rw [List.length_eq_zero.mp h]
        rfl
      · rw [if_pos h]]
    simp [Book.metadataBytes, List.append_assoc]
  have hL : (magicBytes ++ ([2, 0] ++ (le16 (48 + (Book.metadataBytes metadata options).length) ++ (le16 options.screen_width ++ (le16 options.screen_height ++ (le32 pages.length ++ (le32 toc.length ++ (le32 ((48 + (Book.metadataBytes metadata options).length) + (Book.tocBytes toc).length) ++ (le32 (48 + (Book.metadataBytes metadata options).length) ++ (le32 (((48 + (Book.metadataBytes metadata options).length) + (Book.tocBytes toc).length) + (((lutOffsets options adv pages 0).map le32).flatten).length) ++ (le32 0 ++ (le32 0 ++ (le32 glyphs.length ++ (le32 ((((48 + (Book.metadataBytes metadata options).length) + (Book.tocBytes toc).length) + (((lutOffsets options adv pages 0).map le32).flatten).length) + ((pages.map (Book.encodePage options adv)).flatten).length) ++ (Book.write_string metadata.title ++ (Book.write_string metadata.author ++ (Book.write_string metadata.language ++ (Book.write_string metadata.identifier ++ (Book.write_string Book.fontdueStr ++ (le16 options.char_width ++ (le16 options.line_height ++ (le16i options.ascent ++ (le16 options.margin_x ++ (le16 options.margin_x ++ (le16 options.margin_y ++ (le16 options.margin_y ++ (Book.tocBytes toc ++ (((lutOffsets options adv pages 0).map le32).flatten ++ ((pages.map (Book.encodePage options adv)).flatten ++ (Book.write_glyph_table glyphs)))))))))))))))))))))))))))))).length =
      48 + ((Book.metadataBytes metadata options).length + ((Book.tocBytes toc).length + ((((lutOffsets options adv pages 0).map le32).flatten).length +
        (((pages.map (Book.encodePage options adv)).flatten).length + (Book.write_glyph_table glyphs).length)))) := by
    simp only [List.length_append, List.length_cons, List.length_nil, length_le16, length_le32, length_le16i, length_write_string, Book.metadataBytes, magicBytes]
    omega
  have hfl' : (magicBytes ++ ([2, 0] ++ (le16 (48 + (Book.metadataBytes metadata options).length) ++ (le16 options.screen_width ++ (le16 options.screen_height ++ (le32 pages.length ++ (le32 toc.length ++ (le32 ((48 + (Book.metadataBytes metadata options).length) + (Book.tocBytes toc).length) ++ (le32 (48 + (Book.metadataBytes metadata options).length) ++ (le32 (((48 + (Book.metadataBytes metadata options).length) + (Book.tocBytes toc).length) + (((lutOffsets options adv pages 0).map le32).flatten).length) ++ (le32 0 ++ (le32 0 ++ (le32 glyphs.length ++ (le32 ((((48 + (Book.metadataBytes metadata options).length) + (Book.tocBytes toc).length) + (((lutOffsets options adv pages 0).map le32).flatten).length) + ((pages.map (Book.encodePage options adv)).flatten).length) ++ (Book.write_string metadata.title ++ (Book.write_string metadata.author ++ (Book.write_string metadata.language ++ (Book.write_string metadata.identifier ++ (Book.write_string Book.fontdueStr ++ (le16 options.char_width ++ (le16 options.line_height ++ (le16i options.ascent ++ (le16 options.margin_x ++ (le16 options.margin_x ++ (le16 options.margin_y ++ (le16 options.margin_y ++ (Book.tocBytes toc ++ (((lutOffsets options adv pages 0).map le32).flatten ++ ((pages.map (Book.encodePage options adv)).flatten ++ (Book.write_glyph_table glyphs)))))))))))))))))))))))))))))).length < 4294967296 := by
    rw [← hfile]
    exact hfl
  have hmbl : (Book.metadataBytes metadata options).length = 34 + ((utf8Encode metadata.title).length + (utf8Encode metadata.author).length + (utf8Encode metadata.language).length + (utf8Encode metadata.identifier).length + (utf8Encode Book.fontdueStr).length) := by
    simp only [List.length_append, List.length_cons, List.length_nil, length_le16, length_le32, length_le16i, length_write_string, Book.metadataBytes, magicBytes] <;> omega
  have hlut4 : (((lutOffsets options adv pages 0).map le32).flatten).length = 4 * pages.length := by
    rw [le32_flatten_length, lutOffsets_length]
  have htake4 : (magicBytes ++ ([2, 0] ++ (le16 (48 + (Book.metadataBytes metadata options).length) ++ (le16 options.screen_width ++ (le16 options.screen_height ++ (le32 pages.length ++ (le32 toc.length ++ (le32 ((48 + (Book.metadataBytes metadata options).length) + (Book.tocBytes toc).length) ++ (le32 (48 + (Book.metadataBytes metadata options).length) ++ (le32 (((48 + (Book.metadataBytes metadata options).length) + (Book.tocBytes toc).length) + (((lutOffsets options adv pages 0).map le32).flatten).length) ++ (le32 0 ++ (le32 0 ++ (le32 glyphs.length ++ (le32 ((((48 + (Book.metadataBytes metadata options).length) + (Book.tocBytes toc).length) + (((lutOffsets options adv pages 0).map le32).flatten).length) + ((pages.map (Book.encodePage options adv)).flatten).length) ++ (Book.write_string metadata.title ++ (Book.write_string metadata.author ++ (Book.write_string metadata.language ++ (Book.write_string metadata.identifier ++ (Book.write_string Book.fontdueStr ++ (le16 options.char_width ++ (le16 options.line_height ++ (le16i options.ascent ++ (le16 options.margin_x ++ (le16 options.margin_x ++ (le16 options.margin_y ++ (le16 options.margin_y ++ (Book.tocBytes toc ++ (((lutOffsets options adv pages 0).map le32).flatten ++ ((pages.map (Book.encodePage options adv)).flatten ++ (Book.write_glyph_table glyphs)))))))))))))))))))))))))))))).take 4 = magicBytes := rfl
  have hb4 : byteAt (magicBytes ++ ([2, 0] ++ (le16 (48 + (Book.metadataBytes metadata options).length) ++ (le16 options.screen_width ++ (le16 options.screen_height ++ (le32 pages.length ++ (le32 toc.length ++ (le32 ((48 + (Book.metadataBytes metadata options).length) + (Book.tocBytes toc).length) ++ (le32 (48 + (Book.metadataBytes metadata options).length) ++ (le32 (((48 + (Book.metadataBytes metadata options).length) + (Book.tocBytes toc).length) + (((lutOffsets options adv pages 0).map le32).flatten).length) ++ (le32 0 ++ (le32 0 ++ (le32 glyphs.length ++ (le32 ((((48 + (Book.metadataBytes metadata options).length) + (Book.tocBytes toc).length) + (((lutOffsets options adv pages 0).map le32).flatten).length) + ((pages.map (Book.encodePage options adv)).flatten).length) ++ (Book.write_string metadata.title ++ (Book.write_string metadata.author ++ (Book.write_string metadata.language ++ (Book.write_string metadata.identifier ++ (Book.write_string Book.fontdueStr ++ (le16 options.char_width ++ (le16 options.line_height ++ (le16i options.ascent ++ (le16 options.margin_x ++ (le16 options.margin_x ++ (le16 options.margin_y ++ (le16 options.margin_y ++ (Book.tocBytes toc ++ (((lutOffsets options adv pages 0).map le32).flatten ++ ((pages.map (Book.encodePage options adv)).flatten ++ (Book.write_glyph_table glyphs)))))))))))))))))))))))))))))) 4 = 2 := rfl
  have hread6 : read_u16 (magicBytes ++ ([2, 0] ++ (le16 (48 + (Book.metadataBytes metadata options).length) ++ (le16 options.screen_width ++ (le16 options.screen_height ++ (le32 pages.length ++ (le32 toc.length ++ (le32 ((48 + (Book.metadataBytes metadata options).length) + (Book.tocBytes toc).length) ++ (le32 (48 + (Book.metadataBytes metadata options).length) ++ (le32 (((48 + (Book.metadataBytes metadata options).length) + (Book.tocBytes toc).length) + (((lutOffsets options adv pages 0).map le32).flatten).length) ++ (le32 0 ++ (le32 0 ++ (le32 glyphs.length ++ (le32 ((((48 + (Book.metadataBytes metadata options).length) + (Book.tocBytes toc).length) + (((lutOffsets options adv pages 0).map le32).flatten).length) + ((pages.map (Book.encodePage options adv)).flatten).length) ++ (Book.write_string metadata.title ++ (Book.write_string metadata.author ++ (Book.write_string metadata.language ++ (Book.write_string metadata.identifier ++ (Book.write_string Book.fontdueStr ++ (le16 options.char_width ++ (le16 options.line_height ++ (le16i options.ascent ++ (le16 options.margin_x ++ (le16 options.margin_x ++ (le16 options.margin_y ++ (le16 options.margin_y ++ (Book.tocBytes toc ++ (((lutOffsets options adv pages 0).map le32).flatten ++ ((pages.map (Book.encodePage options adv)).flatten ++ (Book.write_glyph_table glyphs)))))))))))))))))))))))))))))) 6 = .ok ((48 + (Book.metadataBytes metadata options).length)) := by
    have h := read_u16_at (magicBytes ++ ([2, 0])) ((48 + (Book.metadataBytes metadata options).length)) (le16 options.screen_width ++ (le16 options.screen_height ++ (le32 pages.length ++ (le32 toc.length ++ (le32 ((48 + (Book.metadataBytes metadata options).length) + (Book.tocBytes toc).length) ++ (le32 (48 + (Book.metadataBytes metadata options).length) ++ (le32 (((48 + (Book.metadataBytes metadata options).length) + (Book.tocBytes toc).length) + (((lutOffsets options adv pages 0).map le32).flatten).length) ++ (le32 0 ++ (le32 0 ++ (le32 glyphs.length ++ (le32 ((((48 + (Book.metadataBytes metadata options).length) + (Book.tocBytes toc).length) + (((lutOffsets options adv pages 0).map le32).flatten).length) + ((pages.map (Book.encodePage options adv)).flatten).length) ++ (Book.write_string metadata.title ++ (Book.write_string metadata.author ++ (Book.write_string metadata.language ++ (Book.write_string metadata.identifier ++ (Book.write_string Book.fontdueStr ++ (le16 options.char_width ++ (le16 options.line_height ++ (le16i options.ascent ++ (le16 options.margin_x ++ (le16 options.margin_x ++ (le16 options.margin_y ++ (le16 options.margin_y ++ (Book.tocBytes toc ++ (((lutOffsets options adv pages 0).map le32).flatten ++ ((pages.map (Book.encodePage options adv)).flatten ++ (Book.write_glyph_table glyphs))))))))))))))))))))))))))) (by omega)
    rw [show ((magicBytes ++ ([2, 0])) : List Nat).length = 6 from by
      simp only [List.length_append, List.length_cons, List.length_nil, length_le16, length_le32, length_le16i, length_write_string, Book.metadataBytes, magicBytes] <;> omega] at h
    rw [show (magicBytes ++ ([2, 0])) ++ (le16 ((48 + (Book.metadataBytes metadata options).length)) ++ (le16 options.screen_width ++ (le16 options.screen_height ++ (le32 pages.length ++ (le32 toc.length ++ (le32 ((48 + (Book.metadataBytes metadata options).length) + (Book.tocBytes toc).length) ++ (le32 (48 + (Book.metadataBytes metadata options).length) ++ (le32 (((48 + (Book.metadataBytes metadata options).length) + (Book.tocBytes toc).length) + (((lutOffsets options adv pages 0).map le32).flatten).length) ++ (le32 0 ++ (le32 0 ++ (le32 glyphs.length ++ (le32 ((((48 + (Book.metadataBytes metadata options).length) + (Book.tocBytes toc).length) + (((lutOffsets options adv pages 0).map le32).flatten).length) + ((pages.map (Book.encodePage options adv)).flatten).length) ++ (Book.write_string metadata.title ++ (Book.write_string metadata.author ++ (Book.write_string metadata.language ++ (Book.write_string metadata.identifier ++ (Book.write_string Book.fontdueStr ++ (le16 options.char_width ++ (le16 options.line_height ++ (le16i options.ascent ++ (le16 options.margin_x ++ (le16 options.margin_x ++ (le16 options.margin_y ++ (le16 options.margin_y ++ (Book.tocBytes toc ++ (((lutOffsets options adv pages 0).map le32).flatten ++ ((pages.map (Book.encodePage options adv)).flatten ++ (Book.write_glyph_table glyphs)))))))))))))))))))))))))))) = magicBytes ++ ([2, 0] ++ (le16 (48 + (Book.metadataBytes metadata options).length) ++ (le16 options.screen_width ++ (le16 options.screen_height ++ (le32 pages.length ++ (le32 toc.length ++ (le32 ((48 + (Book.metadataBytes metadata options).length) + (Book.tocBytes toc).length) ++ (le32 (48 + (Book.metadataBytes metadata options).length) ++ (le32 (((48 + (Book.metadataBytes metadata options).length) + (Book.tocBytes toc).length) + (((lutOffsets options adv pages 0).map le32).flatten).length) ++ (le32 0 ++ (le32 0 ++ (le32 glyphs.length ++ (le32 ((((48 + (Book.metadataBytes metadata options).length) + (Book.tocBytes toc).length) + (((lutOffsets options adv pages 0).map le32).flatten).length) + ((pages.map (Book.encodePage options adv)).flatten).length) ++ (Book.write_string metadata.title ++ (Book.write_string metadata.author ++ (Book.write_string metadata.language ++ (Book.write_string metadata.identifier ++ (Book.write_string Book.fontdueStr ++ (le16 options.char_width ++ (le16 options.line_height ++ (le16i options.ascent ++ (le16 options.margin_x ++ (le16 options.margin_x ++ (le16 options.margin_y ++ (le16 options.margin_y ++ (Book.tocBytes toc ++ (((lutOffsets options adv pages 0).map le32).flatten ++ ((pages.map (Book.encodePage options adv)).flatten ++ (Book.write_glyph_table glyphs))))))))))))))))))))))))))))) from by
      simp [List.append_assoc]] at h
    exact h
  have hread12 : read_u32 (magicBytes ++ ([2, 0] ++ (le16 (48 + (Book.metadataBytes metadata options).length) ++ (le16 options.screen_width ++ (le16 options.screen_height ++ (le32 pages.length ++ (le32 toc.length ++ (le32 ((48 + (Book.metadataBytes metadata options).length) + (Book.tocBytes toc).length) ++ (le32 (48 + (Book.metadataBytes metadata options).length) ++ (le32 (((48 + (Book.metadataBytes metadata options).length) + (Book.tocBytes toc).length) + (((lutOffsets options adv pages 0).map le32).flatten).length) ++ (le32 0 ++ (le32 0 ++ (le32 glyphs.length ++ (le32 ((((48 + (Book.metadataBytes metadata options).length) + (Book.tocBytes toc).length) + (((lutOffsets options adv pages 0).map le32).flatten).length) + ((pages.map (Book.encodePage options adv)).flatten).length) ++ (Book.write_string metadata.title ++ (Book.write_string metadata.author ++ (Book.write_string metadata.language ++ (Book.write_string metadata.identifier ++ (Book.write_string Book.fontdueStr ++ (le16 options.char_width ++ (le16 options.line_height ++ (le16i options.ascent ++ (le16 options.margin_x ++ (le16 options.margin_x ++ (le16 options.margin_y ++ (le16 options.margin_y ++ (Book.tocBytes toc ++ (((lutOffsets options adv pages 0).map le32).flatten ++ ((pages.map (Book.encodePage options adv)).flatten ++ (Book.write_glyph_table glyphs)))))))))))))))))))))))))))))) 12 = .ok (pages.length) := by
    have h := read_u32_at (magicBytes ++ ([2, 0] ++ (le16 (48 + (Book.metadataBytes metadata options).length) ++ (le16 options.screen_width ++ (le16 options.screen_height))))) (pages.length) (le32 toc.length ++ (le32 ((48 + (Book.metadataBytes metadata options).length) + (Book.tocBytes toc).length) ++ (le32 (48 + (Book.metadataBytes metadata options).length) ++ (le32 (((48 + (Book.metadataBytes metadata options).length) + (Book.tocBytes toc).length) + (((lutOffsets options adv pages 0).map le32).flatten).length) ++ (le32 0 ++ (le32 0 ++ (le32 glyphs.length ++ (le32 ((((48 + (Book.metadataBytes metadata options).length) + (Book.tocBytes toc).length) + (((lutOffsets options adv pages 0).map le32).flatten).length) + ((pages.map (Book.encodePage options adv)).flatten).length) ++ (Book.write_string metadata.title ++ (Book.write_string metadata.author ++ (Book.write_string metadata.language ++ (Book.write_string metadata.identifier ++ (Book.write_string Book.fontdueStr ++ (le16 options.char_width ++ (le16 options.line_height ++ (le16i options.ascent ++ (le16 options.margin_x ++ (le16 options.margin_x ++ (le16 options.margin_y ++ (le16 options.margin_y ++ (Book.tocBytes toc ++ (((lutOffsets options adv pages 0).map le32).flatten ++ ((pages.map (Book.encodePage options adv)).flatten ++ (Book.write_glyph_table glyphs)))))))))))))))))))))))) hcnt.1
    rw [show ((magicBytes ++ ([2, 0] ++ (le16 (48 + (Book.metadataBytes metadata options).length) ++ (le16 options.screen_width ++ (le16 options.screen_height))))) : List Nat).length = 12 from by
      simp only [List.length_append, List.length_cons, List.length_nil, length_le16, length_le32, length_le16i, length_write_string, Book.metadataBytes, magicBytes] <;> omega] at h
    rw [show (magicBytes ++ ([2, 0] ++ (le16 (48 + (Book.metadataBytes metadata options).length) ++ (le16 options.screen_width ++ (le16 options.screen_height))))) ++ (le32 (pages.length) ++ (le32 toc.length ++ (le32 ((48 + (Book.metadataBytes metadata options).length) + (Book.tocBytes toc).length) ++ (le32 (48 + (Book.metadataBytes metadata options).length) ++ (le32 (((48 + (Book.metadataBytes metadata options).length) + (Book.tocBytes toc).length) + (((lutOffsets options adv pages 0).map le32).flatten).length) ++ (le32 0 ++ (le32 0 ++ (le32 glyphs.length ++ (le32 ((((48 + (Book.metadataBytes metadata options).length) + (Book.tocBytes toc).length) + (((lutOffsets options adv pages 0).map le32).flatten).length) + ((pages.map (Book.encodePage options adv)).flatten).length) ++ (Book.write_string metadata.title ++ (Book.write_string metadata.author ++ (Book.write_string metadata.language ++ (Book.write_string metadata.identifier ++ (Book.write_string Book.fontdueStr ++ (le16 options.char_width ++ (le16 options.line_height ++ (le16i options.ascent ++ (le16 options.margin_x ++ (le16 options.margin_x ++ (le16 options.margin_y ++ (le16 options.margin_y ++ (Book.tocBytes toc ++ (((lutOffsets options adv pages 0).map le32).flatten ++ ((pages.map (Book.encodePage options adv)).flatten ++ (Book.write_glyph_table glyphs))))))))))))))))))))))))) = magicBytes ++ ([2, 0] ++ (le16 (48 + (Book.metadataBytes metadata options).length) ++ (le16 options.screen_width ++ (le16 options.screen_height ++ (le32 pages.length ++ (le32 toc.length ++ (le32 ((48 + (Book.metadataBytes metadata options).length) + (Book.tocBytes toc).length) ++ (le32 (48 + (Book.metadataBytes metadata options).length) ++ (le32 (((48 + (Book.metadataBytes metadata options).length) + (Book.tocBytes toc).length) + (((lutOffsets options adv pages 0).map le32).flatten).length) ++ (le32 0 ++ (le32 0 ++ (le32 glyphs.length ++ (le32 ((((48 + (Book.metadataBytes metadata options).length) + (Book.tocBytes toc).length) + (((lutOffsets options adv pages 0).map le32).flatten).length) + ((pages.map (Book.encodePage options adv)).flatten).length) ++ (Book.write_string metadata.title ++ (Book.write_string metadata.author ++ (Book.write_string metadata.language ++ (Book.write_string metadata.identifier ++ (Book.write_string Book.fontdueStr ++ (le16 options.char_width ++ (le16 options.line_height ++ (le16i options.ascent ++ (le16 options.margin_x ++ (le16 options.margin_x ++ (le16 options.margin_y ++ (le16 options.margin_y ++ (Book.tocBytes toc ++ (((lutOffsets options adv pages 0).map le32).flatten ++ ((pages.map (Book.encodePage options adv)).flatten ++ (Book.write_glyph_table glyphs))))))))))))))))))))))))))))) from by
      simp [List.append_assoc]] at h
    exact h
  have hread16 : read_u32 (magicBytes ++ ([2, 0] ++ (le16 (48 + (Book.metadataBytes metadata options).length) ++ (le16 options.screen_width ++ (le16 options.screen_height ++ (le32 pages.length ++ (le32 toc.length ++ (le32 ((48 + (Book.metadataBytes metadata options).length) + (Book.tocBytes toc).length) ++ (le32 (48 + (Book.metadataBytes metadata options).length) ++ (le32 (((48 + (Book.metadataBytes metadata options).length) + (Book.tocBytes toc).length) + (((lutOffsets options adv pages 0).map le32).flatten).length) ++ (le32 0 ++ (le32 0 ++ (le32 glyphs.length ++ (le32 ((((48 + (Book.metadataBytes metadata options).length) + (Book.tocBytes toc).length) + (((lutOffsets options adv pages 0).map le32).flatten).length) + ((pages.map (Book.encodePage options adv)).flatten).length) ++ (Book.write_string metadata.title ++ (Book.write_string metadata.author ++ (Book.write_string metadata.language ++ (Book.write_string metadata.identifier ++ (Book.write_string Book.fontdueStr ++ (le16 options.char_width ++ (le16 options.line_height ++ (le16i options.ascent ++ (le16 options.margin_x ++ (le16 options.margin_x ++ (le16 options.margin_y ++ (le16 options.margin_y ++ (Book.tocBytes toc ++ (((lutOffsets options adv pages 0).map le32).flatten ++ ((pages.map (Book.encodePage options adv)).flatten ++ (Book.write_glyph_table glyphs)))))))))))))))))))))))))))))) 16 = .ok (toc.length) := by
    have h := read_u32_at (magicBytes ++ ([2, 0] ++ (le16 (48 + (Book.metadataBytes metadata options).length) ++ (le16 options.screen_width ++ (le16 options.screen_height ++ (le32 pages.length)))))) (toc.length) (le32 ((48 + (Book.metadataBytes metadata options).length) + (Book.tocBytes toc).length) ++ (le32 (48 + (Book.metadataBytes metadata options).length) ++ (le32 (((48 + (Book.metadataBytes metadata options).length) + (Book.tocBytes toc).length) + (((lutOffsets options adv pages 0).map le32).flatten).length) ++ (le32 0 ++ (le32 0 ++ (le32 glyphs.length ++ (le32 ((((48 + (Book.metadataBytes metadata options).length) + (Book.tocBytes toc).length) + (((lutOffsets options adv pages 0).map le32).flatten).length) + ((pages.map (Book.encodePage options adv)).flatten).length) ++ (Book.write_string metadata.title ++ (Book.write_string metadata.author ++ (Book.write_string metadata.language ++ (Book.write_string metadata.identifier ++ (Book.write_string Book.fontdueStr ++ (le16 options.char_width ++ (le16 options.line_height ++ (le16i options.ascent ++ (le16 options.margin_x ++ (le16 options.margin_x ++ (le16 options.margin_y ++ (le16 options.margin_y ++ (Book.tocBytes toc ++ (((lutOffsets options adv pages 0).map le32).flatten ++ ((pages.map (Book.encodePage options adv)).flatten ++ (Book.write_glyph_table glyphs))))))))))))))))))))))) hcnt.2.1
    rw [show ((magicBytes ++ ([2, 0] ++ (le16 (48 + (Book.metadataBytes metadata options).length) ++ (le16 options.screen_width ++ (le16 options.screen_height ++ (le32 pages.length)))))) : List Nat).length = 16 from by
      simp only [List.length_append, List.length_cons, List.length_nil, length_le16, length_le32, length_le16i, length_write_string, Book.metadataBytes, magicBytes] <;> omega] at h
    rw [show (magicBytes ++ ([2, 0] ++ (le16 (48 + (Book.metadataBytes metadata options).length) ++ (le16 options.screen_width ++ (le16 options.screen_height ++ (le32 pages.length)))))) ++ (le32 (toc.length) ++ (le32 ((48 + (Book.metadataBytes metadata options).length) + (Book.tocBytes toc).length) ++ (le32 (48 + (Book.metadataBytes metadata options).length) ++ (le32 (((48 + (Book.metadataBytes metadata options).length) + (Book.tocBytes toc).length) + (((lutOffsets options adv pages 0).map le32).flatten).length) ++ (le32 0 ++ (le32 0 ++ (le32 glyphs.length ++ (le32 ((((48 + (Book.metadataBytes metadata options).length) + (Book.tocBytes toc).length) + (((lutOffsets options adv pages 0).map le32).flatten).length) + ((pages.map (Book.encodePage options adv)).flatten).length) ++ (Book.write_string metadata.title ++ (Book.write_string metadata.author ++ (Book.write_string metadata.language ++ (Book.write_string metadata.identifier ++ (Book.write_string Book.fontdueStr ++ (le16 options.char_width ++ (le16 options.line_height ++ (le16i options.ascent ++ (le16 options.margin_x ++ (le16 options.margin_x ++ (le16 options.margin_y ++ (le16 options.margin_y ++ (Book.tocBytes toc ++ (((lutOffsets options adv pages 0).map le32).flatten ++ ((pages.map (Book.encodePage options adv)).flatten ++ (Book.write_glyph_table glyphs)))))))))))))))))))))))) = magicBytes ++ ([2, 0] ++ (le16 (48 + (Book.metadataBytes metadata options).length) ++ (le16 options.screen_width ++ (le16 options.screen_height ++ (le32 pages.length ++ (le32 toc.length ++ (le32 ((48 + (Book.metadataBytes metadata options).length) + (Book.tocBytes toc).length) ++ (le32 (48 + (Book.metadataBytes metadata options).length) ++ (le32 (((48 + (Book.metadataBytes metadata options).length) + (Book.tocBytes toc).length) + (((lutOffsets options adv pages 0).map le32).flatten).length) ++ (le32 0 ++ (le32 0 ++ (le32 glyphs.length ++ (le32 ((((48 + (Book.metadataBytes metadata options).length) + (Book.tocBytes toc).length) + (((lutOffsets options adv pages 0).map le32).flatten).length) + ((pages.map (Book.encodePage options adv)).flatten).length) ++ (Book.write_string metadata.title ++ (Book.write_string metadata.author ++ (Book.write_string metadata.language ++ (Book.write_string metadata.identifier ++ (Book.write_string Book.fontdueStr ++ (le16 options.char_width ++ (le16 options.line_height ++ (le16i options.ascent ++ (le16 options.margin_x ++ (le16 options.margin_x ++ (le16 options.margin_y ++ (le16 options.margin_y ++ (Book.tocBytes toc ++ (((lutOffsets options adv pages 0).map le32).flatten ++ ((pages.map (Book.encodePage options adv)).flatten ++ (Book.write_glyph_table glyphs))))))))))))))))))))))))))))) from by
      simp [List.append_assoc]] at h
    exact h
  have hread20 : read_u32 (magicBytes ++ ([2, 0] ++ (le16 (48 + (Book.metadataBytes metadata options).length) ++ (le16 options.screen_width ++ (le16 options.screen_height ++ (le32 pages.length ++ (le32 toc.length ++ (le32 ((48 + (Book.metadataBytes metadata options).length) + (Book.tocBytes toc).length) ++ (le32 (48 + (Book.metadataBytes metadata options).length) ++ (le32 (((48 + (Book.metadataBytes metadata options).length) + (Book.tocBytes toc).length) + (((lutOffsets options adv pages 0).map le32).flatten).length) ++ (le32 0 ++ (le32 0 ++ (le32 glyphs.length ++ (le32 ((((48 + (Book.metadataBytes metadata options).length) + (Book.tocBytes toc).length) + (((lutOffsets options adv pages 0).map le32).flatten).length) + ((pages.map (Book.encodePage options adv)).flatten).length) ++ (Book.write_string metadata.title ++ (Book.write_string metadata.author ++ (Book.write_string metadata.language ++ (Book.write_string metadata.identifier ++ (Book.write_string Book.fontdueStr ++ (le16 options.char_width ++ (le16 options.line_height ++ (le16i options.ascent ++ (le16 options.margin_x ++ (le16 options.margin_x ++ (le16 options.margin_y ++ (le16 options.margin_y ++ (Book.tocBytes toc ++ (((lutOffsets options adv pages 0).map le32).flatten ++ ((pages.map (Book.encodePage options adv)).flatten ++ (Book.write_glyph_table glyphs)))))))))))))))))))))))))))))) 20 = .ok (((48 + (Book.metadataBytes metadata options).length) + (Book.tocBytes toc).length)) := by
    have h := read_u32_at (magicBytes ++ ([2, 0] ++ (le16 (48 + (Book.metadataBytes metadata options).length) ++ (le16 options.screen_width ++ (le16 options.screen_height ++ (le32 pages.length ++ (le32 toc.length))))))) (((48 + (Book.metadataBytes metadata options).length) + (Book.tocBytes toc).length)) (le32 (48 + (Book.metadataBytes metadata options).length) ++ (le32 (((48 + (Book.metadataBytes metadata options).length) + (Book.tocBytes toc).length) + (((lutOffsets options adv pages 0).map le32).flatten).length) ++ (le32 0 ++ (le32 0 ++ (le32 glyphs.length ++ (le32 ((((48 + (Book.metadataBytes metadata options).length) + (Book.tocBytes toc).length) + (((lutOffsets options adv pages 0).map le32).flatten).length) + ((pages.map (Book.encodePage options adv)).flatten).length) ++ (Book.write_string metadata.title ++ (Book.write_string metadata.author ++ (Book.write_string metadata.language ++ (Book.write_string metadata.identifier ++ (Book.write_string Book.fontdueStr ++ (le16 options.char_width ++ (le16 options.line_height ++ (le16i options.ascent ++ (le16 options.margin_x ++ (le16 options.margin_x ++ (le16 options.margin_y ++ (le16 options.margin_y ++ (Book.tocBytes toc ++ (((lutOffsets options adv pages 0).map le32).flatten ++ ((pages.map (Book.encodePage options adv)).flatten ++ (Book.write_glyph_table glyphs)))))))))))))))))))))) (by omega)
    rw [show ((magicBytes ++ ([2, 0] ++ (le16 (48 + (Book.metadataBytes metadata options).length) ++ (le16 options.screen_width ++ (le16 options.screen_height ++ (le32 pages.length ++ (le32 toc.length))))))) : List Nat).length = 20 from by
      simp only [List.length_append, List.length_cons, List.length_nil, length_le16, length_le32, length_le16i, length_write_string, Book.metadataBytes, magicBytes] <;> omega] at h
    rw [show (magicBytes ++ ([2, 0] ++ (le16 (48 + (Book.metadataBytes metadata options).length) ++ (le16 options.screen_width ++ (le16 options.screen_height ++ (le32 pages.length ++ (le32 toc.length))))))) ++ (le32 (((48 + (Book.metadataBytes metadata options).length) + (Book.tocBytes toc).length)) ++ (le32 (48 + (Book.metadataBytes metadata options).length) ++ (le32 (((48 + (Book.metadataBytes metadata options).length) + (Book.tocBytes toc).length) + (((lutOffsets options adv pages 0).map le32).flatten).length) ++ (le32 0 ++ (le32 0 ++ (le32 glyphs.length ++ (le32 ((((48 + (Book.metadataBytes metadata options).length) + (Book.tocBytes toc).length) + (((lutOffsets options adv pages 0).map le32).flatten).length) + ((pages.map (Book.encodePage options adv)).flatten).length) ++ (Book.write_string metadata.title ++ (Book.write_string metadata.author ++ (Book.write_string metadata.language ++ (Book.write_string metadata.identifier ++ (Book.write_string Book.fontdueStr ++ (le16 options.char_width ++ (le16 options.line_height ++ (le16i options.ascent ++ (le16 options.margin_x ++ (le16 options.margin_x ++ (le16 options.margin_y ++ (le16 options.margin_y ++ (Book.tocBytes toc ++ (((lutOffsets options adv pages 0).map le32).flatten ++ ((pages.map (Book.encodePage options adv)).flatten ++ (Book.write_glyph_table glyphs))))))))))))))))))))))) = magicBytes ++ ([2, 0] ++ (le16 (48 + (Book.metadataBytes metadata options).length) ++ (le16 options.screen_width ++ (le16 options.screen_height ++ (le32 pages.length ++ (le32 toc.length ++ (le32 ((48 + (Book.metadataBytes metadata options).length) + (Book.tocBytes toc).length) ++ (le32 (48 + (Book.metadataBytes metadata options).length) ++ (le32 (((48 + (Book.metadataBytes metadata options).length) + (Book.tocBytes toc).length) + (((lutOffsets options adv pages 0).map le32).flatten).length) ++ (le32 0 ++ (le32 0 ++ (le32 glyphs.length ++ (le32 ((((48 + (Book.metadataBytes metadata options).length) + (Book.tocBytes toc).length) + (((lutOffsets options adv pages 0).map le32).flatten).length) + ((pages.map (Book.encodePage options adv)).flatten).length) ++ (Book.write_string metadata.title ++ (Book.write_string metadata.author ++ (Book.write_string metadata.language ++ (Book.write_string metadata.identifier ++ (Book.write_string Book.fontdueStr ++ (le16 options.char_width ++ (le16 options.line_height ++ (le16i options.ascent ++ (le16 options.margin_x ++ (le16 options.margin_x ++ (le16 options.margin_y ++ (le16 options.margin_y ++ (Book.tocBytes toc ++ (((lutOffsets options adv pages 0).map le32).flatten ++ ((pages.map (Book.encodePage options adv)).flatten ++ (Book.write_glyph_table glyphs))))))))))))))))))))))))))))) from by
      simp [List.append_assoc]] at h
    exact h
  have hread24 : read_u32 (magicBytes ++ ([2, 0] ++ (le16 (48 + (Book.metadataBytes metadata options).length) ++ (le16 options.screen_width ++ (le16 options.screen_height ++ (le32 pages.length ++ (le32 toc.length ++ (le32 ((48 + (Book.metadataBytes metadata options).length) + (Book.tocBytes toc).length) ++ (le32 (48 + (Book.metadataBytes metadata options).length) ++ (le32 (((48 + (Book.metadataBytes metadata options).length) + (Book.tocBytes toc).length) + (((lutOffsets options adv pages 0).map le32).flatten).length) ++ (le32 0 ++ (le32 0 ++ (le32 glyphs.length ++ (le32 ((((48 + (Book.metadataBytes metadata options).length) + (Book.tocBytes toc).length) + (((lutOffsets options adv pages 0).map le32).flatten).length) + ((pages.map (Book.encodePage options adv)).flatten).length) ++ (Book.write_string metadata.title ++ (Book.write_string metadata.author ++ (Book.write_string metadata.language ++ (Book.write_string metadata.identifier ++ (Book.write_string Book.fontdueStr ++ (le16 options.char_width ++ (le16 options.line_height ++ (le16i options.ascent ++ (le16 options.margin_x ++ (le16 options.margin_x ++ (le16 options.margin_y ++ (le16 options.margin_y ++ (Book.tocBytes toc ++ (((lutOffsets options adv pages 0).map le32).flatten ++ ((pages.map (Book.encodePage options adv)).flatten ++ (Book.write_glyph_table glyphs)))))))))))))))))))))))))))))) 24 = .ok ((48 + (Book.metadataBytes metadata options).length)) := by
    have h := read_u32_at (magicBytes ++ ([2, 0] ++ (le16 (48 + (Book.metadataBytes metadata options).length) ++ (le16 options.screen_width ++ (le16 options.screen_height ++ (le32 pages.length ++ (le32 toc.length ++ (le32 ((48 + (Book.metadataBytes metadata options).length) + (Book.tocBytes toc).length))))))))) ((48 + (Book.metadataBytes metadata options).length)) (le32 (((48 + (Book.metadataBytes metadata options).length) + (Book.tocBytes toc).length) + (((lutOffsets options adv pages 0).map le32).flatten).length) ++ (le32 0 ++ (le32 0 ++ (le32 glyphs.length ++ (le32 ((((48 + (Book.metadataBytes metadata options).length) + (Book.tocBytes toc).length) + (((lutOffsets options adv pages 0).map le32).flatten).length) + ((pages.map (Book.encodePage options adv)).flatten).length) ++ (Book.write_string metadata.title ++ (Book.write_string metadata.author ++ (Book.write_string metadata.language ++ (Book.write_string metadata.identifier ++ (Book.write_string Book.fontdueStr ++ (le16 options.char_width ++ (le16 options.line_height ++ (le16i options.ascent ++ (le16 options.margin_x ++ (le16 options.margin_x ++ (le16 options.margin_y ++ (le16 options.margin_y ++ (Book.tocBytes toc ++ (((lutOffsets options adv pages 0).map le32).flatten ++ ((pages.map (Book.encodePage options adv)).flatten ++ (Book.write_glyph_table glyphs))))))))))))))))))))) (by omega)
    rw [show ((magicBytes ++ ([2, 0] ++ (le16 (48 + (Book.metadataBytes metadata options).length) ++ (le16 options.screen_width ++ (le16 options.screen_height ++ (le32 pages.length ++ (le32 toc.length ++ (le32 ((48 + (Book.metadataBytes metadata options).length) + (Book.tocBytes toc).length))))))))) : List Nat).length = 24 from by
      simp only [List.length_append, List.length_cons, List.length_nil, length_le16, length_le32, length_le16i, length_write_string, Book.metadataBytes, magicBytes] <;> omega] at h
    rw [show (magicBytes ++ ([2, 0] ++ (le16 (48 + (Book.metadataBytes metadata options).length) ++ (le16 options.screen_width ++ (le16 options.screen_height ++ (le32 pages.length ++ (le32 toc.length ++ (le32 ((48 + (Book.metadataBytes metadata options).length) + (Book.tocBytes toc).length))))))))) ++ (le32 ((48 + (Book.metadataBytes metadata options).length)) ++ (le32 (((48 + (Book.metadataBytes metadata options).length) + (Book.tocBytes toc).length) + (((lutOffsets options adv pages 0).map le32).flatten).length) ++ (le32 0 ++ (le32 0 ++ (le32 glyphs.length ++ (le32 ((((48 + (Book.metadataBytes metadata options).length) + (Book.tocBytes toc).length) + (((lutOffsets options adv pages 0).map le32).flatten).length) + ((pages.map (Book.encodePage options adv)).flatten).length) ++ (Book.write_string metadata.title ++ (Book.write_string metadata.author ++ (Book.write_string metadata.language ++ (Book.write_string metadata.identifier ++ (Book.write_string Book.fontdueStr ++ (le16 options.char_width ++ (le16 options.line_height ++ (le16i options.ascent ++ (le16 options.margin_x ++ (le16 options.margin_x ++ (le16 options.margin_y ++ (le16 options.margin_y ++ (Book.tocBytes toc ++ (((lutOffsets options adv pages 0).map le32).flatten ++ ((pages.map (Book.encodePage options adv)).flatten ++ (Book.write_glyph_table glyphs)))))))))))))))))))))) = magicBytes ++ ([2, 0] ++ (le16 (48 + (Book.metadataBytes metadata options).length) ++ (le16 options.screen_width ++ (le16 options.screen_height ++ (le32 pages.length ++ (le32 toc.length ++ (le32 ((48 + (Book.metadataBytes metadata options).length) + (Book.tocBytes toc).length) ++ (le32 (48 + (Book.metadataBytes metadata options).length) ++ (le32 (((48 + (Book.metadataBytes metadata options).length) + (Book.tocBytes toc).length) + (((lutOffsets options adv pages 0).map le32).flatten).length) ++ (le32 0 ++ (le32 0 ++ (le32 glyphs.length ++ (le32 ((((48 + (Book.metadataBytes metadata options).length) + (Book.tocBytes toc).length) + (((lutOffsets options adv pages 0).map le32).flatten).length) + ((pages.map (Book.encodePage options adv)).flatten).length) ++ (Book.write_string metadata.title ++ (Book.write_string metadata.author ++ (Book.write_string metadata.language ++ (Book.write_string metadata.identifier ++ (Book.write_string Book.fontdueStr ++ (le16 options.char_width ++ (le16 options.line_height ++ (le16i options.ascent ++ (le16 options.margin_x ++ (le16 options.margin_x ++ (le16 options.margin_y ++ (le16 options.margin_y ++ (Book.tocBytes toc ++ (((lutOffsets options adv pages 0).map le32).flatten ++ ((pages.map (Book.encodePage options adv)).flatten ++ (Book.write_glyph_table glyphs))))))))))))))))))))))))))))) from by
      simp [List.append_assoc]] at h
    exact h
  have hread28 : read_u32 (magicBytes ++ ([2, 0] ++ (le16 (48 + (Book.metadataBytes metadata options).length) ++ (le16 options.screen_width ++ (le16 options.screen_height ++ (le32 pages.length ++ (le32 toc.length ++ (le32 ((48 + (Book.metadataBytes metadata options).length) + (Book.tocBytes toc).length) ++ (le32 (48 + (Book.metadataBytes metadata options).length) ++ (le32 (((48 + (Book.metadataBytes metadata options).length) + (Book.tocBytes toc).length) + (((lutOffsets options adv pages 0).map le32).flatten).length) ++ (le32 0 ++ (le32 0 ++ (le32 glyphs.length ++ (le32 ((((48 + (Book.metadataBytes metadata options).length) + (Book.tocBytes toc).length) + (((lutOffsets options adv pages 0).map le32).flatten).length) + ((pages.map (Book.encodePage options adv)).flatten).length) ++ (Book.write_string metadata.title ++ (Book.write_string metadata.author ++ (Book.write_string metadata.language ++ (Book.write_string metadata.identifier ++ (Book.write_string Book.fontdueStr ++ (le16 options.char_width ++ (le16 options.line_height ++ (le16i options.ascent ++ (le16 options.margin_x ++ (le16 options.margin_x ++ (le16 options.margin_y ++ (le16 options.margin_y ++ (Book.tocBytes toc ++ (((lutOffsets options adv pages 0).map le32).flatten ++ ((pages.map (Book.encodePage options adv)).flatten ++ (Book.write_glyph_table glyphs)))))))))))))))))))))))))))))) 28 = .ok ((((48 + (Book.metadataBytes metadata options).length) + (Book.tocBytes toc).length) + (((lutOffsets options adv pages 0).map le32).flatten).length)) := by
    have h := read_u32_at (magicBytes ++ ([2, 0] ++ (le16 (48 + (Book.metadataBytes metadata options).length) ++ (le16 options.screen_width ++ (le16 options.screen_height ++ (le32 pages.length ++ (le32 toc.length ++ (le32 ((48 + (Book.metadataBytes metadata options).length) + (Book.tocBytes toc).length) ++ (le32 (48 + (Book.metadataBytes metadata options).length)))))))))) ((((48 + (Book.metadataBytes metadata options).length) + (Book.tocBytes toc).length) + (((lutOffsets options adv pages 0).map le32).flatten).length)) (le32 0 ++ (le32 0 ++ (le32 glyphs.length ++ (le32 ((((48 + (Book.metadataBytes metadata options).length) + (Book.tocBytes toc).length) + (((lutOffsets options adv pages 0).map le32).flatten).length) + ((pages.map (Book.encodePage options adv)).flatten).length) ++ (Book.write_string metadata.title ++ (Book.write_string metadata.author ++ (Book.write_string metadata.language ++ (Book.write_string metadata.identifier ++ (Book.write_string Book.fontdueStr ++ (le16 options.char_width ++ (le16 options.line_height ++ (le16i options.ascent ++ (le16 options.margin_x ++ (le16 options.margin_x ++ (le16 options.margin_y ++ (le16 options.margin_y ++ (Book.tocBytes toc ++ (((lutOffsets options adv pages 0).map le32).flatten ++ ((pages.map (Book.encodePage options adv)).flatten ++ (Book.write_glyph_table glyphs)))))))))))))))))))) (by omega)
    rw [show ((magicBytes ++ ([2, 0] ++ (le16 (48 + (Book.metadataBytes metadata options).length) ++ (le16 options.screen_width ++ (le16 options.screen_height ++ (le32 pages.length ++ (le32 toc.length ++ (le32 ((48 + (Book.metadataBytes metadata options).length) + (Book.tocBytes toc).length) ++ (le32 (48 + (Book.metadataBytes metadata options).length)))))))))) : List Nat).length = 28 from by
      simp only [List.length_append, List.length_cons, List.length_nil, length_le16, length_le32, length_le16i, length_write_string, Book.metadataBytes, magicBytes] <;> omega] at h
    rw [show (magicBytes ++ ([2, 0] ++ (le16 (48 + (Book.metadataBytes metadata options).length) ++ (le16 options.screen_width ++ (le16 options.screen_height ++ (le32 pages.length ++ (le32 toc.length ++ (le32 ((48 + (Book.metadataBytes metadata options).length) + (Book.tocBytes toc).length) ++ (le32 (48 + (Book.metadataBytes metadata options).length)))))))))) ++ (le32 ((((48 + (Book.metadataBytes metadata options).length) + (Book.tocBytes toc).length) + (((lutOffsets options adv pages 0).map le32).flatten).length)) ++ (le32 0 ++ (le32 0 ++ (le32 glyphs.length ++ (le32 ((((48 + (Book.metadataBytes metadata options).length) + (Book.tocBytes toc).length) + (((lutOffsets options adv pages 0).map le32).flatten).length) + ((pages.map (Book.encodePage options adv)).flatten).length) ++ (Book.write_string metadata.title ++ (Book.write_string metadata.author ++ (Book.write_string metadata.language ++ (Book.write_string metadata.identifier ++ (Book.write_string Book.fontdueStr ++ (le16 options.char_width ++ (le16 options.line_height ++ (le16i options.ascent ++ (le16 options.margin_x ++ (le16 options.margin_x ++ (le16 options.margin_y ++ (le16 options.margin_y ++ (Book.tocBytes toc ++ (((lutOffsets options adv pages 0).map le32).flatten ++ ((pages.map (Book.encodePage options adv)).flatten ++ (Book.write_glyph_table glyphs))))))))))))))))))))) = magicBytes ++ ([2, 0] ++ (le16 (48 + (Book.metadataBytes metadata options).length) ++ (le16 options.screen_width ++ (le16 options.screen_height ++ (le32 pages.length ++ (le32 toc.length ++ (le32 ((48 + (Book.metadataBytes metadata options).length) + (Book.tocBytes toc).length) ++ (le32 (48 + (Book.metadataBytes metadata options).length) ++ (le32 (((48 + (Book.metadataBytes metadata options).length) + (Book.tocBytes toc).length) + (((lutOffsets options adv pages 0).map le32).flatten).length) ++ (le32 0 ++ (le32 0 ++ (le32 glyphs.length ++ (le32 ((((48 + (Book.metadataBytes metadata options).length) + (Book.tocBytes toc).length) + (((lutOffsets options adv pages 0).map le32).flatten).length) + ((pages.map (Book.encodePage options adv)).flatten).length) ++ (Book.write_string metadata.title ++ (Book.write_string metadata.author ++ (Book.write_string metadata.language ++ (Book.write_string metadata.identifier ++ (Book.write_string Book.fontdueStr ++ (le16 options.char_width ++ (le16 options.line_height ++ (le16i options.ascent ++ (le16 options.margin_x ++ (le16 options.margin_x ++ (le16 options.margin_y ++ (le16 options.margin_y ++ (Book.tocBytes toc ++ (((lutOffsets options adv pages 0).map le32).flatten ++ ((pages.map (Book.encodePage options adv)).flatten ++ (Book.write_glyph_table glyphs))))))))))))))))))))))))))))) from by
      simp [List.append_assoc]] at h
    exact h
  have hread40 : read_u32 (magicBytes ++ ([2, 0] ++ (le16 (48 + (Book.metadataBytes metadata options).length) ++ (le16 options.screen_width ++ (le16 options.screen_height ++ (le32 pages.length ++ (le32 toc.length ++ (le32 ((48 + (Book.metadataBytes metadata options).length) + (Book.tocBytes toc).length) ++ (le32 (48 + (Book.metadataBytes metadata options).length) ++ (le32 (((48 + (Book.metadataBytes metadata options).length) + (Book.tocBytes toc).length) + (((lutOffsets options adv pages 0).map le32).flatten).length) ++ (le32 0 ++ (le32 0 ++ (le32 glyphs.length ++ (le32 ((((48 + (Book.metadataBytes metadata options).length) + (Book.tocBytes toc).length) + (((lutOffsets options adv pages 0).map le32).flatten).length) + ((pages.map (Book.encodePage options adv)).flatten).length) ++ (Book.write_string metadata.title ++ (Book.write_string metadata.author ++ (Book.write_string metadata.language ++ (Book.write_string metadata.identifier ++ (Book.write_string Book.fontdueStr ++ (le16 options.char_width ++ (le16 options.line_height ++ (le16i options.ascent ++ (le16 options.margin_x ++ (le16 options.margin_x ++ (le16 options.margin_y ++ (le16 options.margin_y ++ (Book.tocBytes toc ++ (((lutOffsets options adv pages 0).map le32).flatten ++ ((pages.map (Book.encodePage options adv)).flatten ++ (Book.write_glyph_table glyphs)))))))))))))))))))))))))))))) 40 = .ok (glyphs.length) := by
    have h := read_u32_at (magicBytes ++ ([2, 0] ++ (le16 (48 + (Book.metadataBytes metadata options).length) ++ (le16 options.screen_width ++ (le16 options.screen_height ++ (le32 pages.length ++ (le32 toc.length ++ (le32 ((48 + (Book.metadataBytes metadata options).length) + (Book.tocBytes toc).length) ++ (le32 (48 + (Book.metadataBytes metadata options).length) ++ (le32 (((48 + (Book.metadataBytes metadata options).length) + (Book.tocBytes toc).length) + (((lutOffsets options adv pages 0).map le32).flatten).length) ++ (le32 0 ++ (le32 0)))))))))))) (glyphs.length) (le32 ((((48 + (Book.metadataBytes metadata options).length) + (Book.tocBytes toc).length) + (((lutOffsets options adv pages 0).map le32).flatten).length) + ((pages.map (Book.encodePage options adv)).flatten).length) ++ (Book.write_string metadata.title ++ (Book.write_string metadata.author ++ (Book.write_string metadata.language ++ (Book.write_string metadata.identifier ++ (Book.write_string Book.fontdueStr ++ (le16 options.char_width ++ (le16 options.line_height ++ (le16i options.ascent ++ (le16 options.margin_x ++ (le16 options.margin_x ++ (le16 options.margin_y ++ (le16 options.margin_y ++ (Book.tocBytes toc ++ (((lutOffsets options adv pages 0).map le32).flatten ++ ((pages.map (Book.encodePage options adv)).flatten ++ (Book.write_glyph_table glyphs))))))))))))))))) hcnt.2.2
    rw [show ((magicBytes ++ ([2, 0] ++ (le16 (48 + (Book.metadataBytes metadata options).length) ++ (le16 options.screen_width ++ (le16 options.screen_height ++ (le32 pages.length ++ (le32 toc.length ++ (le32 ((48 + (Book.metadataBytes metadata options).length) + (Book.tocBytes toc).length) ++ (le32 (48 + (Book.metadataBytes metadata options).length) ++ (le32 (((48 + (Book.metadataBytes metadata options).length) + (Book.tocBytes toc).length) + (((lutOffsets options adv pages 0).map le32).flatten).length) ++ (le32 0 ++ (le32 0)))))))))))) : List Nat).length = 40 from by
      simp only [List.length_append, List.length_cons, List.length_nil, length_le16, length_le32, length_le16i, length_write_string, Book.metadataBytes, magicBytes] <;> omega] at h
    rw [show (magicBytes ++ ([2, 0] ++ (le16 (48 + (Book.metadataBytes metadata options).length) ++ (le16 options.screen_width ++ (le16 options.screen_height ++ (le32 pages.length ++ (le32 toc.length ++ (le32 ((48 + (Book.metadataBytes metadata options).length) + (Book.tocBytes toc).length) ++ (le32 (48 + (Book.metadataBytes metadata options).length) ++ (le32 (((48 + (Book.metadataBytes metadata options).length) + (Book.tocBytes toc).length) + (((lutOffsets options adv pages 0).map le32).flatten).length) ++ (le32 0 ++ (le32 0)))))))))))) ++ (le32 (glyphs.length) ++ (le32 ((((48 + (Book.metadataBytes metadata options).length) + (Book.tocBytes toc).length) + (((lutOffsets options adv pages 0).map le32).flatten).length) + ((pages.map (Book.encodePage options adv)).flatten).length) ++ (Book.write_string metadata.title ++ (Book.write_string metadata.author ++ (Book.write_string metadata.language ++ (Book.write_string metadata.identifier ++ (Book.write_string Book.fontdueStr ++ (le16 options.char_width ++ (le16 options.line_height ++ (le16i options.ascent ++ (le16 options.margin_x ++ (le16 options.margin_x ++ (le16 options.margin_y ++ (le16 options.margin_y ++ (Book.tocBytes toc ++ (((lutOffsets options adv pages 0).map le32).flatten ++ ((pages.map (Book.encodePage options adv)).flatten ++ (Book.write_glyph_table glyphs)))))))))))))))))) = magicBytes ++ ([2, 0] ++ (le16 (48 + (Book.metadataBytes metadata options).length) ++ (le16 options.screen_width ++ (le16 options.screen_height ++ (le32 pages.length ++ (le32 toc.length ++ (le32 ((48 + (Book.metadataBytes metadata options).length) + (Book.tocBytes toc).length) ++ (le32 (48 + (Book.metadataBytes metadata options).length) ++ (le32 (((48 + (Book.metadataBytes metadata options).length) + (Book.tocBytes toc).length) + (((lutOffsets options adv pages 0).map le32).flatten).length) ++ (le32 0 ++ (le32 0 ++ (le32 glyphs.length ++ (le32 ((((48 + (Book.metadataBytes metadata options).length) + (Book.tocBytes toc).length) + (((lutOffsets options adv pages 0).map le32).flatten).length) + ((pages.map (Book.encodePage options adv)).flatten).length) ++ (Book.write_string metadata.title ++ (Book.write_string metadata.author ++ (Book.write_string metadata.language ++ (Book.write_string metadata.identifier ++ (Book.write_string Book.fontdueStr ++ (le16 options.char_width ++ (le16 options.line_height ++ (le16i options.ascent ++ (le16 options.margin_x ++ (le16 options.margin_x ++ (le16 options.margin_y ++ (le16 options.margin_y ++ (Book.tocBytes toc ++ (((lutOffsets options adv pages 0).map le32).flatten ++ ((pages.map (Book.encodePage options adv)).flatten ++ (Book.write_glyph_table glyphs))))))))))))))))))))))))))))) from by
      simp [List.append_assoc]] at h
    exact h
  have hread44 : read_u32 (magicBytes ++ ([2, 0] ++ (le16 (48 + (Book.metadataBytes metadata options).length) ++ (le16 options.screen_width ++ (le16 options.screen_height ++ (le32 pages.length ++ (le32 toc.length ++ (le32 ((48 + (Book.metadataBytes metadata options).length) + (Book.tocBytes toc).length) ++ (le32 (48 + (Book.metadataBytes metadata options).length) ++ (le32 (((48 + (Book.metadataBytes metadata options).length) + (Book.tocBytes toc).length) + (((lutOffsets options adv pages 0).map le32).flatten).length) ++ (le32 0 ++ (le32 0 ++ (le32 glyphs.length ++ (le32 ((((48 + (Book.metadataBytes metadata options).length) + (Book.tocBytes toc).length) + (((lutOffsets options adv pages 0).map le32).flatten).length) + ((pages.map (Book.encodePage options adv)).flatten).length) ++ (Book.write_string metadata.title ++ (Book.write_string metadata.author ++ (Book.write_string metadata.language ++ (Book.write_string metadata.identifier ++ (Book.write_string Book.fontdueStr ++ (le16 options.char_width ++ (le16 options.line_height ++ (le16i options.ascent ++ (le16 options.margin_x ++ (le16 options.margin_x ++ (le16 options.margin_y ++ (le16 options.margin_y ++ (Book.tocBytes toc ++ (((lutOffsets options adv pages 0).map le32).flatten ++ ((pages.map (Book.encodePage options adv)).flatten ++ (Book.write_glyph_table glyphs)))))))))))))))))))))))))))))) 44 = .ok (((((48 + (Book.metadataBytes metadata options).length) + (Book.tocBytes toc).length) + (((lutOffsets options adv pages 0).map le32).flatten).length) + ((pages.map (Book.encodePage options adv)).flatten).length)) := by
    have h := read_u32_at (magicBytes ++ ([2, 0] ++ (le16 (48 + (Book.metadataBytes metadata options).length) ++ (le16 options.screen_width ++ (le16 options.screen_height ++ (le32 pages.length ++ (le32 toc.length ++ (le32 ((48 + (Book.metadataBytes metadata options).length) + (Book.tocBytes toc).length) ++ (le32 (48 + (Book.metadataBytes metadata options).length) ++ (le32 (((48 + (Book.metadataBytes metadata options).length) + (Book.tocBytes toc).length) + (((lutOffsets options adv pages 0).map le32).flatten).length) ++ (le32 0 ++ (le32 0 ++ (le32 glyphs.length))))))))))))) (((((48 + (Book.metadataBytes metadata options).length) + (Book.tocBytes toc).length) + (((lutOffsets options adv pages 0).map le32).flatten).length) + ((pages.map (Book.encodePage options adv)).flatten).length)) (Book.write_string metadata.title ++ (Book.write_string metadata.author ++ (Book.write_string metadata.language ++ (Book.write_string metadata.identifier ++ (Book.write_string Book.fontdueStr ++ (le16 options.char_width ++ (le16 options.line_height ++ (le16i options.ascent ++ (le16 options.margin_x ++ (le16 options.margin_x ++ (le16 options.margin_y ++ (le16 options.margin_y ++ (Book.tocBytes toc ++ (((lutOffsets options adv pages 0).map le32).flatten ++ ((pages.map (Book.encodePage options adv)).flatten ++ (Book.write_glyph_table glyphs)))))))))))))))) (by omega)
    rw [show ((magicBytes ++ ([2, 0] ++ (le16 (48 + (Book.metadataBytes metadata options).length) ++ (le16 options.screen_width ++ (le16 options.screen_height ++ (le32 pages.length ++ (le32 toc.length ++ (le32 ((48 + (Book.metadataBytes metadata options).length) + (Book.tocBytes toc).length) ++ (le32 (48 + (Book.metadataBytes metadata options).length) ++ (le32 (((48 + (Book.metadataBytes metadata options).length) + (Book.tocBytes toc).length) + (((lutOffsets options adv pages 0).map le32).flatten).length) ++ (le32 0 ++ (le32 0 ++ (le32 glyphs.length))))))))))))) : List Nat).length = 44 from by
      simp only [List.length_append, List.length_cons, List.length_nil, length_le16, length_le32, length_le16i, length_write_string, Book.metadataBytes, magicBytes] <;> omega] at h
    rw [show (magicBytes ++ ([2, 0] ++ (le16 (48 + (Book.metadataBytes metadata options).length) ++ (le16 options.screen_width ++ (le16 options.screen_height ++ (le32 pages.length ++ (le32 toc.length ++ (le32 ((48 + (Book.metadataBytes metadata options).length) + (Book.tocBytes toc).length) ++ (le32 (48 + (Book.metadataBytes metadata options).length) ++ (le32 (((48 + (Book.metadataBytes metadata options).length) + (Book.tocBytes toc).length) + (((lutOffsets options adv pages 0).map le32).flatten).length) ++ (le32 0 ++ (le32 0 ++ (le32 glyphs.length))))))))))))) ++ (le32 (((((48 + (Book.metadataBytes metadata options).length) + (Book.tocBytes toc).length) + (((lutOffsets options adv pages 0).map le32).flatten).length) + ((pages.map (Book.encodePage options adv)).flatten).length)) ++ (Book.write_string metadata.title ++ (Book.write_string metadata.author ++ (Book.write_string metadata.language ++ (Book.write_string metadata.identifier ++ (Book.write_string Book.fontdueStr ++ (le16 options.char_width ++ (le16 options.line_height ++ (le16i options.ascent ++ (le16 options.margin_x ++ (le16 options.margin_x ++ (le16 options.margin_y ++ (le16 options.margin_y ++ (Book.tocBytes toc ++ (((lutOffsets options adv pages 0).map le32).flatten ++ ((pages.map (Book.encodePage options adv)).flatten ++ (Book.write_glyph_table glyphs))))))))))))))))) = magicBytes ++ ([2, 0] ++ (le16 (48 + (Book.metadataBytes metadata options).length) ++ (le16 options.screen_width ++ (le16 options.screen_height ++ (le32 pages.length ++ (le32 toc.length ++ (le32 ((48 + (Book.metadataBytes metadata options).length) + (Book.tocBytes toc).length) ++ (le32 (48 + (Book.metadataBytes metadata options).length) ++ (le32 (((48 + (Book.metadataBytes metadata options).length) + (Book.tocBytes toc).length) + (((lutOffsets options adv pages 0).map le32).flatten).length) ++ (le32 0 ++ (le32 0 ++ (le32 glyphs.length ++ (le32 ((((48 + (Book.metadataBytes metadata options).length) + (Book.tocBytes toc).length) + (((lutOffsets options adv pages 0).map le32).flatten).length) + ((pages.map (Book.encodePage options adv)).flatten).length) ++ (Book.write_string metadata.title ++ (Book.write_string metadata.author ++ (Book.write_string metadata.language ++ (Book.write_string metadata.identifier ++ (Book.write_string Book.fontdueStr ++ (le16 options.char_width ++ (le16 options.line_height ++ (le16i options.ascent ++ (le16 options.margin_x ++ (le16 options.margin_x ++ (le16 options.margin_y ++ (le16 options.margin_y ++ (Book.tocBytes toc ++ (((lutOffsets options adv pages 0).map le32).flatten ++ ((pages.map (Book.encodePage options adv)).flatten ++ (Book.write_glyph_table glyphs))))))))))))))))))))))))))))) from by
      simp [List.append_assoc]] at h
    exact h
  have hrs1 : read_string (magicBytes ++ ([2, 0] ++ (le16 (48 + (Book.metadataBytes metadata options).length) ++ (le16 options.screen_width ++ (le16 options.screen_height ++ (le32 pages.length ++ (le32 toc.length ++ (le32 ((48 + (Book.metadataBytes metadata options).length) + (Book.tocBytes toc).length) ++ (le32 (48 + (Book.metadataBytes metadata options).length) ++ (le32 (((48 + (Book.metadataBytes metadata options).length) + (Book.tocBytes toc).length) + (((lutOffsets options adv pages 0).map le32).flatten).length) ++ (le32 0 ++ (le32 0 ++ (le32 glyphs.length ++ (le32 ((((48 + (Book.metadataBytes metadata options).length) + (Book.tocBytes toc).length) + (((lutOffsets options adv pages 0).map le32).flatten).length) + ((pages.map (Book.encodePage options adv)).flatten).length) ++ (Book.write_string metadata.title ++ (Book.write_string metadata.author ++ (Book.write_string metadata.language ++ (Book.write_string metadata.identifier ++ (Book.write_string Book.fontdueStr ++ (le16 options.char_width ++ (le16 options.line_height ++ (le16i options.ascent ++ (le16 options.margin_x ++ (le16 options.margin_x ++ (le16 options.margin_y ++ (le16 options.margin_y ++ (Book.tocBytes toc ++ (((lutOffsets options adv pages 0).map le32).flatten ++ ((pages.map (Book.encodePage options adv)).flatten ++ (Book.write_glyph_table glyphs)))))))))))))))))))))))))))))) (48) =
      .ok (metadata.title, 48 + 4 + (utf8Encode metadata.title).length) := by
    have h := read_string_at (magicBytes ++ ([2, 0] ++ (le16 (48 + (Book.metadataBytes metadata options).length) ++ (le16 options.screen_width ++ (le16 options.screen_height ++ (le32 pages.length ++ (le32 toc.length ++ (le32 ((48 + (Book.metadataBytes metadata options).length) + (Book.tocBytes toc).length) ++ (le32 (48 + (Book.metadataBytes metadata options).length) ++ (le32 (((48 + (Book.metadataBytes metadata options).length) + (Book.tocBytes toc).length) + (((lutOffsets options adv pages 0).map le32).flatten).length) ++ (le32 0 ++ (le32 0 ++ (le32 glyphs.length ++ (le32 ((((48 + (Book.metadataBytes metadata options).length) + (Book.tocBytes toc).length) + (((lutOffsets options adv pages 0).map le32).flatten).length) + ((pages.map (Book.encodePage options adv)).flatten).length))))))))))))))) (metadata.title) (Book.write_string metadata.author ++ (Book.write_string metadata.language ++ (Book.write_string metadata.identifier ++ (Book.write_string Book.fontdueStr ++ (le16 options.char_width ++ (le16 options.line_height ++ (le16i options.ascent ++ (le16 options.margin_x ++ (le16 options.margin_x ++ (le16 options.margin_y ++ (le16 options.margin_y ++ (Book.tocBytes toc ++ (((lutOffsets options adv pages 0).map le32).flatten ++ ((pages.map (Book.encodePage options adv)).flatten ++ (Book.write_glyph_table glyphs))))))))))))))) hsc.1 (by omega)
    rw [show ((magicBytes ++ ([2, 0] ++ (le16 (48 + (Book.metadataBytes metadata options).length) ++ (le16 options.screen_width ++ (le16 options.screen_height ++ (le32 pages.length ++ (le32 toc.length ++ (le32 ((48 + (Book.metadataBytes metadata options).length) + (Book.tocBytes toc).length) ++ (le32 (48 + (Book.metadataBytes metadata options).length) ++ (le32 (((48 + (Book.metadataBytes metadata options).length) + (Book.tocBytes toc).length) + (((lutOffsets options adv pages 0).map le32).flatten).length) ++ (le32 0 ++ (le32 0 ++ (le32 glyphs.length ++ (le32 ((((48 + (Book.metadataBytes metadata options).length) + (Book.tocBytes toc).length) + (((lutOffsets options adv pages 0).map le32).flatten).length) + ((pages.map (Book.encodePage options adv)).flatten).length))))))))))))))) : List Nat).length = 48 from by
      simp only [List.length_append, List.length_cons, List.length_nil, length_le16, length_le32, length_le16i, length_write_string, Book.metadataBytes, magicBytes] <;> omega] at h
    rw [show (magicBytes ++ ([2, 0] ++ (le16 (48 + (Book.metadataBytes metadata options).length) ++ (le16 options.screen_width ++ (le16 options.screen_height ++ (le32 pages.length ++ (le32 toc.length ++ (le32 ((48 + (Book.metadataBytes metadata options).length) + (Book.tocBytes toc).length) ++ (le32 (48 + (Book.metadataBytes metadata options).length) ++ (le32 (((48 + (Book.metadataBytes metadata options).length) + (Book.tocBytes toc).length) + (((lutOffsets options adv pages 0).map le32).flatten).length) ++ (le32 0 ++ (le32 0 ++ (le32 glyphs.length ++ (le32 ((((48 + (Book.metadataBytes metadata options).length) + (Book.tocBytes toc).length) + (((lutOffsets options adv pages 0).map le32).flatten).length) + ((pages.map (Book.encodePage options adv)).flatten).length))))))))))))))) ++ (Book.write_string (metadata.title) ++ (Book.write_string metadata.author ++ (Book.write_string metadata.language ++ (Book.write_string metadata.identifier ++ (Book.write_string Book.fontdueStr ++ (le16 options.char_width ++ (le16 options.line_height ++ (le16i options.ascent ++ (le16 options.margin_x ++ (le16 options.margin_x ++ (le16 options.margin_y ++ (le16 options.margin_y ++ (Book.tocBytes toc ++ (((lutOffsets options adv pages 0).map le32).flatten ++ ((pages.map (Book.encodePage options adv)).flatten ++ (Book.write_glyph_table glyphs)))))))))))))))) = magicBytes ++ ([2, 0] ++ (le16 (48 + (Book.metadataBytes metadata options).length) ++ (le16 options.screen_width ++ (le16 options.screen_height ++ (le32 pages.length ++ (le32 toc.length ++ (le32 ((48 + (Book.metadataBytes metadata options).length) + (Book.tocBytes toc).length) ++ (le32 (48 + (Book.metadataBytes metadata options).length) ++ (le32 (((48 + (Book.metadataBytes metadata options).length) + (Book.tocBytes toc).length) + (((lutOffsets options adv pages 0).map le32).flatten).length) ++ (le32 0 ++ (le32 0 ++ (le32 glyphs.length ++ (le32 ((((48 + (Book.metadataBytes metadata options).length) + (Book.tocBytes toc).length) + (((lutOffsets options adv pages 0).map le32).flatten).length) + ((pages.map (Book.encodePage options adv)).flatten).length) ++ (Book.write_string metadata.title ++ (Book.write_string metadata.author ++ (Book.write_string metadata.language ++ (Book.write_string metadata.identifier ++ (Book.write_string Book.fontdueStr ++ (le16 options.char_width ++ (le16 options.line_height ++ (le16i options.ascent ++ (le16 options.margin_x ++ (le16 options.margin_x ++ (le16 options.margin_y ++ (le16 options.margin_y ++ (Book.tocBytes toc ++ (((lutOffsets options adv pages 0).map le32).flatten ++ ((pages.map (Book.encodePage options adv)).flatten ++ (Book.write_glyph_table glyphs))))))))))))))))))))))))))))) from by
      simp [List.append_assoc]] at h
    exact h
  have hrs2 : read_string (magicBytes ++ ([2, 0] ++ (le16 (48 + (Book.metadataBytes metadata options).length) ++ (le16 options.screen_width ++ (le16 options.screen_height ++ (le32 pages.length ++ (le32 toc.length ++ (le32 ((48 + (Book.metadataBytes metadata options).length) + (Book.tocBytes toc).length) ++ (le32 (48 + (Book.metadataBytes metadata options).length) ++ (le32 (((48 + (Book.metadataBytes metadata options).length) + (Book.tocBytes toc).length) + (((lutOffsets options adv pages 0).map le32).flatten).length) ++ (le32 0 ++ (le32 0 ++ (le32 glyphs.length ++ (le32 ((((48 + (Book.metadataBytes metadata options).length) + (Book.tocBytes toc).length) + (((lutOffsets options adv pages 0).map le32).flatten).length) + ((pages.map (Book.encodePage options adv)).flatten).length) ++ (Book.write_string metadata.title ++ (Book.write_string metadata.author ++ (Book.write_string metadata.language ++ (Book.write_string metadata.identifier ++ (Book.write_string Book.fontdueStr ++ (le16 options.char_width ++ (le16 options.line_height ++ (le16i options.ascent ++ (le16 options.margin_x ++ (le16 options.margin_x ++ (le16 options.margin_y ++ (le16 options.margin_y ++ (Book.tocBytes toc ++ (((lutOffsets options adv pages 0).map le32).flatten ++ ((pages.map (Book.encodePage options adv)).flatten ++ (Book.write_glyph_table glyphs)))))))))))))))))))))))))))))) (48 + 4 + (utf8Encode metadata.title).length) =
      .ok (metadata.author, 48 + 4 + (utf8Encode metadata.title).length + 4 + (utf8Encode metadata.author).length) := by
    have h := read_string_at (magicBytes ++ ([2, 0] ++ (le16 (48 + (Book.metadataBytes metadata options).length) ++ (le16 options.screen_width ++ (le16 options.screen_height ++ (le32 pages.length ++ (le32 toc.length ++ (le32 ((48 + (Book.metadataBytes metadata options).length) + (Book.tocBytes toc).length) ++ (le32 (48 + (Book.metadataBytes metadata options).length) ++ (le32 (((48 + (Book.metadataBytes metadata options).length) + (Book.tocBytes toc).length) + (((lutOffsets options adv pages 0).map le32).flatten).length) ++ (le32 0 ++ (le32 0 ++ (le32 glyphs.length ++ (le32 ((((48 + (Book.metadataBytes metadata options).length) + (Book.tocBytes toc).length) + (((lutOffsets options adv pages 0).map le32).flatten).length) + ((pages.map (Book.encodePage options adv)).flatten).length) ++ (Book.write_string metadata.title))))))))))))))) (metadata.author) (Book.write_string metadata.language ++ (Book.write_string metadata.identifier ++ (Book.write_string Book.fontdueStr ++ (le16 options.char_width ++ (le16 options.line_height ++ (le16i options.ascent ++ (le16 options.margin_x ++ (le16 options.margin_x ++ (le16 options.margin_y ++ (le16 options.margin_y ++ (Book.tocBytes toc ++ (((lutOffsets options adv pages 0).map le32).flatten ++ ((pages.map (Book.encodePage options adv)).flatten ++ (Book.write_glyph_table glyphs)))))))))))))) hsc.2.1 (by omega)
    rw [show ((magicBytes ++ ([2, 0] ++ (le16 (48 + (Book.metadataBytes metadata options).length) ++ (le16 options.screen_width ++ (le16 options.screen_height ++ (le32 pages.length ++ (le32 toc.length ++ (le32 ((48 + (Book.metadataBytes metadata options).length) + (Book.tocBytes toc).length) ++ (le32 (48 + (Book.metadataBytes metadata options).length) ++ (le32 (((48 + (Book.metadataBytes metadata options).length) + (Book.tocBytes toc).length) + (((lutOffsets options adv pages 0).map le32).flatten).length) ++ (le32 0 ++ (le32 0 ++ (le32 glyphs.length ++ (le32 ((((48 + (Book.metadataBytes metadata options).length) + (Book.tocBytes toc).length) + (((lutOffsets options adv pages 0).map le32).flatten).length) + ((pages.map (Book.encodePage options adv)).flatten).length) ++ (Book.write_string metadata.title))))))))))))))) : List Nat).length = 48 + 4 + (utf8Encode metadata.title).length from by
      simp only [List.length_append, List.length_cons, List.length_nil, length_le16, length_le32, length_le16i, length_write_string, Book.metadataBytes, magicBytes] <;> omega] at h
    rw [show (magicBytes ++ ([2, 0] ++ (le16 (48 + (Book.metadataBytes metadata options).length) ++ (le16 options.screen_width ++ (le16 options.screen_height ++ (le32 pages.length ++ (le32 toc.length ++ (le32 ((48 + (Book.metadataBytes metadata options).length) + (Book.tocBytes toc).length) ++ (le32 (48 + (Book.metadataBytes metadata options).length) ++ (le32 (((48 + (Book.metadataBytes metadata options).length) + (Book.tocBytes toc).length) + (((lutOffsets options adv pages 0).map le32).flatten).length) ++ (le32 0 ++ (le32 0 ++ (le32 glyphs.length ++ (le32 ((((48 + (Book.metadataBytes metadata options).length) + (Book.tocBytes toc).length) + (((lutOffsets options adv pages 0).map le32).flatten).length) + ((pages.map (Book.encodePage options adv)).flatten).length) ++ (Book.write_string metadata.title))))))))))))))) ++ (Book.write_string (metadata.author) ++ (Book.write_string metadata.language ++ (Book.write_string metadata.identifier ++ (Book.write_string Book.fontdueStr ++ (le16 options.char_width ++ (le16 options.line_height ++ (le16i options.ascent ++ (le16 options.margin_x ++ (le16 options.margin_x ++ (le16 options.margin_y ++ (le16 options.margin_y ++ (Book.tocBytes toc ++ (((lutOffsets options adv pages 0).map le32).flatten ++ ((pages.map (Book.encodePage options adv)).flatten ++ (Book.write_glyph_table glyphs))))))))))))))) = magicBytes ++ ([2, 0] ++ (le16 (48 + (Book.metadataBytes metadata options).length) ++ (le16 options.screen_width ++ (le16 options.screen_height ++ (le32 pages.length ++ (le32 toc.length ++ (le32 ((48 + (Book.metadataBytes metadata options).length) + (Book.tocBytes toc).length) ++ (le32 (48 + (Book.metadataBytes metadata options).length) ++ (le32 (((48 + (Book.metadataBytes metadata options).length) + (Book.tocBytes toc).length) + (((lutOffsets options adv pages 0).map le32).flatten).length) ++ (le32 0 ++ (le32 0 ++ (le32 glyphs.length ++ (le32 ((((48 + (Book.metadataBytes metadata options).length) + (Book.tocBytes toc).length) + (((lutOffsets options adv pages 0).map le32).flatten).length) + ((pages.map (Book.encodePage options adv)).flatten).length) ++ (Book.write_string metadata.title ++ (Book.write_string metadata.author ++ (Book.write_string metadata.language ++ (Book.write_string metadata.identifier ++ (Book.write_string Book.fontdueStr ++ (le16 options.char_width ++ (le16 options.line_height ++ (le16i options.ascent ++ (le16 options.margin_x ++ (le16 options.margin_x ++ (le16 options.margin_y ++ (le16 options.margin_y ++ (Book.tocBytes toc ++ (((lutOffsets options adv pages 0).map le32).flatten ++ ((pages.map (Book.encodePage options adv)).flatten ++ (Book.write_glyph_table glyphs))))))))))))))))))))))))))))) from by
      simp [List.append_assoc]] at h
    exact h
  have hrs3 : read_string (magicBytes ++ ([2, 0] ++ (le16 (48 + (Book.metadataBytes metadata options).length) ++ (le16 options.screen_width ++ (le16 options.screen_height ++ (le32 pages.length ++ (le32 toc.length ++ (le32 ((48 + (Book.metadataBytes metadata options).length) + (Book.tocBytes toc).length) ++ (le32 (48 + (Book.metadataBytes metadata options).length) ++ (le32 (((48 + (Book.metadataBytes metadata options).length) + (Book.tocBytes toc).length) + (((lutOffsets options adv pages 0).map le32).flatten).length) ++ (le32 0 ++ (le32 0 ++ (le32 glyphs.length ++ (le32 ((((48 + (Book.metadataBytes metadata options).length) + (Book.tocBytes toc).length) + (((lutOffsets options adv pages 0).map le32).flatten).length) + ((pages.map (Book.encodePage options adv)).flatten).length) ++ (Book.write_string metadata.title ++ (Book.write_string metadata.author ++ (Book.write_string metadata.language ++ (Book.write_string metadata.identifier ++ (Book.write_string Book.fontdueStr ++ (le16 options.char_width ++ (le16 options.line_height ++ (le16i options.ascent ++ (le16 options.margin_x ++ (le16 options.margin_x ++ (le16 options.margin_y ++ (le16 options.margin_y ++ (Book.tocBytes toc ++ (((lutOffsets options adv pages 0).map le32).flatten ++ ((pages.map (Book.encodePage options adv)).flatten ++ (Book.write_glyph_table glyphs)))))))))))))))))))))))))))))) (48 + 4 + (utf8Encode metadata.title).length + 4 + (utf8Encode metadata.author).length) =
      .ok (metadata.language, 48 + 4 + (utf8Encode metadata.title).length + 4 + (utf8Encode metadata.author).length + 4 + (utf8Encode metadata.language).length) := by
    have h := read_string_at (magicBytes ++ ([2, 0] ++ (le16 (48 + (Book.metadataBytes metadata options).length) ++ (le16 options.screen_width ++ (le16 options.screen_height ++ (le32 pages.length ++ (le32 toc.length ++ (le32 ((48 + (Book.metadataBytes metadata options).length) + (Book.tocBytes toc).length) ++ (le32 (48 + (Book.metadataBytes metadata options).length) ++ (le32 (((48 + (Book.metadataBytes metadata options).length) + (Book.tocBytes toc).length) + (((lutOffsets options adv pages 0).map le32).flatten).length) ++ (le32 0 ++ (le32 0 ++ (le32 glyphs.length ++ (le32 ((((48 + (Book.metadataBytes metadata options).length) + (Book.tocBytes toc).length) + (((lutOffsets options adv pages 0).map le32).flatten).length) + ((pages.map (Book.encodePage options adv)).flatten).length) ++ (Book.write_string metadata.title ++ (Book.write_string metadata.author)))))))))))))))) (metadata.language) (Book.write_string metadata.identifier ++ (Book.write_string Book.fontdueStr ++ (le16 options.char_width ++ (le16 options.line_height ++ (le16i options.ascent ++ (le16 options.margin_x ++ (le16 options.margin_x ++ (le16 options.margin_y ++ (le16 options.margin_y ++ (Book.tocBytes toc ++ (((lutOffsets options adv pages 0).map le32).flatten ++ ((pages.map (Book.encodePage options adv)).flatten ++ (Book.write_glyph_table glyphs))))))))))))) hsc.2.2.1 (by omega)
    rw [show ((magicBytes ++ ([2, 0] ++ (le16 (48 + (Book.metadataBytes metadata options).length) ++ (le16 options.screen_width ++ (le16 options.screen_height ++ (le32 pages.length ++ (le32 toc.length ++ (le32 ((48 + (Book.metadataBytes metadata options).length) + (Book.tocBytes toc).length) ++ (le32 (48 + (Book.metadataBytes metadata options).length) ++ (le32 (((48 + (Book.metadataBytes metadata options).length) + (Book.tocBytes toc).length) + (((lutOffsets options adv pages 0).map le32).flatten).length) ++ (le32 0 ++ (le32 0 ++ (le32 glyphs.length ++ (le32 ((((48 + (Book.metadataBytes metadata options).length) + (Book.tocBytes toc).length) + (((lutOffsets options adv pages 0).map le32).flatten).length) + ((pages.map (Book.encodePage options adv)).flatten).length) ++ (Book.write_string metadata.title ++ (Book.write_string metadata.author)))))))))))))))) : List Nat).length = 48 + 4 + (utf8Encode metadata.title).length + 4 + (utf8Encode metadata.author).length from by
      simp only [List.length_append, List.length_cons, List.length_nil, length_le16, length_le32, length_le16i, length_write_string, Book.metadataBytes, magicBytes] <;> omega] at h
    rw [show (magicBytes ++ ([2, 0] ++ (le16 (48 + (Book.metadataBytes metadata options).length) ++ (le16 options.screen_width ++ (le16 options.screen_height ++ (le32 pages.length ++ (le32 toc.length ++ (le32 ((48 + (Book.metadataBytes metadata options).length) + (Book.tocBytes toc).length) ++ (le32 (48 + (Book.metadataBytes metadata options).length) ++ (le32 (((48 + (Book.metadataBytes metadata options).length) + (Book.tocBytes toc).length) + (((lutOffsets options adv pages 0).map le32).flatten).length) ++ (le32 0 ++ (le32 0 ++ (le32 glyphs.length ++ (le32 ((((48 + (Book.metadataBytes metadata options).length) + (Book.tocBytes toc).length) + (((lutOffsets options adv pages 0).map le32).flatten).length) + ((pages.map (Book.encodePage options adv)).flatten).length) ++ (Book.write_string metadata.title ++ (Book.write_string metadata.author)))))))))))))))) ++ (Book.write_string (metadata.language) ++ (Book.write_string metadata.identifier ++ (Book.write_string Book.fontdueStr ++ (le16 options.char_width ++ (le16 options.line_height ++ (le16i options.ascent ++ (le16 options.margin_x ++ (le16 options.margin_x ++ (le16 options.margin_y ++ (le16 options.margin_y ++ (Book.tocBytes toc ++ (((lutOffsets options adv pages 0).map le32).flatten ++ ((pages.map (Book.encodePage options adv)).flatten ++ (Book.write_glyph_table glyphs)))))))))))))) = magicBytes ++ ([2, 0] ++ (le16 (48 + (Book.metadataBytes metadata options).length) ++ (le16 options.screen_width ++ (le16 options.screen_height ++ (le32 pages.length ++ (le32 toc.length ++ (le32 ((48 + (Book.metadataBytes metadata options).length) + (Book.tocBytes toc).length) ++ (le32 (48 + (Book.metadataBytes metadata options).length) ++ (le32 (((48 + (Book.metadataBytes metadata options).length) + (Book.tocBytes toc).length) + (((lutOffsets options adv pages 0).map le32).flatten).length) ++ (le32 0 ++ (le32 0 ++ (le32 glyphs.length ++ (le32 ((((48 + (Book.metadataBytes metadata options).length) + (Book.tocBytes toc).length) + (((lutOffsets options adv pages 0).map le32).flatten).length) + ((pages.map (Book.encodePage options adv)).flatten).length) ++ (Book.write_string metadata.title ++ (Book.write_string metadata.author ++ (Book.write_string metadata.language ++ (Book.write_string metadata.identifier ++ (Book.write_string Book.fontdueStr ++ (le16 options.char_width ++ (le16 options.line_height ++ (le16i options.ascent ++ (le16 options.margin_x ++ (le16 options.margin_x ++ (le16 options.margin_y ++ (le16 options.margin_y ++ (Book.tocBytes toc ++ (((lutOffsets options adv pages 0).map le32).flatten ++ ((pages.map (Book.encodePage options adv)).flatten ++ (Book.write_glyph_table glyphs))))))))))))))))))))))))))))) from by
      simp [List.append_assoc]] at h
    exact h
  have hrs4 : read_string (magicBytes ++ ([2, 0] ++ (le16 (48 + (Book.metadataBytes metadata options).length) ++ (le16 options.screen_width ++ (le16 options.screen_height ++ (le32 pages.length ++ (le32 toc.length ++ (le32 ((48 + (Book.metadataBytes metadata options).length) + (Book.tocBytes toc).length) ++ (le32 (48 + (Book.metadataBytes metadata options).length) ++ (le32 (((48 + (Book.metadataBytes metadata options).length) + (Book.tocBytes toc).length) + (((lutOffsets options adv pages 0).map le32).flatten).length) ++ (le32 0 ++ (le32 0 ++ (le32 glyphs.length ++ (le32 ((((48 + (Book.metadataBytes metadata options).length) + (Book.tocBytes toc).length) + (((lutOffsets options adv pages 0).map le32).flatten).length) + ((pages.map (Book.encodePage options adv)).flatten).length) ++ (Book.write_string metadata.title ++ (Book.write_string metadata.author ++ (Book.write_string metadata.language ++ (Book.write_string metadata.identifier ++ (Book.write_string Book.fontdueStr ++ (le16 options.char_width ++ (le16 options.line_height ++ (le16i options.ascent ++ (le16 options.margin_x ++ (le16 options.margin_x ++ (le16 options.margin_y ++ (le16 options.margin_y ++ (Book.tocBytes toc ++ (((lutOffsets options adv pages 0).map le32).flatten ++ ((pages.map (Book.encodePage options adv)).flatten ++ (Book.write_glyph_table glyphs)))))))))))))))))))))))))))))) (48 + 4 + (utf8Encode metadata.title).length + 4 + (utf8Encode metadata.author).length + 4 + (utf8Encode metadata.language).length) =
      .ok (metadata.identifier, 48 + 4 + (utf8Encode metadata.title).length + 4 + (utf8Encode metadata.author).length + 4 + (utf8Encode metadata.language).length + 4 + (utf8Encode metadata.identifier).length) := by
    have h := read_string_at (magicBytes ++ ([2, 0] ++ (le16 (48 + (Book.metadataBytes metadata options).length) ++ (le16 options.screen_width ++ (le16 options.screen_height ++ (le32 pages.length ++ (le32 toc.length ++ (le32 ((48 + (Book.metadataBytes metadata options).length) + (Book.tocBytes toc).length) ++ (le32 (48 + (Book.metadataBytes metadata options).length) ++ (le32 (((48 + (Book.metadataBytes metadata options).length) + (Book.tocBytes toc).length) + (((lutOffsets options adv pages 0).map le32).flatten).length) ++ (le32 0 ++ (le32 0 ++ (le32 glyphs.length ++ (le32 ((((48 + (Book.metadataBytes metadata options).length) + (Book.tocBytes toc).length) + (((lutOffsets options adv pages 0).map le32).flatten).length) + ((pages.map (Book.encodePage options adv)).flatten).length) ++ (Book.write_string metadata.title ++ (Book.write_string metadata.author ++ (Book.write_string metadata.language))))))))))))))))) (metadata.identifier) (Book.write_string Book.fontdueStr ++ (le16 options.char_width ++ (le16 options.line_height ++ (le16i options.ascent ++ (le16 options.margin_x ++ (le16 options.margin_x ++ (le16 options.margin_y ++ (le16 options.margin_y ++ (Book.tocBytes toc ++ (((lutOffsets options adv pages 0).map le32).flatten ++ ((pages.map (Book.encodePage options adv)).flatten ++ (Book.write_glyph_table glyphs)))))))))))) hsc.2.2.2 (by omega)
    rw [show ((magicBytes ++ ([2, 0] ++ (le16 (48 + (Book.metadataBytes metadata options).length) ++ (le16 options.screen_width ++ (le16 options.screen_height ++ (le32 pages.length ++ (le32 toc.length ++ (le32 ((48 + (Book.metadataBytes metadata options).length) + (Book.tocBytes toc).length) ++ (le32 (48 + (Book.metadataBytes metadata options).length) ++ (le32 (((48 + (Book.metadataBytes metadata options).length) + (Book.tocBytes toc).length) + (((lutOffsets options adv pages 0).map le32).flatten).length) ++ (le32 0 ++ (le32 0 ++ (le32 glyphs.length ++ (le32 ((((48 + (Book.metadataBytes metadata options).length) + (Book.tocBytes toc).length) + (((lutOffsets options adv pages 0).map le32).flatten).length) + ((pages.map (Book.encodePage options adv)).flatten).length) ++ (Book.write_string metadata.title ++ (Book.write_string metadata.author ++ (Book.write_string metadata.language))))))))))))))))) : List Nat).length = 48 + 4 + (utf8Encode metadata.title).length + 4 + (utf8Encode metadata.author).length + 4 + (utf8Encode metadata.language).length from by
      simp only [List.length_append, List.length_cons, List.length_nil, length_le16, length_le32, length_le16i, length_write_string, Book.metadataBytes, magicBytes] <;> omega] at h
    rw [show (magicBytes ++ ([2, 0] ++ (le16 (48 + (Book.metadataBytes metadata options).length) ++ (le16 options.screen_width ++ (le16 options.screen_height ++ (le32 pages.length ++ (le32 toc.length ++ (le32 ((48 + (Book.metadataBytes metadata options).length) + (Book.tocBytes toc).length) ++ (le32 (48 + (Book.metadataBytes metadata options).length) ++ (le32 (((48 + (Book.metadataBytes metadata options).length) + (Book.tocBytes toc).length) + (((lutOffsets options adv pages 0).map le32).flatten).length) ++ (le32 0 ++ (le32 0 ++ (le32 glyphs.length ++ (le32 ((((48 + (Book.metadataBytes metadata options).length) + (Book.tocBytes toc).length) + (((lutOffsets options adv pages 0).map le32).flatten).length) + ((pages.map (Book.encodePage options adv)).flatten).length) ++ (Book.write_string metadata.title ++ (Book.write_string metadata.author ++ (Book.write_string metadata.language))))))))))))))))) ++ (Book.write_string (metadata.identifier) ++ (Book.write_string Book.fontdueStr ++ (le16 options.char_width ++ (le16 options.line_height ++ (le16i options.ascent ++ (le16 options.margin_x ++ (le16 options.margin_x ++ (le16 options.margin_y ++ (le16 options.margin_y ++ (Book.tocBytes toc ++ (((lutOffsets options adv pages 0).map le32).flatten ++ ((pages.map (Book.encodePage options adv)).flatten ++ (Book.write_glyph_table glyphs))))))))))))) = magicBytes ++ ([2, 0] ++ (le16 (48 + (Book.metadataBytes metadata options).length) ++ (le16 options.screen_width ++ (le16 options.screen_height ++ (le32 pages.length ++ (le32 toc.length ++ (le32 ((48 + (Book.metadataBytes metadata options).length) + (Book.tocBytes toc).length) ++ (le32 (48 + (Book.metadataBytes metadata options).length) ++ (le32 (((48 + (Book.metadataBytes metadata options).length) + (Book.tocBytes toc).length) + (((lutOffsets options adv pages 0).map le32).flatten).length) ++ (le32 0 ++ (le32 0 ++ (le32 glyphs.length ++ (le32 ((((48 + (Book.metadataBytes metadata options).length) + (Book.tocBytes toc).length) + (((lutOffsets options adv pages 0).map le32).flatten).length) + ((pages.map (Book.encodePage options adv)).flatten).length) ++ (Book.write_string metadata.title ++ (Book.write_string metadata.author ++ (Book.write_string metadata.language ++ (Book.write_string metadata.identifier ++ (Book.write_string Book.fontdueStr ++ (le16 options.char_width ++ (le16 options.line_height ++ (le16i options.ascent ++ (le16 options.margin_x ++ (le16 options.margin_x ++ (le16 options.margin_y ++ (le16 options.margin_y ++ (Book.tocBytes toc ++ (((lutOffsets options adv pages 0).map le32).flatten ++ ((pages.map (Book.encodePage options adv)).flatten ++ (Book.write_glyph_table glyphs))))))))))))))))))))))))))))) from by
      simp [List.append_assoc]] at h
    exact h
  have hrs5 : read_string (magicBytes ++ ([2, 0] ++ (le16 (48 + (Book.metadataBytes metadata options).length) ++ (le16 options.screen_width ++ (le16 options.screen_height ++ (le32 pages.length ++ (le32 toc.length ++ (le32 ((48 + (Book.metadataBytes metadata options).length) + (Book.tocBytes toc).length) ++ (le32 (48 + (Book.metadataBytes metadata options).length) ++ (le32 (((48 + (Book.metadataBytes metadata options).length) + (Book.tocBytes toc).length) + (((lutOffsets options adv pages 0).map le32).flatten).length) ++ (le32 0 ++ (le32 0 ++ (le32 glyphs.length ++ (le32 ((((48 + (Book.metadataBytes metadata options).length) + (Book.tocBytes toc).length) + (((lutOffsets options adv pages 0).map le32).flatten).length) + ((pages.map (Book.encodePage options adv)).flatten).length) ++ (Book.write_string metadata.title ++ (Book.write_string metadata.author ++ (Book.write_string metadata.language ++ (Book.write_string metadata.identifier ++ (Book.write_string Book.fontdueStr ++ (le16 options.char_width ++ (le16 options.line_height ++ (le16i options.ascent ++ (le16 options.margin_x ++ (le16 options.margin_x ++ (le16 options.margin_y ++ (le16 options.margin_y ++ (Book.tocBytes toc ++ (((lutOffsets options adv pages 0).map le32).flatten ++ ((pages.map (Book.encodePage options adv)).flatten ++ (Book.write_glyph_table glyphs)))))))))))))))))))))))))))))) (48 + 4 + (utf8Encode metadata.title).length + 4 + (utf8Encode metadata.author).length + 4 + (utf8Encode metadata.language).length + 4 + (utf8Encode metadata.identifier).length) =
      .ok (Book.fontdueStr, 48 + 4 + (utf8Encode metadata.title).length + 4 + (utf8Encode metadata.author).length + 4 + (utf8Encode metadata.language).length + 4 + (utf8Encode metadata.identifier).length + 4 + (utf8Encode Book.fontdueStr).length) := by
    have h := read_string_at (magicBytes ++ ([2, 0] ++ (le16 (48 + (Book.metadataBytes metadata options).length) ++ (le16 options.screen_width ++ (le16 options.screen_height ++ (le32 pages.length ++ (le32 toc.length ++ (le32 ((48 + (Book.metadataBytes metadata options).length) + (Book.tocBytes toc).length) ++ (le32 (48 + (Book.metadataBytes metadata options).length) ++ (le32 (((48 + (Book.metadataBytes metadata options).length) + (Book.tocBytes toc).length) + (((lutOffsets options adv pages 0).map le32).flatten).length) ++ (le32 0 ++ (le32 0 ++ (le32 glyphs.length ++ (le32 ((((48 + (Book.metadataBytes metadata options).length) + (Book.tocBytes toc).length) + (((lutOffsets options adv pages 0).map le32).flatten).length) + ((pages.map (Book.encodePage options adv)).flatten).length) ++ (Book.write_string metadata.title ++ (Book.write_string metadata.author ++ (Book.write_string metadata.language ++ (Book.write_string metadata.identifier)))))))))))))))))) (Book.fontdueStr) (le16 options.char_width ++ (le16 options.line_height ++ (le16i options.ascent ++ (le16 options.margin_x ++ (le16 options.margin_x ++ (le16 options.margin_y ++ (le16 options.margin_y ++ (Book.tocBytes toc ++ (((lutOffsets options adv pages 0).map le32).flatten ++ ((pages.map (Book.encodePage options adv)).flatten ++ (Book.write_glyph_table glyphs))))))))))) (by decide) (by omega)
    rw [show ((magicBytes ++ ([2, 0] ++ (le16 (48 + (Book.metadataBytes metadata options).length) ++ (le16 options.screen_width ++ (le16 options.screen_height ++ (le32 pages.length ++ (le32 toc.length ++ (le32 ((48 + (Book.metadataBytes metadata options).length) + (Book.tocBytes toc).length) ++ (le32 (48 + (Book.metadataBytes metadata options).length) ++ (le32 (((48 + (Book.metadataBytes metadata options).length) + (Book.tocBytes toc).length) + (((lutOffsets options adv pages 0).map le32).flatten).length) ++ (le32 0 ++ (le32 0 ++ (le32 glyphs.length ++ (le32 ((((48 + (Book.metadataBytes metadata options).length) + (Book.tocBytes toc).length) + (((lutOffsets options adv pages 0).map le32).flatten).length) + ((pages.map (Book.encodePage options adv)).flatten).length) ++ (Book.write_string metadata.title ++ (Book.write_string metadata.author ++ (Book.write_string metadata.language ++ (Book.write_string metadata.identifier)))))))))))))))))) : List Nat).length = 48 + 4 + (utf8Encode metadata.title).length + 4 + (utf8Encode metadata.author).length + 4 + (utf8Encode metadata.language).length + 4 + (utf8Encode metadata.identifier).length from by
      simp only [List.length_append, List.length_cons, List.length_nil, length_le16, length_le32, length_le16i, length_write_string, Book.metadataBytes, magicBytes] <;> omega] at h
    rw [show (magicBytes ++ ([2, 0] ++ (le16 (48 + (Book.metadataBytes metadata options).length) ++ (le16 options.screen_width ++ (le16 options.screen_height ++ (le32 pages.length ++ (le32 toc.length ++ (le32 ((48 + (Book.metadataBytes metadata options).length) + (Book.tocBytes toc).length) ++ (le32 (48 + (Book.metadataBytes metadata options).length) ++ (le32 (((48 + (Book.metadataBytes metadata options).length) + (Book.tocBytes toc).length) + (((lutOffsets options adv pages 0).map le32).flatten).length) ++ (le32 0 ++ (le32 0 ++ (le32 glyphs.length ++ (le32 ((((48 + (Book.metadataBytes metadata options).length) + (Book.tocBytes toc).length) + (((lutOffsets options adv pages 0).map le32).flatten).length) + ((pages.map (Book.encodePage options adv)).flatten).length) ++ (Book.write_string metadata.title ++ (Book.write_string metadata.author ++ (Book.write_string metadata.language ++ (Book.write_string metadata.identifier)))))))))))))))))) ++ (Book.write_string (Book.fontdueStr) ++ (le16 options.char_width ++ (le16 options.line_height ++ (le16i options.ascent ++ (le16 options.margin_x ++ (le16 options.margin_x ++ (le16 options.margin_y ++ (le16 options.margin_y ++ (Book.tocBytes toc ++ (((lutOffsets options adv pages 0).map le32).flatten ++ ((pages.map (Book.encodePage options adv)).flatten ++ (Book.write_glyph_table glyphs)))))))))))) = magicBytes ++ ([2, 0] ++ (le16 (48 + (Book.metadataBytes metadata options).length) ++ (le16 options.screen_width ++ (le16 options.screen_height ++ (le32 pages.length ++ (le32 toc.length ++ (le32 ((48 + (Book.metadataBytes metadata options).length) + (Book.tocBytes toc).length) ++ (le32 (48 + (Book.metadataBytes metadata options).length) ++ (le32 (((48 + (Book.metadataBytes metadata options).length) + (Book.tocBytes toc).length) + (((lutOffsets options adv pages 0).map le32).flatten).length) ++ (le32 0 ++ (le32 0 ++ (le32 glyphs.length ++ (le32 ((((48 + (Book.metadataBytes metadata options).length) + (Book.tocBytes toc).length) + (((lutOffsets options adv pages 0).map le32).flatten).length) + ((pages.map (Book.encodePage options adv)).flatten).length) ++ (Book.write_string metadata.title ++ (Book.write_string metadata.author ++ (Book.write_string metadata.language ++ (Book.write_string metadata.identifier ++ (Book.write_string Book.fontdueStr ++ (le16 options.char_width ++ (le16 options.line_height ++ (le16i options.ascent ++ (le16 options.margin_x ++ (le16 options.margin_x ++ (le16 options.margin_y ++ (le16 options.margin_y ++ (Book.tocBytes toc ++ (((lutOffsets options adv pages 0).map le32).flatten ++ ((pages.map (Book.encodePage options adv)).flatten ++ (Book.write_glyph_table glyphs))))))))))))))))))))))))))))) from by
      simp [List.append_assoc]] at h
    exact h
  have htc2 : parse_trbk_toc (magicBytes ++ ([2, 0] ++ (le16 (48 + (Book.metadataBytes metadata options).length) ++ (le16 options.screen_width ++ (le16 options.screen_height ++ (le32 pages.length ++ (le32 toc.length ++ (le32 ((48 + (Book.metadataBytes metadata options).length) + (Book.tocBytes toc).length) ++ (le32 (48 + (Book.metadataBytes metadata options).length) ++ (le32 (((48 + (Book.metadataBytes metadata options).length) + (Book.tocBytes toc).length) + (((lutOffsets options adv pages 0).map le32).flatten).length) ++ (le32 0 ++ (le32 0 ++ (le32 glyphs.length ++ (le32 ((((48 + (Book.metadataBytes metadata options).length) + (Book.tocBytes toc).length) + (((lutOffsets options adv pages 0).map le32).flatten).length) + ((pages.map (Book.encodePage options adv)).flatten).length) ++ (Book.write_string metadata.title ++ (Book.write_string metadata.author ++ (Book.write_string metadata.language ++ (Book.write_string metadata.identifier ++ (Book.write_string Book.fontdueStr ++ (le16 options.char_width ++ (le16 options.line_height ++ (le16i options.ascent ++ (le16 options.margin_x ++ (le16 options.margin_x ++ (le16 options.margin_y ++ (le16 options.margin_y ++ (Book.tocBytes toc ++ (((lutOffsets options adv pages 0).map le32).flatten ++ ((pages.map (Book.encodePage options adv)).flatten ++ (Book.write_glyph_table glyphs)))))))))))))))))))))))))))))) ((48 + (Book.metadataBytes metadata options).length)) toc.length =
      .ok (toc.map (fun e =>
        (⟨e.title, e.page_index, e.level⟩ : TrbkTocEntry))) := by
    unfold parse_trbk_toc
    rw [if_neg (by omega)]
    have h := toc_loop_enc toc (magicBytes ++ ([2, 0] ++ (le16 (48 + (Book.metadataBytes metadata options).length) ++ (le16 options.screen_width ++ (le16 options.screen_height ++ (le32 pages.length ++ (le32 toc.length ++ (le32 ((48 + (Book.metadataBytes metadata options).length) + (Book.tocBytes toc).length) ++ (le32 (48 + (Book.metadataBytes metadata options).length) ++ (le32 (((48 + (Book.metadataBytes metadata options).length) + (Book.tocBytes toc).length) + (((lutOffsets options adv pages 0).map le32).flatten).length) ++ (le32 0 ++ (le32 0 ++ (le32 glyphs.length ++ (le32 ((((48 + (Book.metadataBytes metadata options).length) + (Book.tocBytes toc).length) + (((lutOffsets options adv pages 0).map le32).flatten).length) + ((pages.map (Book.encodePage options adv)).flatten).length) ++ (Book.write_string metadata.title ++ (Book.write_string metadata.author ++ (Book.write_string metadata.language ++ (Book.write_string metadata.identifier ++ (Book.write_string Book.fontdueStr ++ (le16 options.char_width ++ (le16 options.line_height ++ (le16i options.ascent ++ (le16 options.margin_x ++ (le16 options.margin_x ++ (le16 options.margin_y ++ (le16 options.margin_y)))))))))))))))))))))))))) (((lutOffsets options adv pages 0).map le32).flatten ++ ((pages.map (Book.encodePage options adv)).flatten ++ (Book.write_glyph_table glyphs)))
      (fun e he => ⟨(htoc e he).1, (htoc e he).2.1, (htoc e he).2.2.1⟩)
    rw [show ((magicBytes ++ ([2, 0] ++ (le16 (48 + (Book.metadataBytes metadata options).length) ++ (le16 options.screen_width ++ (le16 options.screen_height ++ (le32 pages.length ++ (le32 toc.length ++ (le32 ((48 + (Book.metadataBytes metadata options).length) + (Book.tocBytes toc).length) ++ (le32 (48 + (Book.metadataBytes metadata options).length) ++ (le32 (((48 + (Book.metadataBytes metadata options).length) + (Book.tocBytes toc).length) + (((lutOffsets options adv pages 0).map le32).flatten).length) ++ (le32 0 ++ (le32 0 ++ (le32 glyphs.length ++ (le32 ((((48 + (Book.metadataBytes metadata options).length) + (Book.tocBytes toc).length) + (((lutOffsets options adv pages 0).map le32).flatten).length) + ((pages.map (Book.encodePage options adv)).flatten).length) ++ (Book.write_string metadata.title ++ (Book.write_string metadata.author ++ (Book.write_string metadata.language ++ (Book.write_string metadata.identifier ++ (Book.write_string Book.fontdueStr ++ (le16 options.char_width ++ (le16 options.line_height ++ (le16i options.ascent ++ (le16 options.margin_x ++ (le16 options.margin_x ++ (le16 options.margin_y ++ (le16 options.margin_y)))))))))))))))))))))))))) : List Nat).length = (48 + (Book.metadataBytes metadata options).length) from by
      simp only [List.length_append, List.length_cons, List.length_nil, length_le16, length_le32, length_le16i, length_write_string, Book.metadataBytes, magicBytes] <;> omega] at h
    rw [show (magicBytes ++ ([2, 0] ++ (le16 (48 + (Book.metadataBytes metadata options).length) ++ (le16 options.screen_width ++ (le16 options.screen_height ++ (le32 pages.length ++ (le32 toc.length ++ (le32 ((48 + (Book.metadataBytes metadata options).length) + (Book.tocBytes toc).length) ++ (le32 (48 + (Book.metadataBytes metadata options).length) ++ (le32 (((48 + (Book.metadataBytes metadata options).length) + (Book.tocBytes toc).length) + (((lutOffsets options adv pages 0).map le32).flatten).length) ++ (le32 0 ++ (le32 0 ++ (le32 glyphs.length ++ (le32 ((((48 + (Book.metadataBytes metadata options).length) + (Book.tocBytes toc).length) + (((lutOffsets options adv pages 0).map le32).flatten).length) + ((pages.map (Book.encodePage options adv)).flatten).length) ++ (Book.write_string metadata.title ++ (Book.write_string metadata.author ++ (Book.write_string metadata.language ++ (Book.write_string metadata.identifier ++ (Book.write_string Book.fontdueStr ++ (le16 options.char_width ++ (le16 options.line_height ++ (le16i options.ascent ++ (le16 options.margin_x ++ (le16 options.margin_x ++ (le16 options.margin_y ++ (le16 options.margin_y)))))))))))))))))))))))))) ++ (Book.tocBytes toc ++ (((lutOffsets options adv pages 0).map le32).flatten ++ ((pages.map (Book.encodePage options adv)).flatten ++ (Book.write_glyph_table glyphs)))) = magicBytes ++ ([2, 0] ++ (le16 (48 + (Book.metadataBytes metadata options).length) ++ (le16 options.screen_width ++ (le16 options.screen_height ++ (le32 pages.length ++ (le32 toc.length ++ (le32 ((48 + (Book.metadataBytes metadata options).length) + (Book.tocBytes toc).length) ++ (le32 (48 + (Book.metadataBytes metadata options).length) ++ (le32 (((48 + (Book.metadataBytes metadata options).length) + (Book.tocBytes toc).length) + (((lutOffsets options adv pages 0).map le32).flatten).length) ++ (le32 0 ++ (le32 0 ++ (le32 glyphs.length ++ (le32 ((((48 + (Book.metadataBytes metadata options).length) + (Book.tocBytes toc).length) + (((lutOffsets options adv pages 0).map le32).flatten).length) + ((pages.map (Book.encodePage options adv)).flatten).length) ++ (Book.write_string metadata.title ++ (Book.write_string metadata.author ++ (Book.write_string metadata.language ++ (Book.write_string metadata.identifier ++ (Book.write_string Book.fontdueStr ++ (le16 options.char_width ++ (le16 options.line_height ++ (le16i options.ascent ++ (le16 options.margin_x ++ (le16 options.margin_x ++ (le16 options.margin_y ++ (le16 options.margin_y ++ (Book.tocBytes toc ++ (((lutOffsets options adv pages 0).map le32).flatten ++ ((pages.map (Book.encodePage options adv)).flatten ++ (Book.write_glyph_table glyphs))))))))))))))))))))))))))))) from by
      simp [List.append_assoc]] at h
    exact h
  have hgp : ∃ gl, parse_glyphs (magicBytes ++ ([2, 0] ++ (le16 (48 + (Book.metadataBytes metadata options).length) ++ (le16 options.screen_width ++ (le16 options.screen_height ++ (le32 pages.length ++ (le32 toc.length ++ (le32 ((48 + (Book.metadataBytes metadata options).length) + (Book.tocBytes toc).length) ++ (le32 (48 + (Book.metadataBytes metadata options).length) ++ (le32 (((48 + (Book.metadataBytes metadata options).length) + (Book.tocBytes toc).length) + (((lutOffsets options adv pages 0).map le32).flatten).length) ++ (le32 0 ++ (le32 0 ++ (le32 glyphs.length ++ (le32 ((((48 + (Book.metadataBytes metadata options).length) + (Book.tocBytes toc).length) + (((lutOffsets options adv pages 0).map le32).flatten).length) + ((pages.map (Book.encodePage options adv)).flatten).length) ++ (Book.write_string metadata.title ++ (Book.write_string metadata.author ++ (Book.write_string metadata.language ++ (Book.write_string metadata.identifier ++ (Book.write_string Book.fontdueStr ++ (le16 options.char_width ++ (le16 options.line_height ++ (le16i options.ascent ++ (le16 options.margin_x ++ (le16 options.margin_x ++ (le16 options.margin_y ++ (le16 options.margin_y ++ (Book.tocBytes toc ++ (((lutOffsets options adv pages 0).map le32).flatten ++ ((pages.map (Book.encodePage options adv)).flatten ++ (Book.write_glyph_table glyphs)))))))))))))))))))))))))))))) (((((48 + (Book.metadataBytes metadata options).length) + (Book.tocBytes toc).length) + (((lutOffsets options adv pages 0).map le32).flatten).length) + ((pages.map (Book.encodePage options adv)).flatten).length)) glyphs.length = .ok gl := by
    unfold parse_glyphs
    rw [if_neg (by omega)]
    obtain ⟨res, h⟩ := glyphs_loop_enc glyphs (magicBytes ++ ([2, 0] ++ (le16 (48 + (Book.metadataBytes metadata options).length) ++ (le16 options.screen_width ++ (le16 options.screen_height ++ (le32 pages.length ++ (le32 toc.length ++ (le32 ((48 + (Book.metadataBytes metadata options).length) + (Book.tocBytes toc).length) ++ (le32 (48 + (Book.metadataBytes metadata options).length) ++ (le32 (((48 + (Book.metadataBytes metadata options).length) + (Book.tocBytes toc).length) + (((lutOffsets options adv pages 0).map le32).flatten).length) ++ (le32 0 ++ (le32 0 ++ (le32 glyphs.length ++ (le32 ((((48 + (Book.metadataBytes metadata options).length) + (Book.tocBytes toc).length) + (((lutOffsets options adv pages 0).map le32).flatten).length) + ((pages.map (Book.encodePage options adv)).flatten).length) ++ (Book.write_string metadata.title ++ (Book.write_string metadata.author ++ (Book.write_string metadata.language ++ (Book.write_string metadata.identifier ++ (Book.write_string Book.fontdueStr ++ (le16 options.char_width ++ (le16 options.line_height ++ (le16i options.ascent ++ (le16 options.margin_x ++ (le16 options.margin_x ++ (le16 options.margin_y ++ (le16 options.margin_y ++ (Book.tocBytes toc ++ (((lutOffsets options adv pages 0).map le32).flatten ++ ((pages.map (Book.encodePage options adv)).flatten))))))))))))))))))))))))))))) [] hg
    rw [show ((magicBytes ++ ([2, 0] ++ (le16 (48 + (Book.metadataBytes metadata options).length) ++ (le16 options.screen_width ++ (le16 options.screen_height ++ (le32 pages.length ++ (le32 toc.length ++ (le32 ((48 + (Book.metadataBytes metadata options).length) + (Book.tocBytes toc).length) ++ (le32 (48 + (Book.metadataBytes metadata options).length) ++ (le32 (((48 + (Book.metadataBytes metadata options).length) + (Book.tocBytes toc).length) + (((lutOffsets options adv pages 0).map le32).flatten).length) ++ (le32 0 ++ (le32 0 ++ (le32 glyphs.length ++ (le32 ((((48 + (Book.metadataBytes metadata options).length) + (Book.tocBytes toc).length) + (((lutOffsets options adv pages 0).map le32).flatten).length) + ((pages.map (Book.encodePage options adv)).flatten).length) ++ (Book.write_string metadata.title ++ (Book.write_string metadata.author ++ (Book.write_string metadata.language ++ (Book.write_string metadata.identifier ++ (Book.write_string Book.fontdueStr ++ (le16 options.char_width ++ (le16 options.line_height ++ (le16i options.ascent ++ (le16 options.margin_x ++ (le16 options.margin_x ++ (le16 options.margin_y ++ (le16 options.margin_y ++ (Book.tocBytes toc ++ (((lutOffsets options adv pages 0).map le32).flatten ++ ((pages.map (Book.encodePage options adv)).flatten))))))))))))))))))))))))))))) : List Nat).length = ((((48 + (Book.metadataBytes metadata options).length) + (Book.tocBytes toc).length) + (((lutOffsets options adv pages 0).map le32).flatten).length) + ((pages.map (Book.encodePage options adv)).flatten).length) from by
      simp only [List.length_append, List.length_cons, List.length_nil, length_le16, length_le32, length_le16i, length_write_string, Book.metadataBytes, magicBytes] <;> omega] at h
    rw [show (magicBytes ++ ([2, 0] ++ (le16 (48 + (Book.metadataBytes metadata options).length) ++ (le16 options.screen_width ++ (le16 options.screen_height ++ (le32 pages.length ++ (le32 toc.length ++ (le32 ((48 + (Book.metadataBytes metadata options).length) + (Book.tocBytes toc).length) ++ (le32 (48 + (Book.metadataBytes metadata options).length) ++ (le32 (((48 + (Book.metadataBytes metadata options).length) + (Book.tocBytes toc).length) + (((lutOffsets options adv pages 0).map le32).flatten).length) ++ (le32 0 ++ (le32 0 ++ (le32 glyphs.length ++ (le32 ((((48 + (Book.metadataBytes metadata options).length) + (Book.tocBytes toc).length) + (((lutOffsets options adv pages 0).map le32).flatten).length) + ((pages.map (Book.encodePage options adv)).flatten).length) ++ (Book.write_string metadata.title ++ (Book.write_string metadata.author ++ (Book.write_string metadata.language ++ (Book.write_string metadata.identifier ++ (Book.write_string Book.fontdueStr ++ (le16 options.char_width ++ (le16 options.line_height ++ (le16i options.ascent ++ (le16 options.margin_x ++ (le16 options.margin_x ++ (le16 options.margin_y ++ (le16 options.margin_y ++ (Book.tocBytes toc ++ (((lutOffsets options adv pages 0).map le32).flatten ++ ((pages.map (Book.encodePage options adv)).flatten))))))))))))))))))))))))))))) ++ (Book.write_glyph_table glyphs ++ []) = magicBytes ++ ([2, 0] ++ (le16 (48 + (Book.metadataBytes metadata options).length) ++ (le16 options.screen_width ++ (le16 options.screen_height ++ (le32 pages.length ++ (le32 toc.length ++ (le32 ((48 + (Book.metadataBytes metadata options).length) + (Book.tocBytes toc).length) ++ (le32 (48 + (Book.metadataBytes metadata options).length) ++ (le32 (((48 + (Book.metadataBytes metadata options).length) + (Book.tocBytes toc).length) + (((lutOffsets options adv pages 0).map le32).flatten).length) ++ (le32 0 ++ (le32 0 ++ (le32 glyphs.length ++ (le32 ((((48 + (Book.metadataBytes metadata options).length) + (Book.tocBytes toc).length) + (((lutOffsets options adv pages 0).map le32).flatten).length) + ((pages.map (Book.encodePage options adv)).flatten).length) ++ (Book.write_string metadata.title ++ (Book.write_string metadata.author ++ (Book.write_string metadata.language ++ (Book.write_string metadata.identifier ++ (Book.write_string Book.fontdueStr ++ (le16 options.char_width ++ (le16 options.line_height ++ (le16i options.ascent ++ (le16 options.margin_x ++ (le16 options.margin_x ++ (le16 options.margin_y ++ (le16 options.margin_y ++ (Book.tocBytes toc ++ (((lutOffsets options adv pages 0).map le32).flatten ++ ((pages.map (Book.encodePage options adv)).flatten ++ (Book.write_glyph_table glyphs))))))))))))))))))))))))))))) from by
      simp [List.append_assoc]] at h
    exact ⟨res, h⟩
  have hreadoffs : read_offsets (magicBytes ++ ([2, 0] ++ (le16 (48 + (Book.metadataBytes metadata options).length) ++ (le16 options.screen_width ++ (le16 options.screen_height ++ (le32 pages.length ++ (le32 toc.length ++ (le32 ((48 + (Book.metadataBytes metadata options).length) + (Book.tocBytes toc).length) ++ (le32 (48 + (Book.metadataBytes metadata options).length) ++ (le32 (((48 + (Book.metadataBytes metadata options).length) + (Book.tocBytes toc).length) + (((lutOffsets options adv pages 0).map le32).flatten).length) ++ (le32 0 ++ (le32 0 ++ (le32 glyphs.length ++ (le32 ((((48 + (Book.metadataBytes metadata options).length) + (Book.tocBytes toc).length) + (((lutOffsets options adv pages 0).map le32).flatten).length) + ((pages.map (Book.encodePage options adv)).flatten).length) ++ (Book.write_string metadata.title ++ (Book.write_string metadata.author ++ (Book.write_string metadata.language ++ (Book.write_string metadata.identifier ++ (Book.write_string Book.fontdueStr ++ (le16 options.char_width ++ (le16 options.line_height ++ (le16i options.ascent ++ (le16 options.margin_x ++ (le16 options.margin_x ++ (le16 options.margin_y ++ (le16 options.margin_y ++ (Book.tocBytes toc ++ (((lutOffsets options adv pages 0).map le32).flatten ++ ((pages.map (Book.encodePage options adv)).flatten ++ (Book.write_glyph_table glyphs)))))))))))))))))))))))))))))) (((48 + (Book.metadataBytes metadata options).length) + (Book.tocBytes toc).length)) pages.length =
      .ok (lutOffsets options adv pages 0) := by
    have h := read_offsets_flat (lutOffsets options adv pages 0)
      (magicBytes ++ ([2, 0] ++ (le16 (48 + (Book.metadataBytes metadata options).length) ++ (le16 options.screen_width ++ (le16 options.screen_height ++ (le32 pages.length ++ (le32 toc.length ++ (le32 ((48 + (Book.metadataBytes metadata options).length) + (Book.tocBytes toc).length) ++ (le32 (48 + (Book.metadataBytes metadata options).length) ++ (le32 (((48 + (Book.metadataBytes metadata options).length) + (Book.tocBytes toc).length) + (((lutOffsets options adv pages 0).map le32).flatten).length) ++ (le32 0 ++ (le32 0 ++ (le32 glyphs.length ++ (le32 ((((48 + (Book.metadataBytes metadata options).length) + (Book.tocBytes toc).length) + (((lutOffsets options adv pages 0).map le32).flatten).length) + ((pages.map (Book.encodePage options adv)).flatten).length) ++ (Book.write_string metadata.title ++ (Book.write_string metadata.author ++ (Book.write_string metadata.language ++ (Book.write_string metadata.identifier ++ (Book.write_string Book.fontdueStr ++ (le16 options.char_width ++ (le16 options.line_height ++ (le16i options.ascent ++ (le16 options.margin_x ++ (le16 options.margin_x ++ (le16 options.margin_y ++ (le16 options.margin_y ++ (Book.tocBytes toc))))))))))))))))))))))))))) ((pages.map (Book.encodePage options adv)).flatten ++ (Book.write_glyph_table glyphs)) (fun v hv => by
        have := lutOffsets_le options adv pages 0 v hv
        omega)
    rw [lutOffsets_length] at h
    rw [show ((magicBytes ++ ([2, 0] ++ (le16 (48 + (Book.metadataBytes metadata options).length) ++ (le16 options.screen_width ++ (le16 options.screen_height ++ (le32 pages.length ++ (le32 toc.length ++ (le32 ((48 + (Book.metadataBytes metadata options).length) + (Book.tocBytes toc).length) ++ (le32 (48 + (Book.metadataBytes metadata options).length) ++ (le32 (((48 + (Book.metadataBytes metadata options).length) + (Book.tocBytes toc).length) + (((lutOffsets options adv pages 0).map le32).flatten).length) ++ (le32 0 ++ (le32 0 ++ (le32 glyphs.length ++ (le32 ((((48 + (Book.metadataBytes metadata options).length) + (Book.tocBytes toc).length) + (((lutOffsets options adv pages 0).map le32).flatten).length) + ((pages.map (Book.encodePage options adv)).flatten).length) ++ (Book.write_string metadata.title ++ (Book.write_string metadata.author ++ (Book.write_string metadata.language ++ (Book.write_string metadata.identifier ++ (Book.write_string Book.fontdueStr ++ (le16 options.char_width ++ (le16 options.line_height ++ (le16i options.ascent ++ (le16 options.margin_x ++ (le16 options.margin_x ++ (le16 options.margin_y ++ (le16 options.margin_y ++ (Book.tocBytes toc))))))))))))))))))))))))))) : List Nat).length = ((48 + (Book.metadataBytes metadata options).length) + (Book.tocBytes toc).length) from by
      simp only [List.length_append, List.length_cons, List.length_nil, length_le16, length_le32, length_le16i, length_write_string, Book.metadataBytes, magicBytes] <;> omega] at h
    rw [show (magicBytes ++ ([2, 0] ++ (le16 (48 + (Book.metadataBytes metadata options).length) ++ (le16 options.screen_width ++ (le16 options.screen_height ++ (le32 pages.length ++ (le32 toc.length ++ (le32 ((48 + (Book.metadataBytes metadata options).length) + (Book.tocBytes toc).length) ++ (le32 (48 + (Book.metadataBytes metadata options).length) ++ (le32 (((48 + (Book.metadataBytes metadata options).length) + (Book.tocBytes toc).length) + (((lutOffsets options adv pages 0).map le32).flatten).length) ++ (le32 0 ++ (le32 0 ++ (le32 glyphs.length ++ (le32 ((((48 + (Book.metadataBytes metadata options).length) + (Book.tocBytes toc).length) + (((lutOffsets options adv pages 0).map le32).flatten).length) + ((pages.map (Book.encodePage options adv)).flatten).length) ++ (Book.write_string metadata.title ++ (Book.write_string metadata.author ++ (Book.write_string metadata.language ++ (Book.write_string metadata.identifier ++ (Book.write_string Book.fontdueStr ++ (le16 options.char_width ++ (le16 options.line_height ++ (le16i options.ascent ++ (le16 options.margin_x ++ (le16 options.margin_x ++ (le16 options.margin_y ++ (le16 options.margin_y ++ (Book.tocBytes toc))))))))))))))))))))))))))) ++ ((((lutOffsets options adv pages 0).map le32).flatten) ++ ((pages.map (Book.encodePage options adv)).flatten ++ (Book.write_glyph_table glyphs))) = magicBytes ++ ([2, 0] ++ (le16 (48 + (Book.metadataBytes metadata options).length) ++ (le16 options.screen_width ++ (le16 options.screen_height ++ (le32 pages.length ++ (le32 toc.length ++ (le32 ((48 + (Book.metadataBytes metadata options).length) + (Book.tocBytes toc).length) ++ (le32 (48 + (Book.metadataBytes metadata options).length) ++ (le32 (((48 + (Book.metadataBytes metadata options).length) + (Book.tocBytes toc).length) + (((lutOffsets options adv pages 0).map le32).flatten).length) ++ (le32 0 ++ (le32 0 ++ (le32 glyphs.length ++ (le32 ((((48 + (Book.metadataBytes metadata options).length) + (Book.tocBytes toc).length) + (((lutOffsets options adv pages 0).map le32).flatten).length) + ((pages.map (Book.encodePage options adv)).flatten).length) ++ (Book.write_string metadata.title ++ (Book.write_string metadata.author ++ (Book.write_string metadata.language ++ (Book.write_string metadata.identifier ++ (Book.write_string Book.fontdueStr ++ (le16 options.char_width ++ (le16 options.line_height ++ (le16i options.ascent ++ (le16 options.margin_x ++ (le16 options.margin_x ++ (le16 options.margin_y ++ (le16 options.margin_y ++ (Book.tocBytes toc ++ (((lutOffsets options adv pages 0).map le32).flatten ++ ((pages.map (Book.encodePage options adv)).flatten ++ (Book.write_glyph_table glyphs))))))))))))))))))))))))))))) from by
      simp [List.append_assoc]] at h
    exact h
  have hpagesres : parse_pages (magicBytes ++ ([2, 0] ++ (le16 (48 + (Book.metadataBytes metadata options).length) ++ (le16 options.screen_width ++ (le16 options.screen_height ++ (le32 pages.length ++ (le32 toc.length ++ (le32 ((48 + (Book.metadataBytes metadata options).length) + (Book.tocBytes toc).length) ++ (le32 (48 + (Book.metadataBytes metadata options).length) ++ (le32 (((48 + (Book.metadataBytes metadata options).length) + (Book.tocBytes toc).length) + (((lutOffsets options adv pages 0).map le32).flatten).length) ++ (le32 0 ++ (le32 0 ++ (le32 glyphs.length ++ (le32 ((((48 + (Book.metadataBytes metadata options).length) + (Book.tocBytes toc).length) + (((lutOffsets options adv pages 0).map le32).flatten).length) + ((pages.map (Book.encodePage options adv)).flatten).length) ++ (Book.write_string metadata.title ++ (Book.write_string metadata.author ++ (Book.write_string metadata.language ++ (Book.write_string metadata.identifier ++ (Book.write_string Book.fontdueStr ++ (le16 options.char_width ++ (le16 options.line_height ++ (le16i options.ascent ++ (le16 options.margin_x ++ (le16 options.margin_x ++ (le16 options.margin_y ++ (le16 options.margin_y ++ (Book.tocBytes toc ++ (((lutOffsets options adv pages 0).map le32).flatten ++ ((pages.map (Book.encodePage options adv)).flatten ++ (Book.write_glyph_table glyphs)))))))))))))))))))))))))))))) 2 ((((48 + (Book.metadataBytes metadata options).length) + (Book.tocBytes toc).length) + (((lutOffsets options adv pages 0).map le32).flatten).length)) (((((48 + (Book.metadataBytes metadata options).length) + (Book.tocBytes toc).length) + (((lutOffsets options adv pages 0).map le32).flatten).length) + ((pages.map (Book.encodePage options adv)).flatten).length))
      (lutOffsets options adv pages 0) 0 pages.length =
      .ok (pages.map (fun p => (⟨pageOpsE options adv p⟩ : TrbkPage))) := by
    have h := parse_pages_enc options adv pages (magicBytes ++ ([2, 0] ++ (le16 (48 + (Book.metadataBytes metadata options).length) ++ (le16 options.screen_width ++ (le16 options.screen_height ++ (le32 pages.length ++ (le32 toc.length ++ (le32 ((48 + (Book.metadataBytes metadata options).length) + (Book.tocBytes toc).length) ++ (le32 (48 + (Book.metadataBytes metadata options).length) ++ (le32 (((48 + (Book.metadataBytes metadata options).length) + (Book.tocBytes toc).length) + (((lutOffsets options adv pages 0).map le32).flatten).length) ++ (le32 0 ++ (le32 0 ++ (le32 glyphs.length ++ (le32 ((((48 + (Book.metadataBytes metadata options).length) + (Book.tocBytes toc).length) + (((lutOffsets options adv pages 0).map le32).flatten).length) + ((pages.map (Book.encodePage options adv)).flatten).length) ++ (Book.write_string metadata.title ++ (Book.write_string metadata.author ++ (Book.write_string metadata.language ++ (Book.write_string metadata.identifier ++ (Book.write_string Book.fontdueStr ++ (le16 options.char_width ++ (le16 options.line_height ++ (le16i options.ascent ++ (le16 options.margin_x ++ (le16 options.margin_x ++ (le16 options.margin_y ++ (le16 options.margin_y ++ (Book.tocBytes toc ++ (((lutOffsets options adv pages 0).map le32).flatten)))))))))))))))))))))))))))) (Book.write_glyph_table glyphs) hrun
      (by
        intro hpdnil hpne
        rcases hpd with h | h | h
        · rw [h]
          rfl
        · exact absurd h hpne
        · exfalso
          obtain ⟨p, hp, r, hr, hne⟩ := h
          have henc : Book.encodePage options adv p ≠ [] := by
            unfold Book.encodePage
            exact page_record_bytes_ne_nil options adv p.runs _ _ ⟨r, hr, hne⟩
          exact henc (List.flatten_eq_nil_iff.mp hpdnil _
            (List.mem_map_of_mem _ hp)))
      pages.length 0 (by omega)
    rw [List.drop_zero] at h
    rw [show ((magicBytes ++ ([2, 0] ++ (le16 (48 + (Book.metadataBytes metadata options).length) ++ (le16 options.screen_width ++ (le16 options.screen_height ++ (le32 pages.length ++ (le32 toc.length ++ (le32 ((48 + (Book.metadataBytes metadata options).length) + (Book.tocBytes toc).length) ++ (le32 (48 + (Book.metadataBytes metadata options).length) ++ (le32 (((48 + (Book.metadataBytes metadata options).length) + (Book.tocBytes toc).length) + (((lutOffsets options adv pages 0).map le32).flatten).length) ++ (le32 0 ++ (le32 0 ++ (le32 glyphs.length ++ (le32 ((((48 + (Book.metadataBytes metadata options).length) + (Book.tocBytes toc).length) + (((lutOffsets options adv pages 0).map le32).flatten).length) + ((pages.map (Book.encodePage options adv)).flatten).length) ++ (Book.write_string metadata.title ++ (Book.write_string metadata.author ++ (Book.write_string metadata.language ++ (Book.write_string metadata.identifier ++ (Book.write_string Book.fontdueStr ++ (le16 options.char_width ++ (le16 options.line_height ++ (le16i options.ascent ++ (le16 options.margin_x ++ (le16 options.margin_x ++ (le16 options.margin_y ++ (le16 options.margin_y ++ (Book.tocBytes toc ++ (((lutOffsets options adv pages 0).map le32).flatten)))))))))))))))))))))))))))) : List Nat).length = (((48 + (Book.metadataBytes metadata options).length) + (Book.tocBytes toc).length) + (((lutOffsets options adv pages 0).map le32).flatten).length) from by
      simp only [List.length_append, List.length_cons, List.length_nil, length_le16, length_le32, length_le16i, length_write_string, Book.metadataBytes, magicBytes] <;> omega] at h
    rw [show (magicBytes ++ ([2, 0] ++ (le16 (48 + (Book.metadataBytes metadata options).length) ++ (le16 options.screen_width ++ (le16 options.screen_height ++ (le32 pages.length ++ (le32 toc.length ++ (le32 ((48 + (Book.metadataBytes metadata options).length) + (Book.tocBytes toc).length) ++ (le32 (48 + (Book.metadataBytes metadata options).length) ++ (le32 (((48 + (Book.metadataBytes metadata options).length) + (Book.tocBytes toc).length) + (((lutOffsets options adv pages 0).map le32).flatten).length) ++ (le32 0 ++ (le32 0 ++ (le32 glyphs.length ++ (le32 ((((48 + (Book.metadataBytes metadata options).length) + (Book.tocBytes toc).length) + (((lutOffsets options adv pages 0).map le32).flatten).length) + ((pages.map (Book.encodePage options adv)).flatten).length) ++ (Book.write_string metadata.title ++ (Book.write_string metadata.author ++ (Book.write_string metadata.language ++ (Book.write_string metadata.identifier ++ (Book.write_string Book.fontdueStr ++ (le16 options.char_width ++ (le16 options.line_height ++ (le16i options.ascent ++ (le16 options.margin_x ++ (le16 options.margin_x ++ (le16 options.margin_y ++ (le16 options.margin_y ++ (Book.tocBytes toc ++ (((lutOffsets options adv pages 0).map le32).flatten)))))))))))))))))))))))))))) ++ (((pages.map (Book.encodePage options adv)).flatten) ++ (Book.write_glyph_table glyphs)) = magicBytes ++ ([2, 0] ++ (le16 (48 + (Book.metadataBytes metadata options).length) ++ (le16 options.screen_width ++ (le16 options.screen_height ++ (le32 pages.length ++ (le32 toc.length ++ (le32 ((48 + (Book.metadataBytes metadata options).length) + (Book.tocBytes toc).length) ++ (le32 (48 + (Book.metadataBytes metadata options).length) ++ (le32 (((48 + (Book.metadataBytes metadata options).length) + (Book.tocBytes toc).length) + (((lutOffsets options adv pages 0).map le32).flatten).length) ++ (le32 0 ++ (le32 0 ++ (le32 glyphs.length ++ (le32 ((((48 + (Book.metadataBytes metadata options).length) + (Book.tocBytes toc).length) + (((lutOffsets options adv pages 0).map le32).flatten).length) + ((pages.map (Book.encodePage options adv)).flatten).length) ++ (Book.write_string metadata.title ++ (Book.write_string metadata.author ++ (Book.write_string metadata.language ++ (Book.write_string metadata.identifier ++ (Book.write_string Book.fontdueStr ++ (le16 options.char_width ++ (le16 options.line_height ++ (le16i options.ascent ++ (le16 options.margin_x ++ (le16 options.margin_x ++ (le16 options.margin_y ++ (le16 options.margin_y ++ (Book.tocBytes toc ++ (((lutOffsets options adv pages 0).map le32).flatten ++ ((pages.map (Book.encodePage options adv)).flatten ++ (Book.write_glyph_table glyphs))))))))))))))))))))))))))))) from by
      simp [List.append_assoc]] at h
    rw [show ((((48 + (Book.metadataBytes metadata options).length) + (Book.tocBytes toc).length) + (((lutOffsets options adv pages 0).map le32).flatten).length)) + ((pages.map (Book.encodePage options adv)).flatten).length = ((((48 + (Book.metadataBytes metadata options).length) + (Book.tocBytes toc).length) + (((lutOffsets options adv pages 0).map le32).flatten).length) + ((pages.map (Book.encodePage options adv)).flatten).length) from by omega] at h
    exact h
  rw [hfile]
  unfold parse_trbk
  rw [if_neg (not_or.mpr ⟨by omega, not_ne_iff.mpr htake4⟩)]
  simp only [pure_bind]
  rw [hb4]
  rw [if_neg (by simp)]
  rw [hread6, ok_bind]
  rw [read_u16_eq (magicBytes ++ ([2, 0] ++ (le16 (48 + (Book.metadataBytes metadata options).length) ++ (le16 options.screen_width ++ (le16 options.screen_height ++ (le32 pages.length ++ (le32 toc.length ++ (le32 ((48 + (Book.metadataBytes metadata options).length) + (Book.tocBytes toc).length) ++ (le32 (48 + (Book.metadataBytes metadata options).length) ++ (le32 (((48 + (Book.metadataBytes metadata options).length) + (Book.tocBytes toc).length) + (((lutOffsets options adv pages 0).map le32).flatten).length) ++ (le32 0 ++ (le32 0 ++ (le32 glyphs.length ++ (le32 ((((48 + (Book.metadataBytes metadata options).length) + (Book.tocBytes toc).length) + (((lutOffsets options adv pages 0).map le32).flatten).length) + ((pages.map (Book.encodePage options adv)).flatten).length) ++ (Book.write_string metadata.title ++ (Book.write_string metadata.author ++ (Book.write_string metadata.language ++ (Book.write_string metadata.identifier ++ (Book.write_string Book.fontdueStr ++ (le16 options.char_width ++ (le16 options.line_height ++ (le16i options.ascent ++ (le16 options.margin_x ++ (le16 options.margin_x ++ (le16 options.margin_y ++ (le16 options.margin_y ++ (Book.tocBytes toc ++ (((lutOffsets options adv pages 0).map le32).flatten ++ ((pages.map (Book.encodePage options adv)).flatten ++ (Book.write_glyph_table glyphs)))))))))))))))))))))))))))))) 8 (by omega), ok_bind]
  rw [read_u16_eq (magicBytes ++ ([2, 0] ++ (le16 (48 + (Book.metadataBytes metadata options).length) ++ (le16 options.screen_width ++ (le16 options.screen_height ++ (le32 pages.length ++ (le32 toc.length ++ (le32 ((48 + (Book.metadataBytes metadata options).length) + (Book.tocBytes toc).length) ++ (le32 (48 + (Book.metadataBytes metadata options).length) ++ (le32 (((48 + (Book.metadataBytes metadata options).length) + (Book.tocBytes toc).length) + (((lutOffsets options adv pages 0).map le32).flatten).length) ++ (le32 0 ++ (le32 0 ++ (le32 glyphs.length ++ (le32 ((((48 + (Book.metadataBytes metadata options).length) + (Book.tocBytes toc).length) + (((lutOffsets options adv pages 0).map le32).flatten).length) + ((pages.map (Book.encodePage options adv)).flatten).length) ++ (Book.write_string metadata.title ++ (Book.write_string metadata.author ++ (Book.write_string metadata.language ++ (Book.write_string metadata.identifier ++ (Book.write_string Book.fontdueStr ++ (le16 options.char_width ++ (le16 options.line_height ++ (le16i options.ascent ++ (le16 options.margin_x ++ (le16 options.margin_x ++ (le16 options.margin_y ++ (le16 options.margin_y ++ (Book.tocBytes toc ++ (((lutOffsets options adv pages 0).map le32).flatten ++ ((pages.map (Book.encodePage options adv)).flatten ++ (Book.write_glyph_table glyphs)))))))))))))))))))))))))))))) 10 (by omega), ok_bind]
  rw [hread12, ok_bind]
  rw [hread16, ok_bind]
  rw [hread20, ok_bind]
  rw [hread24, ok_bind]
  rw [hread28, ok_bind]
  rw [read_u32_eq (magicBytes ++ ([2, 0] ++ (le16 (48 + (Book.metadataBytes metadata options).length) ++ (le16 options.screen_width ++ (le16 options.screen_height ++ (le32 pages.length ++ (le32 toc.length ++ (le32 ((48 + (Book.metadataBytes metadata options).length) + (Book.tocBytes toc).length) ++ (le32 (48 + (Book.metadataBytes metadata options).length) ++ (le32 (((48 + (Book.metadataBytes metadata options).length) + (Book.tocBytes toc).length) + (((lutOffsets options adv pages 0).map le32).flatten).length) ++ (le32 0 ++ (le32 0 ++ (le32 glyphs.length ++ (le32 ((((48 + (Book.metadataBytes metadata options).length) + (Book.tocBytes toc).length) + (((lutOffsets options adv pages 0).map le32).flatten).length) + ((pages.map (Book.encodePage options adv)).flatten).length) ++ (Book.write_string metadata.title ++ (Book.write_string metadata.author ++ (Book.write_string metadata.language ++ (Book.write_string metadata.identifier ++ (Book.write_string Book.fontdueStr ++ (le16 options.char_width ++ (le16 options.line_height ++ (le16i options.ascent ++ (le16 options.margin_x ++ (le16 options.margin_x ++ (le16 options.margin_y ++ (le16 options.margin_y ++ (Book.tocBytes toc ++ (((lutOffsets options adv pages 0).map le32).flatten ++ ((pages.map (Book.encodePage options adv)).flatten ++ (Book.write_glyph_table glyphs)))))))))))))))))))))))))))))) 32 (by omega), ok_bind]
  rw [if_pos (by norm_num : (2 : Nat) ≤ 2)]
  rw [hread40, ok_bind]
  rw [hread44, ok_bind]
  try simp only [pure_bind]
  rw [if_neg (by omega)]
  try simp only [pure_bind]
  rw [if_neg (by omega)]
  try simp only [pure_bind]
  rw [if_neg (by omega)]
  try simp only [pure_bind]
  rw [if_pos (by norm_num : (2 : Nat) ≤ 2)]
  rw [hrs1, ok_bind]
  try simp only []
  rw [hrs2, ok_bind]
  try simp only []
  rw [hrs3, ok_bind]
  try simp only []
  rw [hrs4, ok_bind]
  try simp only []
  rw [hrs5, ok_bind]
  try simp only []
  rw [read_u16_eq (magicBytes ++ ([2, 0] ++ (le16 (48 + (Book.metadataBytes metadata options).length) ++ (le16 options.screen_width ++ (le16 options.screen_height ++ (le32 pages.length ++ (le32 toc.length ++ (le32 ((48 + (Book.metadataBytes metadata options).length) + (Book.tocBytes toc).length) ++ (le32 (48 + (Book.metadataBytes metadata options).length) ++ (le32 (((48 + (Book.metadataBytes metadata options).length) + (Book.tocBytes toc).length) + (((lutOffsets options adv pages 0).map le32).flatten).length) ++ (le32 0 ++ (le32 0 ++ (le32 glyphs.length ++ (le32 ((((48 + (Book.metadataBytes metadata options).length) + (Book.tocBytes toc).length) + (((lutOffsets options adv pages 0).map le32).flatten).length) + ((pages.map (Book.encodePage options adv)).flatten).length) ++ (Book.write_string metadata.title ++ (Book.write_string metadata.author ++ (Book.write_string metadata.language ++ (Book.write_string metadata.identifier ++ (Book.write_string Book.fontdueStr ++ (le16 options.char_width ++ (le16 options.line_height ++ (le16i options.ascent ++ (le16 options.margin_x ++ (le16 options.margin_x ++ (le16 options.margin_y ++ (le16 options.margin_y ++ (Book.tocBytes toc ++ (((lutOffsets options adv pages 0).map le32).flatten ++ ((pages.map (Book.encodePage options adv)).flatten ++ (Book.write_glyph_table glyphs)))))))))))))))))))))))))))))) (48 + 4 + (utf8Encode metadata.title).length + 4 + (utf8Encode metadata.author).length + 4 + (utf8Encode metadata.language).length + 4 + (utf8Encode metadata.identifier).length + 4 + (utf8Encode Book.fontdueStr).length) (by omega), ok_bind]
  rw [read_u16_eq (magicBytes ++ ([2, 0] ++ (le16 (48 + (Book.metadataBytes metadata options).length) ++ (le16 options.screen_width ++ (le16 options.screen_height ++ (le32 pages.length ++ (le32 toc.length ++ (le32 ((48 + (Book.metadataBytes metadata options).length) + (Book.tocBytes toc).length) ++ (le32 (48 + (Book.metadataBytes metadata options).length) ++ (le32 (((48 + (Book.metadataBytes metadata options).length) + (Book.tocBytes toc).length) + (((lutOffsets options adv pages 0).map le32).flatten).length) ++ (le32 0 ++ (le32 0 ++ (le32 glyphs.length ++ (le32 ((((48 + (Book.metadataBytes metadata options).length) + (Book.tocBytes toc).length) + (((lutOffsets options adv pages 0).map le32).flatten).length) + ((pages.map (Book.encodePage options adv)).flatten).length) ++ (Book.write_string metadata.title ++ (Book.write_string metadata.author ++ (Book.write_string metadata.language ++ (Book.write_string metadata.identifier ++ (Book.write_string Book.fontdueStr ++ (le16 options.char_width ++ (le16 options.line_height ++ (le16i options.ascent ++ (le16 options.margin_x ++ (le16 options.margin_x ++ (le16 options.margin_y ++ (le16 options.margin_y ++ (Book.tocBytes toc ++ (((lutOffsets options adv pages 0).map le32).flatten ++ ((pages.map (Book.encodePage options adv)).flatten ++ (Book.write_glyph_table glyphs)))))))))))))))))))))))))))))) (48 + 4 + (utf8Encode metadata.title).length + 4 + (utf8Encode metadata.author).length + 4 + (utf8Encode metadata.language).length + 4 + (utf8Encode metadata.identifier).length + 4 + (utf8Encode Book.fontdueStr).length + 2) (by omega), ok_bind]
  rw [read_u16_eq (magicBytes ++ ([2, 0] ++ (le16 (48 + (Book.metadataBytes metadata options).length) ++ (le16 options.screen_width ++ (le16 options.screen_height ++ (le32 pages.length ++ (le32 toc.length ++ (le32 ((48 + (Book.metadataBytes metadata options).length) + (Book.tocBytes toc).length) ++ (le32 (48 + (Book.metadataBytes metadata options).length) ++ (le32 (((48 + (Book.metadataBytes metadata options).length) + (Book.tocBytes toc).length) + (((lutOffsets options adv pages 0).map le32).flatten).length) ++ (le32 0 ++ (le32 0 ++ (le32 glyphs.length ++ (le32 ((((48 + (Book.metadataBytes metadata options).length) + (Book.tocBytes toc).length) + (((lutOffsets options adv pages 0).map le32).flatten).length) + ((pages.map (Book.encodePage options adv)).flatten).length) ++ (Book.write_string metadata.title ++ (Book.write_string metadata.author ++ (Book.write_string metadata.language ++ (Book.write_string metadata.identifier ++ (Book.write_string Book.fontdueStr ++ (le16 options.char_width ++ (le16 options.line_height ++ (le16i options.ascent ++ (le16 options.margin_x ++ (le16 options.margin_x ++ (le16 options.margin_y ++ (le16 options.margin_y ++ (Book.tocBytes toc ++ (((lutOffsets options adv pages 0).map le32).flatten ++ ((pages.map (Book.encodePage options adv)).flatten ++ (Book.write_glyph_table glyphs)))))))))))))))))))))))))))))) (48 + 4 + (utf8Encode metadata.title).length + 4 + (utf8Encode metadata.author).length + 4 + (utf8Encode metadata.language).length + 4 + (utf8Encode metadata.identifier).length + 4 + (utf8Encode Book.fontdueStr).length + 4) (by omega), ok_bind]
  rw [read_u16_eq (magicBytes ++ ([2, 0] ++ (le16 (48 + (Book.metadataBytes metadata options).length) ++ (le16 options.screen_width ++ (le16 options.screen_height ++ (le32 pages.length ++ (le32 toc.length ++ (le32 ((48 + (Book.metadataBytes metadata options).length) + (Book.tocBytes toc).length) ++ (le32 (48 + (Book.metadataBytes metadata options).length) ++ (le32 (((48 + (Book.metadataBytes metadata options).length) + (Book.tocBytes toc).length) + (((lutOffsets options adv pages 0).map le32).flatten).length) ++ (le32 0 ++ (le32 0 ++ (le32 glyphs.length ++ (le32 ((((48 + (Book.metadataBytes metadata options).length) + (Book.tocBytes toc).length) + (((lutOffsets options adv pages 0).map le32).flatten).length) + ((pages.map (Book.encodePage options adv)).flatten).length) ++ (Book.write_string metadata.title ++ (Book.write_string metadata.author ++ (Book.write_string metadata.language ++ (Book.write_string metadata.identifier ++ (Book.write_string Book.fontdueStr ++ (le16 options.char_width ++ (le16 options.line_height ++ (le16i options.ascent ++ (le16 options.margin_x ++ (le16 options.margin_x ++ (le16 options.margin_y ++ (le16 options.margin_y ++ (Book.tocBytes toc ++ (((lutOffsets options adv pages 0).map le32).flatten ++ ((pages.map (Book.encodePage options adv)).flatten ++ (Book.write_glyph_table glyphs)))))))))))))))))))))))))))))) (48 + 4 + (utf8Encode metadata.title).length + 4 + (utf8Encode metadata.author).length + 4 + (utf8Encode metadata.language).length + 4 + (utf8Encode metadata.identifier).length + 4 + (utf8Encode Book.fontdueStr).length + 4 + 2) (by omega), ok_bind]
  rw [read_u16_eq (magicBytes ++ ([2, 0] ++ (le16 (48 + (Book.metadataBytes metadata options).length) ++ (le16 options.screen_width ++ (le16 options.screen_height ++ (le32 pages.length ++ (le32 toc.length ++ (le32 ((48 + (Book.metadataBytes metadata options).length) + (Book.tocBytes toc).length) ++ (le32 (48 + (Book.metadataBytes metadata options).length) ++ (le32 (((48 + (Book.metadataBytes metadata options).length) + (Book.tocBytes toc).length) + (((lutOffsets options adv pages 0).map le32).flatten).length) ++ (le32 0 ++ (le32 0 ++ (le32 glyphs.length ++ (le32 ((((48 + (Book.metadataBytes metadata options).length) + (Book.tocBytes toc).length) + (((lutOffsets options adv pages 0).map le32).flatten).length) + ((pages.map (Book.encodePage options adv)).flatten).length) ++ (Book.write_string metadata.title ++ (Book.write_string metadata.author ++ (Book.write_string metadata.language ++ (Book.write_string metadata.identifier ++ (Book.write_string Book.fontdueStr ++ (le16 options.char_width ++ (le16 options.line_height ++ (le16i options.ascent ++ (le16 options.margin_x ++ (le16 options.margin_x ++ (le16 options.margin_y ++ (le16 options.margin_y ++ (Book.tocBytes toc ++ (((lutOffsets options adv pages 0).map le32).flatten ++ ((pages.map (Book.encodePage options adv)).flatten ++ (Book.write_glyph_table glyphs)))))))))))))))))))))))))))))) (48 + 4 + (utf8Encode metadata.title).length + 4 + (utf8Encode metadata.author).length + 4 + (utf8Encode metadata.language).length + 4 + (utf8Encode metadata.identifier).length + 4 + (utf8Encode Book.fontdueStr).length + 4 + 4) (by omega), ok_bind]
  rw [read_u16_eq (magicBytes ++ ([2, 0] ++ (le16 (48 + (Book.metadataBytes metadata options).length) ++ (le16 options.screen_width ++ (le16 options.screen_height ++ (le32 pages.length ++ (le32 toc.length ++ (le32 ((48 + (Book.metadataBytes metadata options).length) + (Book.tocBytes toc).length) ++ (le32 (48 + (Book.metadataBytes metadata options).length) ++ (le32 (((48 + (Book.metadataBytes metadata options).length) + (Book.tocBytes toc).length) + (((lutOffsets options adv pages 0).map le32).flatten).length) ++ (le32 0 ++ (le32 0 ++ (le32 glyphs.length ++ (le32 ((((48 + (Book.metadataBytes metadata options).length) + (Book.tocBytes toc).length) + (((lutOffsets options adv pages 0).map le32).flatten).length) + ((pages.map (Book.encodePage options adv)).flatten).length) ++ (Book.write_string metadata.title ++ (Book.write_string metadata.author ++ (Book.write_string metadata.language ++ (Book.write_string metadata.identifier ++ (Book.write_string Book.fontdueStr ++ (le16 options.char_width ++ (le16 options.line_height ++ (le16i options.ascent ++ (le16 options.margin_x ++ (le16 options.margin_x ++ (le16 options.margin_y ++ (le16 options.margin_y ++ (Book.tocBytes toc ++ (((lutOffsets options adv pages 0).map le32).flatten ++ ((pages.map (Book.encodePage options adv)).flatten ++ (Book.write_glyph_table glyphs)))))))))))))))))))))))))))))) (48 + 4 + (utf8Encode metadata.title).length + 4 + (utf8Encode metadata.author).length + 4 + (utf8Encode metadata.language).length + 4 + (utf8Encode metadata.identifier).length + 4 + (utf8Encode Book.fontdueStr).length + 4 + 6) (by omega), ok_bind]
  rw [if_neg (by omega)]
  try simp only [pure_bind]
  rw [if_neg (by omega)]
  obtain ⟨gl, hglv⟩ := hgp
  by_cases htoc0 : toc.length > 0
  · rw [if_pos htoc0, htc2, ok_bind]
    rw [if_neg (by omega)]
    rw [hreadoffs, ok_bind]
    try simp only []
    rw [lutOffsets_length]
    rw [hpagesres, ok_bind]
    by_cases hgl0 : glyphs = []
    · rw [if_neg (by simp [hgl0])]
      try simp only [pure_bind]
      refine ⟨_, rfl, rfl, ?_, rfl⟩
      rw [List.map_map]
      refine List.map_congr_left ?_
      intro p hp
      have h := pageRecs_texts options adv p.runs options.margin_x
        ((options.margin_y : Int) + options.ascent)
        (fun r hr => (hrun p hp r hr).1)
      simpa [pageOpsE] using h
    · rw [if_pos ⟨by norm_num, List.length_pos.mpr hgl0⟩, hglv, ok_bind]
      refine ⟨_, rfl, rfl, ?_, rfl⟩
      rw [List.map_map]
      refine List.map_congr_left ?_
      intro p hp
      have h := pageRecs_texts options adv p.runs options.margin_x
        ((options.margin_y : Int) + options.ascent)
        (fun r hr => (hrun p hp r hr).1)
      simpa [pageOpsE] using h
  · rw [if_neg htoc0]
    try simp only [pure_bind]
    rw [if_neg (by omega)]
    rw [hreadoffs, ok_bind]
    try simp only []
    rw [lutOffsets_length]
    rw [hpagesres, ok_bind]
    by_cases hgl0 : glyphs = []
    · rw [if_neg (by simp [hgl0])]
      try simp only [pure_bind]
      refine ⟨_, rfl, rfl, ?_, (by simp [List.length_eq_zero.mp (by omega : toc.length = 0)])⟩
      rw [List.map_map]
      refine List.map_congr_left ?_
      intro p hp
      have h := pageRecs_texts options adv p.runs options.margin_x
        ((options.margin_y : Int) + options.ascent)
        (fun r hr => (hrun p hp r hr).1)
      simpa [pageOpsE] using h
    · rw [if_pos ⟨by norm_num, List.length_pos.mpr hgl0⟩, hglv, ok_bind]
      refine ⟨_, rfl, rfl, ?_, (by simp [List.length_eq_zero.mp (by omega : toc.length = 0)])⟩
      rw [List.map_map]
      refine List.map_congr_left ?_
      intro p hp
      have h := pageRecs_texts options adv p.runs options.margin_x
        ((options.margin_y : Int) + options.ascent)
        (fun r hr => (hrun p hp r hr).1)
      simpa [pageOpsE] using h

/-- A concrete one-page, one-glyph, one-TOC-entry book for the round-trip
witness. -/
def c1md : Book.TrbkMetadata := ⟨[84], [65], [101, 110], [105, 100]⟩

def c1opts : Book.RenderOptions := ⟨480, 800, 16, 60, 20, 10, 14, 2⟩

def c1pages : List Book.RunLine :=
  [⟨0, [⟨[72, 105], ⟨false, false⟩⟩, ⟨[10], ⟨false, false⟩⟩,
    ⟨[33], ⟨true, false⟩⟩]⟩]

def c1glyphs : List Book.Glyph := [⟨72, .Regular, 5, 7, 6, 0, 7, [1, 2]⟩]

def c1adv : Book.AdvanceMap := fun _ _ => none

def c1toc : List Book.TrbkTocEntry := [⟨[67], 0, 1⟩]

set_option maxRecDepth 8192 in
/-- C1 witness: the round-trip theorem applied to the concrete book. -/
theorem c1_roundtrip_witness :
    (48 + (Book.metadataBytes c1md c1opts).length < 65536 ∧
      (Book.write_trbk c1md c1opts c1pages c1glyphs c1adv c1toc).length <
        4294967296) ∧
    ∃ book,
      parse_trbk (Book.write_trbk c1md c1opts c1pages c1glyphs c1adv c1toc) =
        .ok book ∧
      book.page_count = c1pages.length ∧
      book.pages.map (fun pg => pg.ops.map TrbkOp.text) =
        c1pages.map (fun p =>
          (p.runs.filter (fun r => ¬ r.text = [10])).map (fun r => r.text)) ∧
      book.toc = c1toc.map (fun e => ⟨e.title, e.page_index, e.level⟩) :=
  ⟨⟨by decide, by decide⟩,
    c1_roundtrip c1md c1opts c1pages c1glyphs c1adv c1toc (by decide)
      (by decide) (by decide) ⟨by decide, by decide, by decide, by decide⟩
      (by decide) (by decide) (by decide) (by decide)⟩

end Trbk
